import Mathlib

/-! # WalletLegacy: a shallow embedding of `src/WalletLegacy/WalletLegacy.cpp`

The wallet facade is embedded as a record of its member variables together with
one Lean function per C++ member function.  Every function runs atomically (the
facade mutex is not modelled); the observer notifications a call delivers are
returned as a list, in delivery order, and the detached threads and node
requests it launches are returned as a list of workers.

Collaborators whose code is not part of `WalletLegacy.cpp` (the transfers
container, the transaction cache, the transaction sender, the currency, the
serialiser and the synchroniser) are parameters: records of the member
functions the facade calls, or scripted outcomes of the calls that may throw.
-/

namespace CryptoNote

/-! ## Machine integers -/

/-- Reduction of a natural number to the range of `uint64_t`. -/
def u64 (n : Nat) : Nat := n % 2 ^ 64

/-- Subtraction of two `uint64_t` values, wrapping around. -/
def sub64 (a b : Nat) : Nat := (u64 a + (2 ^ 64 - u64 b)) % 2 ^ 64

/-- Addition of two `uint64_t` values, wrapping around. -/
def add64 (a b : Nat) : Nat := (u64 a + u64 b) % 2 ^ 64

/-- Conversion `static_cast<int64_t>` of a `uint64_t` value (two's complement). -/
def toInt64 (a : Nat) : Int :=
  if u64 a < 2 ^ 63 then (u64 a : Int) else (u64 a : Int) - 2 ^ 64

/-- Subtraction of two `int64_t` values as the hardware performs it. -/
def subInt64 (a b : Int) : Int := (a - b + 2 ^ 63) % 2 ^ 64 - 2 ^ 63

/-- The constant `ACCOUN_CREATE_TIME_ACCURACY`. -/
def ACCOUN_CREATE_TIME_ACCURACY : Nat := 24 * 60 * 60

/-! ## Error codes, exceptions and failures -/

/-- The wallet error codes of `CryptoNote::error` that the facade uses. -/
inductive WalletErrorCodes where
  | NOT_INITIALIZED
  | ALREADY_INITIALIZED
  | WRONG_STATE
  | WRONG_PASSWORD
  | INTERNAL_WALLET_ERROR
  | OPERATION_CANCELLED
  | TX_CANCEL_IMPOSSIBLE
  deriving DecidableEq, Repr

/-- A `std::error_code`: the default-constructed success value, a wallet error,
`std::errc::interrupted`, or any other code (passed through from a collaborator). -/
inductive ErrorCode where
  | success
  | wallet (e : WalletErrorCodes)
  | interrupted
  | other (n : Nat)
  deriving DecidableEq, Repr

/-- The function `make_error_code` on wallet errors. -/
def make_error_code (e : WalletErrorCodes) : ErrorCode := ErrorCode.wallet e

/-- The conversion of a `std::error_code` to `bool`: true for an error. -/
def ErrorCode.toBool : ErrorCode → Bool
  | ErrorCode.success => false
  | _ => true

/-- A C++ exception derived from `std::exception`: a `std::system_error` carrying a
code, a `std::runtime_error` carrying a message, or any other `std::exception`.  The
collaborators are taken to throw nothing that is not derived from `std::exception`. -/
inductive Exception where
  | system_error (code : ErrorCode)
  | runtime_error (what : String)
  | exception
  deriving DecidableEq, Repr

/-- The ways a member function can end without returning: a thrown exception, a
failed `assert`, a dereferenced null pointer, an unchecked vector index out of range,
and a wait that does not end while no other thread runs. -/
inductive Failure where
  | thrown (e : Exception)
  | assertion
  | nullDereference
  | outOfRange
  | blocked
  deriving DecidableEq, Repr

/-- The function `throwNotDefined`. -/
def throwNotDefined : Failure :=
  Failure.thrown (Exception.runtime_error "The behavior is not defined!")

/-- A thrown `std::system_error(make_error_code(e))`. -/
def throwSystemError (e : WalletErrorCodes) : Failure :=
  Failure.thrown (Exception.system_error (make_error_code e))

/-! ## Observer interface and events -/

abbrev TransactionId := Nat
abbrev TransferId := Nat
abbrev DepositId := Nat
abbrev Hash := Nat

/-- One invocation of a method of `IWalletLegacyObserver` on the registered observers. -/
inductive ObserverCall where
  | initCompleted (result : ErrorCode)
  | saveCompleted (result : ErrorCode)
  | synchronizationProgressUpdated (current total : Nat)
  | synchronizationCompleted (result : ErrorCode)
  | actualBalanceUpdated (balance : Nat)
  | pendingBalanceUpdated (balance : Nat)
  | actualDepositBalanceUpdated (balance : Nat)
  | pendingDepositBalanceUpdated (balance : Nat)
  | externalTransactionCreated (transactionId : TransactionId)
  | sendTransactionCompleted (transactionId : TransactionId) (result : ErrorCode)
  | transactionUpdated (transactionId : TransactionId)
  | depositsUpdated (depositIds : List DepositId)
  deriving DecidableEq, Repr

/-- A `WalletLegacyEvent`: a record that, when dispatched, invokes one observer method. -/
structure WalletLegacyEvent where
  call : ObserverCall
  deriving DecidableEq, Repr

/-- The method `WalletLegacyEvent::notify`. -/
def WalletLegacyEvent.notify (e : WalletLegacyEvent) : List ObserverCall := [e.call]

def WalletActualBalanceUpdatedEvent (balance : Nat) : WalletLegacyEvent :=
  ⟨ObserverCall.actualBalanceUpdated balance⟩

def WalletPendingBalanceUpdatedEvent (balance : Nat) : WalletLegacyEvent :=
  ⟨ObserverCall.pendingBalanceUpdated balance⟩

def WalletActualDepositBalanceUpdatedEvent (balance : Nat) : WalletLegacyEvent :=
  ⟨ObserverCall.actualDepositBalanceUpdated balance⟩

def WalletPendingDepositBalanceUpdatedEvent (balance : Nat) : WalletLegacyEvent :=
  ⟨ObserverCall.pendingDepositBalanceUpdated balance⟩

def WalletTransactionUpdatedEvent (transactionId : TransactionId) : WalletLegacyEvent :=
  ⟨ObserverCall.transactionUpdated transactionId⟩

/-! ## Collaborators -/

/-- The flags of `ITransfersContainer` that the facade passes. -/
inductive IncludeFlag where
  | IncludeKeyUnlocked
  | IncludeKeyNotUnlocked
  | IncludeTypeDeposit
  | IncludeStateAll
  | IncludeStateLocked
  | IncludeStateSoftLocked
  | IncludeStateUnlocked
  deriving DecidableEq, Repr

/-- A combination of flags with `|`. -/
abbrev Flags := List IncludeFlag

/-- The fields of `TransactionOutputInformation` that the facade reads. -/
structure TransactionOutputInformation where
  amount : Nat
  term : Nat
  transactionHash : Hash
  deriving DecidableEq, Repr

/-- The fields of `TransactionInformation` that the facade reads. -/
structure TransactionInformation where
  transactionHash : Hash
  blockHeight : Nat
  deriving DecidableEq, Repr

/-- The result of `ITransfersContainer::getTransactionInformation`: the returned flag
and the contents of the output parameters after the call. -/
structure TransactionInformationResult where
  ok : Bool
  info : TransactionInformation
  amountIn : Nat
  amountOut : Nat
  deriving DecidableEq, Repr

/-- The member functions of `ITransfersContainer` that the facade calls. -/
structure ITransfersContainer where
  balance : Flags → Nat
  getOutputs : Flags → List TransactionOutputInformation
  getTransactionInformation : Hash → TransactionInformationResult
  getTransactionOutputs : Hash → Flags → List TransactionOutputInformation
  getTransactionInputs : Hash → Flags → List TransactionOutputInformation

/-- The member functions of `Currency` that the facade calls. -/
structure Currency where
  calculateInterest : Nat → Nat → Nat → Nat

/-- A `WalletLegacyTransfer`. -/
structure WalletLegacyTransfer where
  address : String
  amount : Int
  deriving DecidableEq, Repr

/-- The arguments of `sendTransaction` after the transfers. -/
structure SendArguments where
  fee : Nat
  extra : String
  mixIn : Nat
  unlockTimestamp : Nat
  messages : List String
  ttl : Nat
  deriving DecidableEq, Repr

/-- The result of a cache member function that mutates the cache and returns a value. -/
structure CacheResult (C α : Type) where
  cache : C
  value : α

/-- The member functions of `WalletUserTransactionsCache` that the facade calls, over
a cache of type `C`. -/
structure WalletUserTransactionsCache (C : Type) where
  onTransactionUpdated : C → TransactionInformation → Int →
    List TransactionOutputInformation → List TransactionOutputInformation →
    CacheResult C (List WalletLegacyEvent)
  onTransactionDeleted : C → Hash → CacheResult C (List WalletLegacyEvent)
  unlockDeposits : C → List TransactionOutputInformation → CacheResult C (List DepositId)
  lockDeposits : C → List TransactionOutputInformation → CacheResult C (List DepositId)
  deleteOutdatedTransactions : C → CacheResult C (List TransactionId)
  reset : C → C
  unconfrimedOutsAmount : C → Nat
  unconfirmedTransactionsAmount : C → Nat
  countUnconfirmedSpentDepositsProfit : C → Nat
  countUnconfirmedSpentDepositsTotalAmount : C → Nat
  countUnconfirmedCreatedDepositsSum : C → Nat

/-- The result of a request factory of `WalletTransactionSender`: the cache after the
call, the output parameters `txId` and `events`, and the returned request (or null). -/
structure RequestResult (C R : Type) where
  cache : C
  txId : TransactionId
  events : List WalletLegacyEvent
  request : Option R

/-- The result of invoking a `WalletRequest::Callback`: the cache after the call and
the output parameters `events` and `nextRequest`. -/
structure CallbackResult (C R : Type) where
  cache : C
  events : List WalletLegacyEvent
  nextRequest : Option R

/-- The member functions of `WalletTransactionSender` and of the requests it makes,
over a cache of type `C` and requests of type `R`. -/
structure WalletTransactionSender (C R : Type) where
  makeSendRequest : C → ITransfersContainer → List WalletLegacyTransfer → SendArguments →
    RequestResult C R
  makeDepositRequest : C → ITransfersContainer → Nat → Nat → Nat → Nat → RequestResult C R
  makeWithdrawDepositRequest : C → ITransfersContainer → List DepositId → Nat →
    RequestResult C R
  callback : R → C → ErrorCode → CallbackResult C R

/-- The collaborators of one wallet. -/
structure Collaborators (C R : Type) where
  m_currency : Currency
  cache : WalletUserTransactionsCache C
  sender : WalletTransactionSender C R

/-! ## The wallet -/

/-- The enumeration `WalletLegacy::WalletState`. -/
inductive WalletState where
  | NOT_INITIALIZED
  | LOADING
  | INITIALIZED
  | SAVING
  deriving DecidableEq, Repr

/-- The account keys, reduced to the address the subscription is filed under and the
secret material. -/
structure AccountKeys where
  address : Nat
  secret : Nat
  deriving DecidableEq, Repr

/-- The class `AccountBase`: the keys and the creation time. -/
structure AccountBase where
  m_keys : AccountKeys
  m_creation_timestamp : Nat
  deriving DecidableEq, Repr

/-- The class `AccountSubscription` as `initSync` fills it in. -/
structure AccountSubscription where
  keys : AccountKeys
  syncStartHeight : Nat
  syncStartTimestamp : Nat
  deriving DecidableEq, Repr

/-- The state of the `WalletTransactionSender` object that the facade changes: whether
`stop` has been called on it. -/
structure SenderObject where
  stopped : Bool
  deriving DecidableEq, Repr

/-- The member variables of `WalletLegacy`.  `m_transferDetails` and `m_sender` are
pointers (`none` is the null pointer); `m_transferDetails` holds the current contents
of the container it points to; `m_subscription` is the subscription of this account
held by `m_transfersSync`; `m_asyncContextCounter` is the number of registered
asynchronous contexts. -/
structure WalletLegacy (C : Type) where
  m_state : WalletState
  m_isStopping : Bool
  m_password : String
  m_account : AccountBase
  m_lastNotifiedActualBalance : Nat
  m_lastNotifiedPendingBalance : Nat
  m_lastNotifiedActualDepositBalance : Nat
  m_lastNotifiedPendingDepositBalance : Nat
  m_transferDetails : Option ITransfersContainer
  m_subscription : Option AccountSubscription
  m_transactionsCache : C
  m_sender : Option SenderObject
  m_asyncContextCounter : Nat

/-- The facade callback a request is performed with. -/
inductive RequestCallback where
  | sendTransactionCallback
  | synchronizationCallback
  deriving DecidableEq, Repr

/-- A detached thread or a node request launched by a member function. -/
inductive Worker (R : Type) where
  | doLoad
  | doSave (saveDetailed saveCache : Bool)
  | perform (request : R) (callback : RequestCallback)
  deriving DecidableEq, Repr

/-- What one call of a member function does: the wallet after the call, the observer
notifications delivered during the call in order, the workers launched, and the
returned value or the failure that ended the call. -/
structure Outcome (C R α : Type) where
  wallet : WalletLegacy C
  notified : List ObserverCall
  spawned : List (Worker R)
  result : Except Failure α

variable {C R : Type}

/-- The constructor `WalletLegacy::WalletLegacy`, given the empty cache and the
default-constructed account. -/
def WalletLegacy.new (cache : C) (account : AccountBase) : WalletLegacy C :=
  { m_state := WalletState.NOT_INITIALIZED
    m_isStopping := false
    m_password := ""
    m_account := account
    m_lastNotifiedActualBalance := 0
    m_lastNotifiedPendingBalance := 0
    m_lastNotifiedActualDepositBalance := 0
    m_lastNotifiedPendingDepositBalance := 0
    m_transferDetails := none
    m_subscription := none
    m_transactionsCache := cache
    m_sender := none
    m_asyncContextCounter := 0 }

/-- The method `WalletAsyncContextCounter::addAsyncContext`. -/
def addAsyncContext (w : WalletLegacy C) : WalletLegacy C :=
  { w with m_asyncContextCounter := w.m_asyncContextCounter + 1 }

/-- The method `WalletAsyncContextCounter::delAsyncContext`, which the destructor of
`ContextCounterHolder` calls. -/
def delAsyncContext (w : WalletLegacy C) : WalletLegacy C :=
  { w with m_asyncContextCounter := w.m_asyncContextCounter - 1 }

/-- The method `std::string::compare`: zero exactly for equal strings, otherwise the
sign of the first difference or of the difference of the lengths. -/
def stringCompare : List Char → List Char → Int
  | [], [] => 0
  | [], _ :: _ => -1
  | _ :: _, [] => 1
  | a :: as, b :: bs =>
    if a.toNat < b.toNat then -1
    else if b.toNat < a.toNat then 1
    else stringCompare as bs

/-- The function `calculateDepositsAmount`: the accumulation over the outputs, with the
running index into `heights`. -/
def calculateDepositsAmount (transfers : List TransactionOutputInformation)
    (currency : Currency) (heights : List Nat) : Except Failure Nat :=
  (transfers.foldl
    (fun acc deposit =>
      match acc with
      | Except.error f => Except.error f
      | Except.ok (sum, index) =>
        match heights[index]? with
        | none => Except.error Failure.outOfRange
        | some height =>
          Except.ok (add64 (add64 sum deposit.amount)
            (currency.calculateInterest deposit.amount deposit.term height), index + 1))
    (Except.ok (0, 0))).map Prod.fst

/-- The method `WalletLegacy::getTransactionHeights` on the container that
`m_transferDetails` points to. -/
def getTransactionHeights (container : ITransfersContainer) :
    List TransactionOutputInformation → Except Failure (List Nat)
  | [] => Except.ok []
  | transfer :: rest =>
    let r := container.getTransactionInformation transfer.transactionHash
    if r.ok then
      match getTransactionHeights container rest with
      | Except.ok heights => Except.ok (r.info.blockHeight :: heights)
      | Except.error f => Except.error f
    else Except.error Failure.assertion

/-- What the collaborators do during one run of `doLoad`: the account and the cache as
`WalletLegacySerializer::deserialize` leaves them, the cache blob it returns or the
exception it throws, the container of the new subscription, and, for a non-empty blob,
the exception that `m_transfersSync.load` throws (if any) and the container after it. -/
structure LoadScript (C : Type) where
  account : AccountBase
  cache : C
  deserialize : Except Exception String
  container : ITransfersContainer
  load : Option Exception
  containerAfterLoad : ITransfersContainer

/-- The code an exception is reported with by the handlers of `doLoad` and `doSave`:
the code of a `std::system_error`, `INTERNAL_WALLET_ERROR` for any other exception. -/
def completionCode : Exception → ErrorCode
  | Exception.system_error code => code
  | _ => make_error_code WalletErrorCodes.INTERNAL_WALLET_ERROR

/-- What the collaborators do during one run of `doSave`: for each call that may
throw, the exception it throws (if any). -/
structure SaveScript where
  stop : Option Exception
  transfersSyncSave : Option Exception
  serialize : Option Exception
  start : Option Exception
  deriving DecidableEq, Repr

namespace WalletLegacy

/-- The method `WalletLegacy::throwIfNotInitialised`. -/
def throwIfNotInitialised (w : WalletLegacy C) : Except Failure Unit :=
  if w.m_state = WalletState.NOT_INITIALIZED ∨ w.m_state = WalletState.LOADING then
    Except.error (throwSystemError WalletErrorCodes.NOT_INITIALIZED)
  else if w.m_transferDetails.isSome then Except.ok ()
  else Except.error Failure.assertion

/-- The method `WalletLegacy::calculateActualDepositBalance`. -/
def calculateActualDepositBalance (env : Collaborators C R) (w : WalletLegacy C) :
    Except Failure Nat :=
  match w.m_transferDetails with
  | none => Except.error Failure.nullDereference
  | some container =>
    let transfers := container.getOutputs
      [IncludeFlag.IncludeTypeDeposit, IncludeFlag.IncludeStateUnlocked]
    match getTransactionHeights container transfers with
    | Except.error f => Except.error f
    | Except.ok heights =>
      match calculateDepositsAmount transfers env.m_currency heights with
      | Except.error f => Except.error f
      | Except.ok amount =>
        Except.ok (sub64 amount
          (env.cache.countUnconfirmedSpentDepositsTotalAmount w.m_transactionsCache))

/-- The method `WalletLegacy::calculatePendingDepositBalance`. -/
def calculatePendingDepositBalance (env : Collaborators C R) (w : WalletLegacy C) :
    Except Failure Nat :=
  match w.m_transferDetails with
  | none => Except.error Failure.nullDereference
  | some container =>
    let transfers := container.getOutputs
      [IncludeFlag.IncludeTypeDeposit, IncludeFlag.IncludeStateLocked,
        IncludeFlag.IncludeStateSoftLocked]
    match getTransactionHeights container transfers with
    | Except.error f => Except.error f
    | Except.ok heights =>
      match calculateDepositsAmount transfers env.m_currency heights with
      | Except.error f => Except.error f
      | Except.ok amount =>
        Except.ok (add64 amount
          (env.cache.countUnconfirmedCreatedDepositsSum w.m_transactionsCache))

/-- The method `WalletLegacy::calculateActualBalance`. -/
def calculateActualBalance (env : Collaborators C R) (w : WalletLegacy C) :
    Except Failure Nat :=
  match w.m_transferDetails with
  | none => Except.error Failure.nullDereference
  | some container =>
    Except.ok (sub64 (container.balance [IncludeFlag.IncludeKeyUnlocked])
      (env.cache.unconfrimedOutsAmount w.m_transactionsCache))

/-- The method `WalletLegacy::calculatePendingBalance`. -/
def calculatePendingBalance (env : Collaborators C R) (w : WalletLegacy C) :
    Except Failure Nat :=
  let change := sub64 (env.cache.unconfrimedOutsAmount w.m_transactionsCache)
    (env.cache.unconfirmedTransactionsAmount w.m_transactionsCache)
  let spentDeposits := u64 (env.cache.countUnconfirmedSpentDepositsProfit w.m_transactionsCache)
  match w.m_transferDetails with
  | none => Except.error Failure.nullDereference
  | some container =>
    let containerBalance := u64 (container.balance [IncludeFlag.IncludeKeyNotUnlocked])
    Except.ok (add64 (add64 containerBalance change) spentDeposits)

/-! ### Balance-change events -/

/-- The method `WalletLegacy::getActualDepositBalanceChangedEvent`. -/
def getActualDepositBalanceChangedEvent (env : Collaborators C R) (w : WalletLegacy C) :
    Except Failure (Option WalletLegacyEvent × WalletLegacy C) :=
  match calculateActualDepositBalance env w with
  | Except.error f => Except.error f
  | Except.ok actual =>
    let prevActual := w.m_lastNotifiedActualDepositBalance
    let w1 := { w with m_lastNotifiedActualDepositBalance := actual }
    Except.ok
      (if actual ≠ prevActual then some (WalletActualDepositBalanceUpdatedEvent actual)
        else none, w1)

/-- The method `WalletLegacy::getPendingDepositBalanceChangedEvent`. -/
def getPendingDepositBalanceChangedEvent (env : Collaborators C R) (w : WalletLegacy C) :
    Except Failure (Option WalletLegacyEvent × WalletLegacy C) :=
  match calculatePendingDepositBalance env w with
  | Except.error f => Except.error f
  | Except.ok pending =>
    let prevPending := w.m_lastNotifiedPendingDepositBalance
    let w1 := { w with m_lastNotifiedPendingDepositBalance := pending }
    Except.ok
      (if pending ≠ prevPending then some (WalletPendingDepositBalanceUpdatedEvent pending)
        else none, w1)

/-- The method `WalletLegacy::getActualBalanceChangedEvent`. -/
def getActualBalanceChangedEvent (env : Collaborators C R) (w : WalletLegacy C) :
    Except Failure (Option WalletLegacyEvent × WalletLegacy C) :=
  match calculateActualBalance env w with
  | Except.error f => Except.error f
  | Except.ok actual =>
    let prevActual := w.m_lastNotifiedActualBalance
    let w1 := { w with m_lastNotifiedActualBalance := actual }
    Except.ok
      (if actual ≠ prevActual then some (WalletActualBalanceUpdatedEvent actual)
        else none, w1)

/-- The method `WalletLegacy::getPendingBalanceChangedEvent`. -/
def getPendingBalanceChangedEvent (env : Collaborators C R) (w : WalletLegacy C) :
    Except Failure (Option WalletLegacyEvent × WalletLegacy C) :=
  match calculatePendingBalance env w with
  | Except.error f => Except.error f
  | Except.ok pending =>
    let prevPending := w.m_lastNotifiedPendingBalance
    let w1 := { w with m_lastNotifiedPendingBalance := pending }
    Except.ok
      (if pending ≠ prevPending then some (WalletPendingBalanceUpdatedEvent pending)
        else none, w1)

/-- The method `WalletLegacy::notifyClients`: the notifications delivered, in order,
and the queue that is left. -/
def notifyClients : List WalletLegacyEvent → List ObserverCall × List WalletLegacyEvent
  | [] => ([], [])
  | event :: rest =>
    let r := notifyClients rest
    (event.notify ++ r.1, r.2)

/-- The method `WalletLegacy::actualBalance`. -/
def actualBalance (env : Collaborators C R) (w : WalletLegacy C) : Except Failure Nat :=
  match throwIfNotInitialised w with
  | Except.error f => Except.error f
  | Except.ok _ => calculateActualBalance env w

/-- The method `WalletLegacy::pendingBalance`. -/
def pendingBalance (env : Collaborators C R) (w : WalletLegacy C) : Except Failure Nat :=
  match throwIfNotInitialised w with
  | Except.error f => Except.error f
  | Except.ok _ => calculatePendingBalance env w

/-- The method `WalletLegacy::actualDepositBalance`. -/
def actualDepositBalance (env : Collaborators C R) (w : WalletLegacy C) :
    Except Failure Nat :=
  match throwIfNotInitialised w with
  | Except.error f => Except.error f
  | Except.ok _ => calculateActualDepositBalance env w

/-- The method `WalletLegacy::pendingDepositBalance`. -/
def pendingDepositBalance (env : Collaborators C R) (w : WalletLegacy C) :
    Except Failure Nat :=
  match throwIfNotInitialised w with
  | Except.error f => Except.error f
  | Except.ok _ => calculatePendingDepositBalance env w

/-- The method `WalletLegacy::notifyIfBalanceChanged`. -/
def notifyIfBalanceChanged (env : Collaborators C R) (w : WalletLegacy C) :
    Outcome C R Unit :=
  match actualBalance env w with
  | Except.error f => { wallet := w, notified := [], spawned := [], result := Except.error f }
  | Except.ok actual =>
    let prevActual := w.m_lastNotifiedActualBalance
    let w1 := { w with m_lastNotifiedActualBalance := actual }
    let n1 := if prevActual ≠ actual then [ObserverCall.actualBalanceUpdated actual] else []
    match pendingBalance env w1 with
    | Except.error f => { wallet := w1, notified := n1, spawned := [], result := Except.error f }
    | Except.ok pending =>
      let prevPending := w1.m_lastNotifiedPendingBalance
      let w2 := { w1 with m_lastNotifiedPendingBalance := pending }
      let n2 := if prevPending ≠ pending then [ObserverCall.pendingBalanceUpdated pending]
        else []
      { wallet := w2, notified := n1 ++ n2, spawned := [], result := Except.ok () }

/-- The method `WalletLegacy::notifyIfDepositBalanceChanged`. -/
def notifyIfDepositBalanceChanged (env : Collaborators C R) (w : WalletLegacy C) :
    Outcome C R Unit :=
  match getActualDepositBalanceChangedEvent env w with
  | Except.error f => { wallet := w, notified := [], spawned := [], result := Except.error f }
  | Except.ok (actualEvent, w1) =>
    match getPendingDepositBalanceChangedEvent env w1 with
    | Except.error f => { wallet := w1, notified := [], spawned := [], result := Except.error f }
    | Except.ok (pendingEvent, w2) =>
      let n1 := match actualEvent with
        | some e => e.notify
        | none => []
      let n2 := match pendingEvent with
        | some e => e.notify
        | none => []
      { wallet := w2, notified := n1 ++ n2, spawned := [], result := Except.ok () }

/-- The method `WalletLegacy::pushBalanceUpdatedEvents`: the wallet after the call and
either the queue after the call or the failure together with the queue so far. -/
def pushBalanceUpdatedEvents (env : Collaborators C R) (w : WalletLegacy C)
    (eventsQueue : List WalletLegacyEvent) :
    WalletLegacy C × List WalletLegacyEvent × Option Failure :=
  match getActualDepositBalanceChangedEvent env w with
  | Except.error f => (w, eventsQueue, some f)
  | Except.ok (actualDepositBalanceUpdated, w1) =>
    let q1 := eventsQueue ++ actualDepositBalanceUpdated.toList
    match getPendingDepositBalanceChangedEvent env w1 with
    | Except.error f => (w1, q1, some f)
    | Except.ok (pendingDepositBalanceUpdated, w2) =>
      let q2 := q1 ++ pendingDepositBalanceUpdated.toList
      match getActualBalanceChangedEvent env w2 with
      | Except.error f => (w2, q2, some f)
      | Except.ok (actualBalanceUpdated, w3) =>
        let q3 := q2 ++ actualBalanceUpdated.toList
        match getPendingBalanceChangedEvent env w3 with
        | Except.error f => (w3, q3, some f)
        | Except.ok (pendingBalanceUpdated, w4) =>
          (w4, q3 ++ pendingBalanceUpdated.toList, none)

/-! ### Lifecycle -/

/-- The method `WalletLegacy::initSync`; `container` is the container of the
subscription that `m_transfersSync.addSubscription` returns.  The source handles no
exception of the calls made here, and none of them is taken to throw. -/
def initSync (w : WalletLegacy C) (container : ITransfersContainer) : WalletLegacy C :=
  let sub : AccountSubscription :=
    { keys := w.m_account.m_keys
      syncStartHeight := 0
      syncStartTimestamp := sub64 w.m_account.m_creation_timestamp ACCOUN_CREATE_TIME_ACCURACY }
  { w with
    m_subscription := some sub
    m_transferDetails := some container
    m_sender := some { stopped := false }
    m_state := WalletState.INITIALIZED }

/-- The method `WalletLegacy::initAndGenerate`; `generated` is the account that
`m_account.generate()` produces. -/
def initAndGenerate (w : WalletLegacy C) (password : String) (generated : AccountBase)
    (container : ITransfersContainer) : Outcome C R Unit :=
  if w.m_state ≠ WalletState.NOT_INITIALIZED then
    { wallet := w, notified := [], spawned := [],
      result := Except.error (throwSystemError WalletErrorCodes.ALREADY_INITIALIZED) }
  else
    let w1 := { w with m_account := generated }
    let w2 := { w1 with m_password := password }
    { wallet := initSync w2 container,
      notified := [ObserverCall.initCompleted ErrorCode.success],
      spawned := [], result := Except.ok () }

/-- The method `WalletLegacy::initWithKeys`. -/
def initWithKeys (w : WalletLegacy C) (accountKeys : AccountKeys) (password : String)
    (container : ITransfersContainer) : Outcome C R Unit :=
  if w.m_state ≠ WalletState.NOT_INITIALIZED then
    { wallet := w, notified := [], spawned := [],
      result := Except.error (throwSystemError WalletErrorCodes.ALREADY_INITIALIZED) }
  else
    let w1 := { w with m_account := { w.m_account with m_keys := accountKeys } }
    let w2 := { w1 with
      m_account := { w1.m_account with m_creation_timestamp := ACCOUN_CREATE_TIME_ACCURACY } }
    let w3 := { w2 with m_password := password }
    { wallet := initSync w3 container,
      notified := [ObserverCall.initCompleted ErrorCode.success],
      spawned := [], result := Except.ok () }

/-- The method `WalletLegacy::initAndLoad`. -/
def initAndLoad (w : WalletLegacy C) (password : String) : Outcome C R Unit :=
  if w.m_state ≠ WalletState.NOT_INITIALIZED then
    { wallet := w, notified := [], spawned := [],
      result := Except.error (throwSystemError WalletErrorCodes.ALREADY_INITIALIZED) }
  else
    let w1 := { w with m_password := password }
    let w2 := { w1 with m_state := WalletState.LOADING }
    { wallet := addAsyncContext w2, notified := [], spawned := [Worker.doLoad],
      result := Except.ok () }

/-- The method `WalletLegacy::doLoad`. -/
def doLoad (w : WalletLegacy C) (s : LoadScript C) : Outcome C R Unit :=
  let w1 := { w with m_account := s.account, m_transactionsCache := s.cache }
  match s.deserialize with
  | Except.error e =>
    let w2 := { w1 with m_state := WalletState.NOT_INITIALIZED }
    { wallet := delAsyncContext w2,
      notified := [ObserverCall.initCompleted (completionCode e)],
      spawned := [], result := Except.ok () }
  | Except.ok cache =>
    let w2 := initSync w1 s.container
    let w3 :=
      if cache.isEmpty then w2
      else
        -- the exception `s.load` of `m_transfersSync.load` is caught and ignored
        { w2 with m_transferDetails := some s.containerAfterLoad }
    { wallet := delAsyncContext w3,
      notified := [ObserverCall.initCompleted ErrorCode.success],
      spawned := [], result := Except.ok () }

/-- The first critical section of `WalletLegacy::shutdown`. -/
def shutdownBegin (w : WalletLegacy C) : Outcome C R Unit :=
  if w.m_isStopping then
    { wallet := w, notified := [], spawned := [], result := Except.error throwNotDefined }
  else
    let w1 := { w with m_isStopping := true }
    if w1.m_state ≠ WalletState.INITIALIZED then
      { wallet := w1, notified := [], spawned := [], result := Except.error throwNotDefined }
    else
      match w1.m_sender with
      | none =>
        { wallet := w1, notified := [], spawned := [],
          result := Except.error Failure.nullDereference }
      | some _ =>
        { wallet := { w1 with m_sender := some { stopped := true } },
          notified := [], spawned := [], result := Except.ok () }

/-- The part of `WalletLegacy::shutdown` after `waitAsyncContextsFinish` has returned:
`m_sender.release()` and the second critical section. -/
def shutdownEnd (env : Collaborators C R) (w : WalletLegacy C) : Outcome C R Unit :=
  let w1 := { w with m_sender := none }
  let w2 := { w1 with m_isStopping := false }
  let w3 := { w2 with m_state := WalletState.NOT_INITIALIZED }
  match w3.m_subscription with
  | none =>
    { wallet := w3, notified := [], spawned := [], result := Except.error Failure.assertion }
  | some _ =>
    let w4 := { w3 with m_subscription := none }
    let w5 := { w4 with m_transferDetails := none }
    let w6 := { w5 with m_transactionsCache := env.cache.reset w5.m_transactionsCache }
    let w7 := { w6 with m_lastNotifiedActualBalance := 0 }
    let w8 := { w7 with m_lastNotifiedPendingBalance := 0 }
    { wallet := w8, notified := [], spawned := [], result := Except.ok () }

/-- The method `WalletLegacy::shutdown` in a run where no other thread makes progress
during the call: `waitAsyncContextsFinish` returns exactly when the counter is zero. -/
def shutdown (env : Collaborators C R) (w : WalletLegacy C) : Outcome C R Unit :=
  let o : Outcome C R Unit := shutdownBegin w
  match o.result with
  | Except.error _ => o
  | Except.ok _ =>
    if o.wallet.m_asyncContextCounter = 0 then shutdownEnd env o.wallet
    else { o with result := Except.error Failure.blocked }

/-- The method `WalletLegacy::save`. -/
def save (w : WalletLegacy C) (saveDetailed saveCache : Bool) : Outcome C R Unit :=
  if w.m_isStopping then
    { wallet := w,
      notified := [ObserverCall.saveCompleted
        (make_error_code WalletErrorCodes.OPERATION_CANCELLED)],
      spawned := [], result := Except.ok () }
  else if w.m_state ≠ WalletState.INITIALIZED then
    { wallet := w, notified := [], spawned := [],
      result := Except.error (throwSystemError WalletErrorCodes.WRONG_STATE) }
  else
    let w1 := { w with m_state := WalletState.SAVING }
    { wallet := addAsyncContext w1, notified := [],
      spawned := [Worker.doSave saveDetailed saveCache], result := Except.ok () }

/-- The `try` block of `WalletLegacy::doSave`: the wallet when the block is left and
the exception that left it (if any). -/
def doSaveTry (w : WalletLegacy C) (s : SaveScript) (saveCache : Bool) :
    WalletLegacy C × Option Exception :=
  match s.stop with
  | some e => (w, some e)
  | none =>
    match (if saveCache then s.transfersSyncSave else none) with
    | some e => (w, some e)
    | none =>
      match s.serialize with
      | some e => (w, some e)
      | none =>
        let w1 := { w with m_state := WalletState.INITIALIZED }
        match s.start with
        | some e => (w1, some e)
        | none => (w1, none)

/-- The method `WalletLegacy::doSave`. -/
def doSave (w : WalletLegacy C) (s : SaveScript) (saveDetailed saveCache : Bool) :
    Outcome C R Unit :=
  let _ := saveDetailed
  match doSaveTry w s saveCache with
  | (w1, some e) =>
    let w2 := { w1 with m_state := WalletState.INITIALIZED }
    { wallet := delAsyncContext w2,
      notified := [ObserverCall.saveCompleted (completionCode e)],
      spawned := [], result := Except.ok () }
  | (w1, none) =>
    { wallet := delAsyncContext w1,
      notified := [ObserverCall.saveCompleted ErrorCode.success],
      spawned := [], result := Except.ok () }

/-- The method `WalletLegacy::changePassword`. -/
def changePassword (w : WalletLegacy C) (oldPassword newPassword : String) :
    Outcome C R ErrorCode :=
  match throwIfNotInitialised w with
  | Except.error f => { wallet := w, notified := [], spawned := [], result := Except.error f }
  | Except.ok _ =>
    if stringCompare w.m_password.data oldPassword.data ≠ 0 then
      { wallet := w, notified := [], spawned := [],
        result := Except.ok (make_error_code WalletErrorCodes.WRONG_PASSWORD) }
    else
      { wallet := { w with m_password := newPassword }, notified := [], spawned := [],
        result := Except.ok ErrorCode.success }

/-! ### Transactions -/

/-- The common tail of `sendTransaction`, `deposit` and `withdrawDeposits`: deliver the
queue, then register one asynchronous context and perform the request if there is one. -/
def notifyAndPerform (w : WalletLegacy C) (events : List WalletLegacyEvent)
    (request : Option R) (txId : TransactionId) : Outcome C R TransactionId :=
  match request with
  | some r =>
    { wallet := addAsyncContext w, notified := (notifyClients events).1,
      spawned := [Worker.perform r RequestCallback.sendTransactionCallback],
      result := Except.ok txId }
  | none =>
    { wallet := w, notified := (notifyClients events).1, spawned := [],
      result := Except.ok txId }

/-- The method `WalletLegacy::sendTransaction` on a list of transfers. -/
def sendTransaction (env : Collaborators C R) (w : WalletLegacy C)
    (transfers : List WalletLegacyTransfer) (args : SendArguments) :
    Outcome C R TransactionId :=
  match throwIfNotInitialised w with
  | Except.error f => { wallet := w, notified := [], spawned := [], result := Except.error f }
  | Except.ok _ =>
    match w.m_sender, w.m_transferDetails with
    | some _, some container =>
      let r := env.sender.makeSendRequest w.m_transactionsCache container transfers args
      notifyAndPerform { w with m_transactionsCache := r.cache } r.events r.request r.txId
    | _, _ =>
      { wallet := w, notified := [], spawned := [],
        result := Except.error Failure.nullDereference }

/-- The method `WalletLegacy::sendTransaction` on one transfer. -/
def sendTransaction1 (env : Collaborators C R) (w : WalletLegacy C)
    (transfer : WalletLegacyTransfer) (args : SendArguments) : Outcome C R TransactionId :=
  match throwIfNotInitialised w with
  | Except.error f => { wallet := w, notified := [], spawned := [], result := Except.error f }
  | Except.ok _ => sendTransaction env w [transfer] args

/-- The part of `deposit` and `withdrawDeposits` after the request has been made. -/
def finishDepositRequest (env : Collaborators C R) (w : WalletLegacy C)
    (r : RequestResult C R) : Outcome C R TransactionId :=
  let w1 := { w with m_transactionsCache := r.cache }
  match r.request with
  | some _ =>
    match pushBalanceUpdatedEvents env w1 r.events with
    | (w2, _, some f) =>
      { wallet := w2, notified := [], spawned := [], result := Except.error f }
    | (w2, events, none) => notifyAndPerform w2 events r.request r.txId
  | none => notifyAndPerform w1 r.events r.request r.txId

/-- The method `WalletLegacy::deposit`. -/
def deposit (env : Collaborators C R) (w : WalletLegacy C) (term amount fee mixIn : Nat) :
    Outcome C R TransactionId :=
  match throwIfNotInitialised w with
  | Except.error f => { wallet := w, notified := [], spawned := [], result := Except.error f }
  | Except.ok _ =>
    match w.m_sender, w.m_transferDetails with
    | some _, some container =>
      finishDepositRequest env w
        (env.sender.makeDepositRequest w.m_transactionsCache container term amount fee mixIn)
    | _, _ =>
      { wallet := w, notified := [], spawned := [],
        result := Except.error Failure.nullDereference }

/-- The method `WalletLegacy::withdrawDeposits`. -/
def withdrawDeposits (env : Collaborators C R) (w : WalletLegacy C)
    (depositIds : List DepositId) (fee : Nat) : Outcome C R TransactionId :=
  match throwIfNotInitialised w with
  | Except.error f => { wallet := w, notified := [], spawned := [], result := Except.error f }
  | Except.ok _ =>
    match w.m_sender, w.m_transferDetails with
    | some _, some container =>
      finishDepositRequest env w
        (env.sender.makeWithdrawDepositRequest w.m_transactionsCache container depositIds fee)
    | _, _ =>
      { wallet := w, notified := [], spawned := [],
        result := Except.error Failure.nullDereference }

/-! ### Synchroniser callbacks -/

/-- The two deposit-balance checks that follow a cache update in `onTransactionUpdated`
and `onTransactionDeleted`, and the delivery of the queue. -/
def appendDepositBalanceEvents (env : Collaborators C R) (w : WalletLegacy C)
    (events : List WalletLegacyEvent) : Outcome C R Unit :=
  match getActualDepositBalanceChangedEvent env w with
  | Except.error f => { wallet := w, notified := [], spawned := [], result := Except.error f }
  | Except.ok (actualDepositBalanceChangedEvent, w1) =>
    match getPendingDepositBalanceChangedEvent env w1 with
    | Except.error f =>
      { wallet := w1, notified := [], spawned := [], result := Except.error f }
    | Except.ok (pendingDepositBalanceChangedEvent, w2) =>
      let events1 := events ++ actualDepositBalanceChangedEvent.toList
      let events2 := events1 ++ pendingDepositBalanceChangedEvent.toList
      { wallet := w2, notified := (notifyClients events2).1, spawned := [],
        result := Except.ok () }

/-- The method `WalletLegacy::onTransactionUpdated`. -/
def onTransactionUpdated (env : Collaborators C R) (w : WalletLegacy C)
    (transactionHash : Hash) : Outcome C R Unit :=
  match w.m_transferDetails with
  | none =>
    { wallet := w, notified := [], spawned := [],
      result := Except.error Failure.nullDereference }
  | some container =>
    let r := container.getTransactionInformation transactionHash
    if r.ok then
      let newDepositOuts := container.getTransactionOutputs transactionHash
        [IncludeFlag.IncludeTypeDeposit, IncludeFlag.IncludeStateAll]
      let spentDeposits := container.getTransactionInputs transactionHash
        [IncludeFlag.IncludeTypeDeposit]
      let c := env.cache.onTransactionUpdated w.m_transactionsCache r.info
        (subInt64 (toInt64 r.amountOut) (toInt64 r.amountIn)) newDepositOuts spentDeposits
      appendDepositBalanceEvents env { w with m_transactionsCache := c.cache } c.value
    else
      { wallet := w, notified := (notifyClients []).1, spawned := [], result := Except.ok () }

/-- The method `WalletLegacy::onTransactionDeleted`. -/
def onTransactionDeleted (env : Collaborators C R) (w : WalletLegacy C)
    (transactionHash : Hash) : Outcome C R Unit :=
  let c := env.cache.onTransactionDeleted w.m_transactionsCache transactionHash
  appendDepositBalanceEvents env { w with m_transactionsCache := c.cache } c.value

end WalletLegacy

/-! ## Concrete collaborators

The theorems below quantify over all collaborators.  The following small collaborators
are the concrete inputs at which they are evaluated. -/

/-- Modelled from the spec: the transaction cache of section 4.2, whose code is not in
`WalletLegacy.cpp`, reduced to the hashes of the known transactions (a transaction's
identifier is its position) and the sums the balance calculator reads. -/
structure ExampleCache where
  transactions : List Hash
  unconfirmedOuts : Nat
  unconfirmedTransactions : Nat
  spentDepositsProfit : Nat
  spentDepositsTotal : Nat
  createdDepositsSum : Nat
  deriving DecidableEq, Repr

/-- Modelled from the spec: `onTransactionUpdated` of section 4.2 is an
insert-or-update by transaction hash that emits `TransactionUpdated(id)`: an unknown
hash with a positive net amount is inserted under the next identifier, a known hash
keeps its identifier, an unknown hash with no positive net amount is ignored. -/
def ExampleCache.onTransactionUpdated (c : ExampleCache) (txInfo : TransactionInformation)
    (netAmount : Int) : CacheResult ExampleCache (List WalletLegacyEvent) :=
  if txInfo.transactionHash ∈ c.transactions then
    { cache := c,
      value := [WalletTransactionUpdatedEvent (c.transactions.indexOf txInfo.transactionHash)] }
  else if 0 < netAmount then
    { cache := { c with transactions := c.transactions ++ [txInfo.transactionHash] },
      value := [WalletTransactionUpdatedEvent c.transactions.length] }
  else { cache := c, value := [] }

/-- Modelled from the spec: the remaining cache operations of section 4.2 on
`ExampleCache`; deletion, deposit locking and outdated-transaction collection find
nothing to do, `reset` empties the cache. -/
def exampleCacheOps : WalletUserTransactionsCache ExampleCache :=
  { onTransactionUpdated := fun c txInfo netAmount _ _ => c.onTransactionUpdated txInfo netAmount
    onTransactionDeleted := fun c _ => { cache := c, value := [] }
    unlockDeposits := fun c _ => { cache := c, value := [] }
    lockDeposits := fun c _ => { cache := c, value := [] }
    deleteOutdatedTransactions := fun c => { cache := c, value := [] }
    reset := fun _ => ⟨[], 0, 0, 0, 0, 0⟩
    unconfrimedOutsAmount := fun c => c.unconfirmedOuts
    unconfirmedTransactionsAmount := fun c => c.unconfirmedTransactions
    countUnconfirmedSpentDepositsProfit := fun c => c.spentDepositsProfit
    countUnconfirmedSpentDepositsTotalAmount := fun c => c.spentDepositsTotal
    countUnconfirmedCreatedDepositsSum := fun c => c.createdDepositsSum }

/-- Modelled from the spec: the request factories of section 4.4 on `ExampleCache`.
Every factory assigns the next transaction identifier, registers the transaction in
the cache with the fee as its unconfirmed amount, and returns one request (the
number 0) with no initial events; request 0 has the follow-up request 1, which has no
follow-up. -/
def exampleSender : WalletTransactionSender ExampleCache Nat :=
  let register := fun (c : ExampleCache) (fee : Nat) =>
    ({ cache := { c with transactions := c.transactions ++ [1000 + c.transactions.length],
                         unconfirmedTransactions := c.unconfirmedTransactions + fee },
       txId := c.transactions.length, events := [], request := some 0 } :
      RequestResult ExampleCache Nat)
  { makeSendRequest := fun c _ _ args => register c args.fee
    makeDepositRequest := fun c _ _ _ fee _ => register c fee
    makeWithdrawDepositRequest := fun c _ _ fee => register c fee
    callback := fun r c _ =>
      { cache := c, events := [], nextRequest := if r = 0 then some 1 else none } }

/-- A currency whose interest is one hundredth of the amount per full hundred blocks
of the term. -/
def exampleCurrency : Currency :=
  { calculateInterest := fun amount term _ => amount / 100 * (term / 100) }

def exampleCollaborators : Collaborators ExampleCache Nat :=
  { m_currency := exampleCurrency, cache := exampleCacheOps, sender := exampleSender }

/-- A container that knows the transaction with hash 7 (block height 10, 1000 received,
nothing spent), holds 1000 unlocked and 100 not yet unlocked, and has no deposits. -/
def exampleContainer : ITransfersContainer :=
  { balance := fun flags =>
      if flags = [IncludeFlag.IncludeKeyUnlocked] then 1000
      else if flags = [IncludeFlag.IncludeKeyNotUnlocked] then 100 else 0
    getOutputs := fun _ => []
    getTransactionInformation := fun hash =>
      if hash = 7 then { ok := true, info := ⟨7, 10⟩, amountIn := 0, amountOut := 1000 }
      else { ok := false, info := ⟨0, 0⟩, amountIn := 0, amountOut := 0 }
    getTransactionOutputs := fun _ _ => []
    getTransactionInputs := fun _ _ => [] }

/-- A container with one unlocked deposit output of 500 with term 100, created by the
transaction with hash 7. -/
def depositContainer : ITransfersContainer :=
  { exampleContainer with
    getOutputs := fun flags =>
      if flags = [IncludeFlag.IncludeTypeDeposit, IncludeFlag.IncludeStateUnlocked] then
        [{ amount := 500, term := 100, transactionHash := 7 }]
      else [] }

def exampleAccount : AccountBase :=
  { m_keys := { address := 1, secret := 2 }, m_creation_timestamp := 90000 }

def emptyCache : ExampleCache := ⟨[], 0, 0, 0, 0, 0⟩

/-- A wallet in the given state, reached from the constructor: as constructed, after
`initAndLoad` with password `pw`, after `initAndGenerate` with password `pw` over the
example container, and after a subsequent `save`. -/
def exampleWallet : WalletState → WalletLegacy ExampleCache
  | WalletState.NOT_INITIALIZED => WalletLegacy.new emptyCache exampleAccount
  | WalletState.LOADING =>
    (WalletLegacy.initAndLoad (WalletLegacy.new emptyCache exampleAccount) "pw" :
      Outcome ExampleCache Nat Unit).wallet
  | WalletState.INITIALIZED =>
    (WalletLegacy.initAndGenerate (WalletLegacy.new emptyCache exampleAccount) "pw"
      exampleAccount exampleContainer : Outcome ExampleCache Nat Unit).wallet
  | WalletState.SAVING =>
    (WalletLegacy.save
      (WalletLegacy.initAndGenerate (WalletLegacy.new emptyCache exampleAccount) "pw"
        exampleAccount exampleContainer : Outcome ExampleCache Nat Unit).wallet
      true true : Outcome ExampleCache Nat Unit).wallet

/-- The example wallet in state `SAVING` after a call of `shutdown`, which has failed
and has left the stopping flag set. -/
def stoppingWallet : WalletLegacy ExampleCache :=
  (WalletLegacy.shutdown exampleCollaborators (exampleWallet WalletState.SAVING)).wallet

/-- A wallet with 100 not yet unlocked in the container, 5 of unconfirmed outputs and
10 of unconfirmed transactions: the difference `5 - 10` wraps around. -/
def wrappingWallet : WalletLegacy ExampleCache :=
  { exampleWallet WalletState.INITIALIZED with
    m_transactionsCache := { emptyCache with unconfirmedOuts := 5, unconfirmedTransactions := 10 } }

/-- The exception that leaves the `try` block of `doSave` under a script: the first one
thrown, in the order of the calls. -/
def SaveScript.thrown (s : SaveScript) (saveCache : Bool) : Option Exception :=
  match s.stop with
  | some e => some e
  | none =>
    match (if saveCache then s.transfersSyncSave else none) with
    | some e => some e
    | none =>
      match s.serialize with
      | some e => some e
      | none => s.start

/-- A script of `doLoad` in which deserialisation succeeds with a non-empty cache blob
and loading the blob into the sub-container throws. -/
def cacheFailureScript : LoadScript ExampleCache :=
  { account := exampleAccount, cache := emptyCache, deserialize := Except.ok "blob",
    container := exampleContainer, load := some (Exception.runtime_error "truncated"),
    containerAfterLoad := exampleContainer }

/-- A script of `doSave` in which serialisation throws a `std::runtime_error`. -/
def failingSaveScript : SaveScript :=
  { stop := none, transfersSyncSave := none,
    serialize := some (Exception.runtime_error "disk full"), start := none }

/-- One transfer of 10 to an address. -/
def exampleTransfer : WalletLegacyTransfer := { address := "addr", amount := 10 }

/-- Arguments of `sendTransaction` with a fee of 3. -/
def exampleArguments : SendArguments :=
  { fee := 3, extra := "", mixIn := 0, unlockTimestamp := 0, messages := [], ttl := 0 }

/-- The example wallet in state `INITIALIZED` over the container with one unlocked
deposit of 500 (interest 5): a freshly initialised wallet, all last-notified values 0. -/
def depositWallet : WalletLegacy ExampleCache :=
  { exampleWallet WalletState.INITIALIZED with m_transferDetails := some depositContainer }

/-! ## Balance axes -/

/-- The four balances of which the wallet stores a last-notified value. -/
inductive BalanceAxis where
  | actual
  | pending
  | actualDeposit
  | pendingDeposit
  deriving DecidableEq, Repr

/-- The event class of an axis. -/
def BalanceAxis.event : BalanceAxis → Nat → WalletLegacyEvent
  | BalanceAxis.actual => WalletActualBalanceUpdatedEvent
  | BalanceAxis.pending => WalletPendingBalanceUpdatedEvent
  | BalanceAxis.actualDeposit => WalletActualDepositBalanceUpdatedEvent
  | BalanceAxis.pendingDeposit => WalletPendingDepositBalanceUpdatedEvent

/-- The member variable `m_lastNotified...Balance` of an axis. -/
def WalletLegacy.lastNotified (w : WalletLegacy C) : BalanceAxis → Nat
  | BalanceAxis.actual => w.m_lastNotifiedActualBalance
  | BalanceAxis.pending => w.m_lastNotifiedPendingBalance
  | BalanceAxis.actualDeposit => w.m_lastNotifiedActualDepositBalance
  | BalanceAxis.pendingDeposit => w.m_lastNotifiedPendingDepositBalance

/-- The member function `calculate...Balance` of an axis. -/
def WalletLegacy.calculate (env : Collaborators C R) (w : WalletLegacy C) :
    BalanceAxis → Except Failure Nat
  | BalanceAxis.actual => WalletLegacy.calculateActualBalance env w
  | BalanceAxis.pending => WalletLegacy.calculatePendingBalance env w
  | BalanceAxis.actualDeposit => WalletLegacy.calculateActualDepositBalance env w
  | BalanceAxis.pendingDeposit => WalletLegacy.calculatePendingDepositBalance env w

/-- The member function `get...BalanceChangedEvent` of an axis. -/
def WalletLegacy.getBalanceChangedEvent (env : Collaborators C R) (w : WalletLegacy C) :
    BalanceAxis → Except Failure (Option WalletLegacyEvent × WalletLegacy C)
  | BalanceAxis.actual => WalletLegacy.getActualBalanceChangedEvent env w
  | BalanceAxis.pending => WalletLegacy.getPendingBalanceChangedEvent env w
  | BalanceAxis.actualDeposit => WalletLegacy.getActualDepositBalanceChangedEvent env w
  | BalanceAxis.pendingDeposit => WalletLegacy.getPendingDepositBalanceChangedEvent env w

/-- The wallet after the synchroniser and the request engine have changed the
contents of the container and of the cache. -/
def WalletLegacy.setEnvironment (w : WalletLegacy C) (container : ITransfersContainer)
    (cache : C) : WalletLegacy C :=
  { w with m_transferDetails := some container, m_transactionsCache := cache }

/-- A sequence of balance checks on one axis within one lifetime of the wallet: before
each check the container and the cache have the given contents; the result is the
event (or null) each check returned, in order, and the wallet after the last check. -/
def WalletLegacy.balanceChecks (env : Collaborators C R) (axis : BalanceAxis) :
    WalletLegacy C → List (ITransfersContainer × C) →
      Except Failure (List (Option WalletLegacyEvent) × WalletLegacy C)
  | w, [] => Except.ok ([], w)
  | w, (container, cache) :: rest =>
    match WalletLegacy.getBalanceChangedEvent env (w.setEnvironment container cache) axis with
    | Except.error f => Except.error f
    | Except.ok (event, w1) =>
      match WalletLegacy.balanceChecks env axis w1 rest with
      | Except.error f => Except.error f
      | Except.ok (events, w2) => Except.ok (event :: events, w2)

/-- Three successive contents of container and cache: the actual balance is computed as
1000, 1000 and then 995 (5 of unconfirmed outputs). -/
def exampleTrajectory : List (ITransfersContainer × ExampleCache) :=
  [(exampleContainer, emptyCache), (exampleContainer, emptyCache),
    (exampleContainer, { emptyCache with unconfirmedOuts := 5 })]

/-- The call of `m_transactionsCache.onTransactionUpdated` that the facade's
`onTransactionUpdated` makes for a transaction of the given net amount. -/
def cacheUpdate (env : Collaborators C R) (container : ITransfersContainer) (cache : C)
    (transactionHash : Hash) (netAmount : Int) : CacheResult C (List WalletLegacyEvent) :=
  env.cache.onTransactionUpdated cache
    (container.getTransactionInformation transactionHash).info netAmount
    (container.getTransactionOutputs transactionHash
      [IncludeFlag.IncludeTypeDeposit, IncludeFlag.IncludeStateAll])
    (container.getTransactionInputs transactionHash [IncludeFlag.IncludeTypeDeposit])

/-- The sum the spec gives for the deposit balances: over the given outputs, the amount
plus the interest on the amount for the term at the block height of the output's own
transaction, over the natural numbers. -/
def depositsSumSpec (container : ITransfersContainer) (currency : Currency)
    (transfers : List TransactionOutputInformation) : Nat :=
  (transfers.map
    (fun deposit => deposit.amount +
      currency.calculateInterest deposit.amount deposit.term
        (container.getTransactionInformation deposit.transactionHash).info.blockHeight)).sum

/-! ## Request callbacks and the remaining synchroniser callbacks -/

/-- The method `WalletLegacy::sendTransactionCallback`, called with the callback of the
performed request and the error code of the node.  The `ContextCounterHolder` removes
one asynchronous context when the function is left; a failed `assert` or a null
dereference ends the process instead. -/
def WalletLegacy.sendTransactionCallback (env : Collaborators C R) (w : WalletLegacy C)
    (request : R) (ec : ErrorCode) : Outcome C R Unit :=
  let r := env.sender.callback request w.m_transactionsCache ec
  let w1 := { w with m_transactionsCache := r.cache }
  match WalletLegacy.getActualDepositBalanceChangedEvent env w1 with
  | Except.error f => { wallet := w1, notified := [], spawned := [], result := Except.error f }
  | Except.ok (actualDepositBalanceUpdated, w2) =>
    let events1 := r.events ++ actualDepositBalanceUpdated.toList
    match WalletLegacy.getPendingDepositBalanceChangedEvent env w2 with
    | Except.error f =>
      { wallet := w2, notified := [], spawned := [], result := Except.error f }
    | Except.ok (pendingDepositBalanceUpdated, w3) =>
      let events2 := events1 ++ pendingDepositBalanceUpdated.toList
      match r.nextRequest with
      | some nextRequest =>
        { wallet := delAsyncContext (addAsyncContext w3),
          notified := (WalletLegacy.notifyClients events2).1,
          spawned := [Worker.perform nextRequest RequestCallback.synchronizationCallback],
          result := Except.ok () }
      | none =>
        { wallet := delAsyncContext w3, notified := (WalletLegacy.notifyClients events2).1,
          spawned := [], result := Except.ok () }

/-- The method `WalletLegacy::synchronizationCallback`. -/
def WalletLegacy.synchronizationCallback (env : Collaborators C R) (w : WalletLegacy C)
    (request : R) (ec : ErrorCode) : Outcome C R Unit :=
  let r := env.sender.callback request w.m_transactionsCache ec
  let w1 := { w with m_transactionsCache := r.cache }
  match r.nextRequest with
  | some nextRequest =>
    { wallet := delAsyncContext (addAsyncContext w1),
      notified := (WalletLegacy.notifyClients r.events).1,
      spawned := [Worker.perform nextRequest RequestCallback.synchronizationCallback],
      result := Except.ok () }
  | none =>
    { wallet := delAsyncContext w1, notified := (WalletLegacy.notifyClients r.events).1,
      spawned := [], result := Except.ok () }

/-- The call of the facade callback that a performed request was bound to. -/
def WalletLegacy.performCallback (env : Collaborators C R) (w : WalletLegacy C) (request : R)
    (callback : RequestCallback) (ec : ErrorCode) : Outcome C R Unit :=
  match callback with
  | RequestCallback.sendTransactionCallback =>
    WalletLegacy.sendTransactionCallback env w request ec
  | RequestCallback.synchronizationCallback =>
    WalletLegacy.synchronizationCallback env w request ec

/-- The callbacks of a request chain, run one after the other: the head of `workers` is
the performed request whose callback is due and the head of `codes` the error code the
node answers it with.  The run stops when no request is pending, when the codes are
used up, or when a callback fails.  The result is the wallet, the requests still
pending, the notifications delivered and the failure (if any). -/
def WalletLegacy.runChain (env : Collaborators C R) :
    WalletLegacy C → List (Worker R) → List ErrorCode →
      WalletLegacy C × List (Worker R) × List ObserverCall × Option Failure
  | w, Worker.perform request callback :: _, ec :: codes =>
    let o := WalletLegacy.performCallback env w request callback ec
    match o.result with
    | Except.error f => (o.wallet, [], o.notified, some f)
    | Except.ok _ =>
      let r := WalletLegacy.runChain env o.wallet o.spawned codes
      (r.1, r.2.1, o.notified ++ r.2.2.1, r.2.2.2)
  | w, workers, _ => (w, workers, [], none)

/-- The method `WalletLegacy::cancelTransaction`. -/
def WalletLegacy.cancelTransaction (w : WalletLegacy C) (transactionId : Nat) :
    Outcome C R ErrorCode :=
  let _ := transactionId
  { wallet := w, notified := [], spawned := [],
    result := Except.ok (make_error_code WalletErrorCodes.TX_CANCEL_IMPOSSIBLE) }

/-- The method `WalletLegacy::deleteOutdatedUnconfirmedTransactions`. -/
def WalletLegacy.deleteOutdatedUnconfirmedTransactions (env : Collaborators C R)
    (w : WalletLegacy C) : WalletLegacy C × List TransactionId :=
  let r := env.cache.deleteOutdatedTransactions w.m_transactionsCache
  ({ w with m_transactionsCache := r.cache }, r.value)

/-- The method `WalletLegacy::synchronizationProgressUpdated`. -/
def WalletLegacy.synchronizationProgressUpdated (env : Collaborators C R) (w : WalletLegacy C)
    (current total : Nat) : Outcome C R Unit :=
  let d := WalletLegacy.deleteOutdatedUnconfirmedTransactions env w
  let o : Outcome C R Unit := WalletLegacy.notifyIfBalanceChanged env d.1
  { wallet := o.wallet,
    notified := ObserverCall.synchronizationProgressUpdated current total ::
      (d.2.map ObserverCall.transactionUpdated ++ o.notified),
    spawned := [], result := o.result }

/-- The method `WalletLegacy::synchronizationCompleted`. -/
def WalletLegacy.synchronizationCompleted (env : Collaborators C R) (w : WalletLegacy C)
    (result : ErrorCode) : Outcome C R Unit :=
  let forwarded :=
    if result ≠ ErrorCode.interrupted then [ObserverCall.synchronizationCompleted result]
    else []
  if result.toBool then
    { wallet := w, notified := forwarded, spawned := [], result := Except.ok () }
  else
    let d := WalletLegacy.deleteOutdatedUnconfirmedTransactions env w
    let o : Outcome C R Unit := WalletLegacy.notifyIfBalanceChanged env d.1
    { wallet := o.wallet,
      notified := forwarded ++ (d.2.map ObserverCall.transactionUpdated ++ o.notified),
      spawned := [], result := o.result }

/-- The second wallet differs from the first at most in the cache and in the
last-notified balances. -/
def WalletLegacy.SameLifecycle (w w1 : WalletLegacy C) : Prop :=
  w1.m_state = w.m_state ∧ w1.m_isStopping = w.m_isStopping ∧
  w1.m_password = w.m_password ∧ w1.m_account = w.m_account ∧
  w1.m_transferDetails = w.m_transferDetails ∧ w1.m_subscription = w.m_subscription ∧
  w1.m_sender = w.m_sender ∧ w1.m_asyncContextCounter = w.m_asyncContextCounter

/-- The outcome starts a request chain on the wallet: the call returns a transaction
identifier, performs at most one request, bound to `sendTransactionCallback`, adds one
asynchronous context per performed request and keeps the container pointer. -/
def WalletLegacy.StartsChain (w : WalletLegacy C) (o : Outcome C R TransactionId) : Prop :=
  (∃ txId, o.result = Except.ok txId) ∧
  (o.spawned = [] ∨
    ∃ r, o.spawned = [Worker.perform r RequestCallback.sendTransactionCallback]) ∧
  o.wallet.m_asyncContextCounter = w.m_asyncContextCounter + o.spawned.length ∧
  o.wallet.m_transferDetails = w.m_transferDetails

/-! ## Runs of the wallet -/

/-- A wallet in the middle of a run: the wallet, the workers launched and not yet run
(the number of `doLoad` threads, the flags of the `doSave` threads, the performed
requests with the callback they are bound to), and whether a call of `shutdown` has
passed its first critical section and not yet its second. -/
structure Configuration (C R : Type) where
  wallet : WalletLegacy C
  loads : Nat
  saves : List (Bool × Bool)
  requests : List (R × RequestCallback)
  shuttingDown : Bool

/-- The configuration after the constructor. -/
def Configuration.initial (cache : C) (account : AccountBase) : Configuration C R :=
  { wallet := WalletLegacy.new cache account, loads := 0, saves := [], requests := [],
    shuttingDown := false }

/-- The configuration with the given launched workers added. -/
def Configuration.spawn (cfg : Configuration C R) : List (Worker R) → Configuration C R
  | [] => cfg
  | Worker.doLoad :: rest => Configuration.spawn { cfg with loads := cfg.loads + 1 } rest
  | Worker.doSave saveDetailed saveCache :: rest =>
    Configuration.spawn { cfg with saves := cfg.saves ++ [(saveDetailed, saveCache)] } rest
  | Worker.perform request callback :: rest =>
    Configuration.spawn { cfg with requests := cfg.requests ++ [(request, callback)] } rest

/-- The configuration after a call with the given outcome: the run goes on after a
return and after a thrown exception; a failed `assert`, a null dereference, an index out
of range and a wait that cannot end leave no configuration. -/
def Configuration.after {α : Type} (cfg : Configuration C R) (o : Outcome C R α) :
    Option (Configuration C R) :=
  match o.result with
  | Except.ok _ => some (Configuration.spawn { cfg with wallet := o.wallet } o.spawned)
  | Except.error (Failure.thrown _) =>
    some (Configuration.spawn { cfg with wallet := o.wallet } o.spawned)
  | Except.error _ => none

/-- One step of a run: a call of a member function by a user thread, by the
synchroniser or by the node, with its arguments; the run of a launched worker, with
what its collaborators do; or a change of the contents of the container by the
synchroniser. -/
inductive Action (C R : Type) where
  | initAndGenerate (password : String) (generated : AccountBase)
      (container : ITransfersContainer)
  | initWithKeys (accountKeys : AccountKeys) (password : String)
      (container : ITransfersContainer)
  | initAndLoad (password : String)
  | doLoad (script : LoadScript C)
  | save (saveDetailed saveCache : Bool)
  | doSave (script : SaveScript)
  | shutdownBegin
  | shutdownEnd
  | changePassword (oldPassword newPassword : String)
  | cancelTransaction (transactionId : Nat)
  | sendTransaction (transfers : List WalletLegacyTransfer) (args : SendArguments)
  | deposit (term amount fee mixIn : Nat)
  | withdrawDeposits (depositIds : List DepositId) (fee : Nat)
  | callback (index : Nat) (ec : ErrorCode)
  | onTransactionUpdated (transactionHash : Hash)
  | onTransactionDeleted (transactionHash : Hash)
  | synchronizationProgressUpdated (current total : Nat)
  | synchronizationCompleted (result : ErrorCode)
  | containerChanged (container : ITransfersContainer)

/-- The configuration after one step, if the step can be taken and does not end the
process.  A worker runs only if it has been launched; the second part of `shutdown`
runs only after the first has succeeded and the counter has reached zero; the
contents of the container change only while the pointer to it is set. -/
def Configuration.step (env : Collaborators C R) (cfg : Configuration C R) :
    Action C R → Option (Configuration C R)
  | Action.initAndGenerate password generated container =>
    cfg.after (WalletLegacy.initAndGenerate cfg.wallet password generated container :
      Outcome C R Unit)
  | Action.initWithKeys accountKeys password container =>
    cfg.after (WalletLegacy.initWithKeys cfg.wallet accountKeys password container :
      Outcome C R Unit)
  | Action.initAndLoad password =>
    cfg.after (WalletLegacy.initAndLoad cfg.wallet password : Outcome C R Unit)
  | Action.doLoad script =>
    if 0 < cfg.loads then
      Configuration.after { cfg with loads := cfg.loads - 1 }
        (WalletLegacy.doLoad cfg.wallet script : Outcome C R Unit)
    else none
  | Action.save saveDetailed saveCache =>
    cfg.after (WalletLegacy.save cfg.wallet saveDetailed saveCache : Outcome C R Unit)
  | Action.doSave script =>
    match cfg.saves with
    | [] => none
    | (saveDetailed, saveCache) :: rest =>
      Configuration.after { cfg with saves := rest }
        (WalletLegacy.doSave cfg.wallet script saveDetailed saveCache : Outcome C R Unit)
  | Action.shutdownBegin =>
    match (WalletLegacy.shutdownBegin cfg.wallet : Outcome C R Unit).result with
    | Except.ok _ =>
      some { cfg with
        wallet := (WalletLegacy.shutdownBegin cfg.wallet : Outcome C R Unit).wallet,
        shuttingDown := true }
    | Except.error (Failure.thrown _) =>
      some { cfg with
        wallet := (WalletLegacy.shutdownBegin cfg.wallet : Outcome C R Unit).wallet }
    | Except.error _ => none
  | Action.shutdownEnd =>
    if cfg.shuttingDown = true ∧ cfg.wallet.m_asyncContextCounter = 0 then
      match (WalletLegacy.shutdownEnd env cfg.wallet).result with
      | Except.ok _ =>
        some { cfg with wallet := (WalletLegacy.shutdownEnd env cfg.wallet).wallet,
                        shuttingDown := false }
      | Except.error _ => none
    else none
  | Action.changePassword oldPassword newPassword =>
    cfg.after (WalletLegacy.changePassword cfg.wallet oldPassword newPassword :
      Outcome C R ErrorCode)
  | Action.cancelTransaction transactionId =>
    cfg.after (WalletLegacy.cancelTransaction cfg.wallet transactionId :
      Outcome C R ErrorCode)
  | Action.sendTransaction transfers args =>
    cfg.after (WalletLegacy.sendTransaction env cfg.wallet transfers args)
  | Action.deposit term amount fee mixIn =>
    cfg.after (WalletLegacy.deposit env cfg.wallet term amount fee mixIn)
  | Action.withdrawDeposits depositIds fee =>
    cfg.after (WalletLegacy.withdrawDeposits env cfg.wallet depositIds fee)
  | Action.callback index ec =>
    match cfg.requests[index]? with
    | none => none
    | some (request, callback) =>
      Configuration.after { cfg with requests := cfg.requests.eraseIdx index }
        (WalletLegacy.performCallback env cfg.wallet request callback ec)
  | Action.onTransactionUpdated transactionHash =>
    cfg.after (WalletLegacy.onTransactionUpdated env cfg.wallet transactionHash)
  | Action.onTransactionDeleted transactionHash =>
    cfg.after (WalletLegacy.onTransactionDeleted env cfg.wallet transactionHash)
  | Action.synchronizationProgressUpdated current total =>
    cfg.after (WalletLegacy.synchronizationProgressUpdated env cfg.wallet current total)
  | Action.synchronizationCompleted result =>
    cfg.after (WalletLegacy.synchronizationCompleted env cfg.wallet result)
  | Action.containerChanged container =>
    if cfg.wallet.m_transferDetails.isSome then
      some { cfg with
        wallet := cfg.wallet.setEnvironment container cfg.wallet.m_transactionsCache }
    else none

/-- The configuration after the given steps, if each can be taken. -/
def Configuration.run (env : Collaborators C R) :
    Configuration C R → List (Action C R) → Option (Configuration C R)
  | cfg, [] => some cfg
  | cfg, action :: rest =>
    match cfg.step env action with
    | none => none
    | some next => Configuration.run env next rest

/-- The lifecycle members of a wallet: the state, the stopping flag, and whether the
container pointer, the sender and the subscription are set. -/
def WalletLegacy.lifecycle (w : WalletLegacy C) : WalletState × Bool × Bool × Bool × Bool :=
  (w.m_state, w.m_isStopping, w.m_transferDetails.isSome, w.m_sender.isSome,
    w.m_subscription.isSome)

/-- The container pointer, the sender and the subscription are set exactly when the
state is `INITIALIZED` or `SAVING`. -/
def WalletLegacy.PointersMatchState (w : WalletLegacy C) : Prop :=
  (w.m_transferDetails.isSome = true ↔
    (w.m_state = WalletState.INITIALIZED ∨ w.m_state = WalletState.SAVING)) ∧
  (w.m_sender.isSome = true ↔
    (w.m_state = WalletState.INITIALIZED ∨ w.m_state = WalletState.SAVING)) ∧
  (w.m_subscription.isSome = true ↔
    (w.m_state = WalletState.INITIALIZED ∨ w.m_state = WalletState.SAVING))

/-- The invariant of a run: the pointers match the state, a `doLoad` worker is pending
exactly in state `LOADING` and a `doSave` worker exactly in state `SAVING`, one of each
at most, and a `shutdown` in progress has found the state `INITIALIZED` and holds the
stopping flag. -/
def Configuration.Invariant (cfg : Configuration C R) : Prop :=
  cfg.wallet.PointersMatchState ∧
  cfg.loads = (if cfg.wallet.m_state = WalletState.LOADING then 1 else 0) ∧
  cfg.saves.length = (if cfg.wallet.m_state = WalletState.SAVING then 1 else 0) ∧
  (cfg.shuttingDown = true →
    cfg.wallet.m_state = WalletState.INITIALIZED ∧ cfg.wallet.m_isStopping = true)

/-- The call has not ended the process: it has returned or thrown an exception. -/
def Outcome.Continues {α : Type} (o : Outcome C R α) : Prop :=
  (∃ a, o.result = Except.ok a) ∨ (∃ e, o.result = Except.error (Failure.thrown e))

/-- The call has left the lifecycle members as they were in `w` and has launched at most
one worker, a performed request. -/
def Outcome.KeepsLifecycle {α : Type} (o : Outcome C R α) (w : WalletLegacy C) : Prop :=
  o.wallet.lifecycle = w.lifecycle ∧
  (o.spawned = [] ∨ ∃ request callback, o.spawned = [Worker.perform request callback])

/-- A run of the example wallet through a whole life: load (the cache blob fails to
load), a transaction with its two callbacks, a save whose serialisation fails, and a
shutdown. -/
def exampleRun : List (Action ExampleCache Nat) :=
  [Action.initAndLoad "pw", Action.doLoad cacheFailureScript,
    Action.sendTransaction [exampleTransfer] exampleArguments,
    Action.callback 0 ErrorCode.success, Action.callback 0 ErrorCode.success,
    Action.save true true, Action.doSave failingSaveScript,
    Action.shutdownBegin, Action.shutdownEnd]

/-- The configuration the example wallet is in after `actions`, from the constructor. -/
def exampleRunEnd (actions : List (Action ExampleCache Nat)) : Configuration ExampleCache Nat :=
  (Configuration.run exampleCollaborators (Configuration.initial emptyCache exampleAccount)
    actions).getD (Configuration.initial emptyCache exampleAccount)

/-! ## Arithmetic of the machine integers -/

theorem sub64_int (a b : Nat) : ((sub64 a b : Nat) : Int) = ((a : Int) - (b : Int)) % 2 ^ 64 := by
  unfold sub64 u64
  have hb : b % 2 ^ 64 < 2 ^ 64 := Nat.mod_lt _ (by norm_num)
  omega

theorem add64_int (a b : Nat) : ((add64 a b : Nat) : Int) = ((a : Int) + (b : Int)) % 2 ^ 64 := by
  unfold add64 u64
  omega

theorem stringCompare_eq_zero (a b : List Char) : stringCompare a b = 0 ↔ a = b := by
  induction a generalizing b with
  | nil => cases b <;> simp [stringCompare]
  | cons x xs ih =>
    cases b with
    | nil => simp [stringCompare]
    | cons y ys =>
      simp only [stringCompare, List.cons.injEq]
      by_cases h1 : x.toNat < y.toNat
      · simp only [h1, if_true]
        constructor
        · intro h; omega
        · rintro ⟨rfl, _⟩; omega
      · by_cases h2 : y.toNat < x.toNat
        · simp only [h1, h2, if_true, if_false]
          constructor
          · intro h; omega
          · rintro ⟨rfl, _⟩; omega
        · have hxy : x = y := by
            apply Char.ext
            apply UInt32.ext
            have : x.toNat = y.toNat := by omega
            exact this
          simp [h1, h2, ih, hxy]

/-! ## Balances -/

/-- Claim C10.  With the container set, `calculateActualBalance` returns
`balance(KeyUnlocked) - unconfirmedOutsAmount` reduced modulo `2^64` and
`calculatePendingBalance` returns `balance(KeyNotUnlocked) + (unconfirmedOutsAmount -
unconfirmedTransactionsAmount) + countUnconfirmedSpentDepositsProfit` reduced modulo
`2^64`, the formulas being read over the integers; hence each result equals the exact
value of its formula whenever that value lies in `[0, 2^64)`, whether or not the
intermediate difference wraps around. -/
theorem calculateBalance_mod_two_pow_64 (env : Collaborators C R) (w : WalletLegacy C)
    (container : ITransfersContainer) (h : w.m_transferDetails = some container) :
    (∃ actual : Nat,
      WalletLegacy.calculateActualBalance env w = Except.ok actual ∧
      (actual : Int) =
        ((container.balance [IncludeFlag.IncludeKeyUnlocked] : Int) -
          (env.cache.unconfrimedOutsAmount w.m_transactionsCache : Int)) % 2 ^ 64 ∧
      (∀ exact : Int,
        exact = (container.balance [IncludeFlag.IncludeKeyUnlocked] : Int) -
          (env.cache.unconfrimedOutsAmount w.m_transactionsCache : Int) →
        0 ≤ exact → exact < 2 ^ 64 → (actual : Int) = exact)) ∧
    (∃ pending : Nat,
      WalletLegacy.calculatePendingBalance env w = Except.ok pending ∧
      (pending : Int) =
        ((container.balance [IncludeFlag.IncludeKeyNotUnlocked] : Int) +
          ((env.cache.unconfrimedOutsAmount w.m_transactionsCache : Int) -
            (env.cache.unconfirmedTransactionsAmount w.m_transactionsCache : Int)) +
          (env.cache.countUnconfirmedSpentDepositsProfit w.m_transactionsCache : Int)) % 2 ^ 64 ∧
      (∀ exact : Int,
        exact = (container.balance [IncludeFlag.IncludeKeyNotUnlocked] : Int) +
          ((env.cache.unconfrimedOutsAmount w.m_transactionsCache : Int) -
            (env.cache.unconfirmedTransactionsAmount w.m_transactionsCache : Int)) +
          (env.cache.countUnconfirmedSpentDepositsProfit w.m_transactionsCache : Int) →
        0 ≤ exact → exact < 2 ^ 64 → (pending : Int) = exact)) := by
  constructor
  · refine ⟨_, by simp only [WalletLegacy.calculateActualBalance, h]; rfl, ?_, ?_⟩
    · exact sub64_int _ _
    · intro exact he h0 h1
      rw [sub64_int, ← he]
      exact Int.emod_eq_of_lt h0 h1
  · have key : ∀ b o t p : Nat,
        ((add64 (add64 (u64 b) (sub64 o t)) (u64 p) : Nat) : Int) =
          ((b : Int) + ((o : Int) - (t : Int)) + (p : Int)) % 2 ^ 64 := by
      intro b o t p
      have hb : b % 2 ^ 64 < 2 ^ 64 := Nat.mod_lt _ (by norm_num)
      have ht : t % 2 ^ 64 < 2 ^ 64 := Nat.mod_lt _ (by norm_num)
      unfold add64 sub64 u64
      omega
    refine ⟨_, by simp only [WalletLegacy.calculatePendingBalance, h]; rfl, ?_, ?_⟩
    · exact key _ _ _ _
    · intro exact he h0 h1
      rw [key, ← he]
      exact Int.emod_eq_of_lt h0 h1

/-- Witness of `calculateBalance_mod_two_pow_64`: on `wrappingWallet` the pending
balance is the exact value `100 + (5 - 10) + 0 = 95`. -/
theorem calculateBalance_mod_two_pow_64_witness :
    wrappingWallet.m_transferDetails = some exampleContainer ∧
    WalletLegacy.calculateActualBalance exampleCollaborators wrappingWallet = Except.ok 995 ∧
    WalletLegacy.calculatePendingBalance exampleCollaborators wrappingWallet = Except.ok 95 ∧
    sub64 5 10 = 2 ^ 64 - 5 := by
  obtain ⟨⟨a, ha, _, hax⟩, ⟨p, hp, _, hpx⟩⟩ :=
    calculateBalance_mod_two_pow_64 exampleCollaborators wrappingWallet exampleContainer rfl
  have h1 := hax 995 (by decide) (by decide) (by decide)
  have h2 := hpx 95 (by decide) (by decide) (by decide)
  have ea : a = 995 := by exact_mod_cast h1
  have ep : p = 95 := by exact_mod_cast h2
  subst ea
  subst ep
  exact ⟨rfl, ha, hp, by decide⟩

/-! ## Lifecycle -/

theorem completionCode_system_error (code : ErrorCode) :
    completionCode (Exception.system_error code) = code := rfl

theorem completionCode_other (e : Exception) (h : ∀ code, e ≠ Exception.system_error code) :
    completionCode e = make_error_code WalletErrorCodes.INTERNAL_WALLET_ERROR := by
  cases e with
  | system_error code => exact absurd rfl (h code)
  | runtime_error what => rfl
  | exception => rfl

theorem doSaveTry_thrown (w : WalletLegacy C) (s : SaveScript) (saveCache : Bool) :
    (WalletLegacy.doSaveTry w s saveCache).2 = s.thrown saveCache := by
  unfold WalletLegacy.doSaveTry SaveScript.thrown
  cases s.stop <;> simp only []
  cases (if saveCache then s.transfersSyncSave else none) <;> simp only []
  cases s.serialize <;> simp only []
  cases s.start <;> simp only []

/-- Claim C2.  On a wallet whose state is not `NOT_INITIALIZED`, each of
`initAndGenerate`, `initWithKeys` and `initAndLoad` throws
`std::system_error(ALREADY_INITIALIZED)`, leaves every member variable of the wallet
unchanged (state, account, password and asynchronous counter among them), delivers no
notification (so no `initCompleted`) and launches no worker. -/
theorem init_fails_when_already_initialized (w : WalletLegacy C)
    (h : w.m_state ≠ WalletState.NOT_INITIALIZED) (password : String)
    (generated : AccountBase) (accountKeys : AccountKeys) (container : ITransfersContainer) :
    (WalletLegacy.initAndGenerate w password generated container : Outcome C R Unit) =
      { wallet := w, notified := [], spawned := [],
        result := Except.error (throwSystemError WalletErrorCodes.ALREADY_INITIALIZED) } ∧
    (WalletLegacy.initWithKeys w accountKeys password container : Outcome C R Unit) =
      { wallet := w, notified := [], spawned := [],
        result := Except.error (throwSystemError WalletErrorCodes.ALREADY_INITIALIZED) } ∧
    (WalletLegacy.initAndLoad w password : Outcome C R Unit) =
      { wallet := w, notified := [], spawned := [],
        result := Except.error (throwSystemError WalletErrorCodes.ALREADY_INITIALIZED) } := by
  refine ⟨?_, ?_, ?_⟩
  · simp only [WalletLegacy.initAndGenerate, h, ne_eq, not_false_eq_true, if_true]
  · simp only [WalletLegacy.initWithKeys, h, ne_eq, not_false_eq_true, if_true]
  · simp only [WalletLegacy.initAndLoad, h, ne_eq, not_false_eq_true, if_true]

/-- Witness of `init_fails_when_already_initialized` on a wallet that is saving. -/
theorem init_fails_when_already_initialized_witness :
    (exampleWallet WalletState.SAVING).m_state ≠ WalletState.NOT_INITIALIZED ∧
    (WalletLegacy.initAndLoad (exampleWallet WalletState.SAVING) "other" :
        Outcome ExampleCache Nat Unit) =
      { wallet := exampleWallet WalletState.SAVING, notified := [], spawned := [],
        result := Except.error (throwSystemError WalletErrorCodes.ALREADY_INITIALIZED) } :=
  ⟨by decide,
    (init_fails_when_already_initialized (exampleWallet WalletState.SAVING) (by decide)
      "other" exampleAccount exampleAccount.m_keys exampleContainer).2.2⟩

theorem throwIfNotInitialised_of_initialized (w : WalletLegacy C)
    (hs : w.m_state = WalletState.INITIALIZED ∨ w.m_state = WalletState.SAVING)
    (hc : w.m_transferDetails.isSome = true) :
    WalletLegacy.throwIfNotInitialised w = Except.ok () := by
  unfold WalletLegacy.throwIfNotInitialised
  rcases hs with hs | hs <;> simp [hs, hc]

theorem throwIfNotInitialised_of_not_initialized (w : WalletLegacy C)
    (hs : w.m_state = WalletState.NOT_INITIALIZED ∨ w.m_state = WalletState.LOADING) :
    WalletLegacy.throwIfNotInitialised w =
      Except.error (throwSystemError WalletErrorCodes.NOT_INITIALIZED) := by
  unfold WalletLegacy.throwIfNotInitialised
  simp [hs]

/-- Claim C6.  On a wallet in state `INITIALIZED` (with its container set),
`changePassword(old, new)` returns `WRONG_PASSWORD` with the stored password unchanged
exactly when `old` differs from the stored password (and then changes nothing at all);
when `old` is the stored password it stores `new`, changes nothing else and returns
success.  In state `NOT_INITIALIZED` or `LOADING` it throws
`std::system_error(NOT_INITIALIZED)` and changes nothing. -/
theorem changePassword_spec (w : WalletLegacy C) (oldPassword newPassword : String) :
    (w.m_state = WalletState.INITIALIZED → w.m_transferDetails.isSome = true →
      (((WalletLegacy.changePassword w oldPassword newPassword : Outcome C R ErrorCode).result =
            Except.ok (make_error_code WalletErrorCodes.WRONG_PASSWORD) ∧
          (WalletLegacy.changePassword w oldPassword newPassword : Outcome C R ErrorCode).wallet.m_password =
            w.m_password) ↔ oldPassword ≠ w.m_password) ∧
      (oldPassword ≠ w.m_password →
        (WalletLegacy.changePassword w oldPassword newPassword : Outcome C R ErrorCode) =
          { wallet := w, notified := [], spawned := [],
            result := Except.ok (make_error_code WalletErrorCodes.WRONG_PASSWORD) }) ∧
      (oldPassword = w.m_password →
        (WalletLegacy.changePassword w oldPassword newPassword : Outcome C R ErrorCode) =
          { wallet := { w with m_password := newPassword }, notified := [], spawned := [],
            result := Except.ok ErrorCode.success })) ∧
    (w.m_state = WalletState.NOT_INITIALIZED ∨ w.m_state = WalletState.LOADING →
      (WalletLegacy.changePassword w oldPassword newPassword : Outcome C R ErrorCode) =
        { wallet := w, notified := [], spawned := [],
          result := Except.error (throwSystemError WalletErrorCodes.NOT_INITIALIZED) }) := by
  constructor
  · intro hs hc
    have hg := throwIfNotInitialised_of_initialized w (Or.inl hs) hc
    have hne : oldPassword ≠ w.m_password →
        (WalletLegacy.changePassword w oldPassword newPassword : Outcome C R ErrorCode) =
          { wallet := w, notified := [], spawned := [],
            result := Except.ok (make_error_code WalletErrorCodes.WRONG_PASSWORD) } := by
      intro hne
      have hcmp : stringCompare w.m_password.data oldPassword.data ≠ 0 := by
        rw [Ne, stringCompare_eq_zero]
        intro hd
        exact hne (String.ext hd).symm
      simp only [WalletLegacy.changePassword, hg, hcmp, ne_eq, not_false_eq_true, if_true]
    have heq : oldPassword = w.m_password →
        (WalletLegacy.changePassword w oldPassword newPassword : Outcome C R ErrorCode) =
          { wallet := { w with m_password := newPassword }, notified := [], spawned := [],
            result := Except.ok ErrorCode.success } := by
      intro heq
      have hcmp : stringCompare w.m_password.data oldPassword.data = 0 := by
        rw [stringCompare_eq_zero, heq]
      simp only [WalletLegacy.changePassword, hg, hcmp, ne_eq, not_true_eq_false, if_false]
    refine ⟨⟨?_, ?_⟩, hne, heq⟩
    · rintro ⟨hr, _⟩ hod
      rw [heq hod] at hr
      simp [make_error_code] at hr
    · intro hod
      rw [hne hod]
      exact ⟨rfl, rfl⟩
  · intro hs
    simp only [WalletLegacy.changePassword, throwIfNotInitialised_of_not_initialized w hs]

/-- Witness of `changePassword_spec`: with the right old password the example wallet
stores the new one, with a wrong one it answers `WRONG_PASSWORD`, and while loading it
throws. -/
theorem changePassword_spec_witness :
    (exampleWallet WalletState.INITIALIZED).m_state = WalletState.INITIALIZED ∧
    (exampleWallet WalletState.INITIALIZED).m_transferDetails.isSome = true ∧
    "pw" = (exampleWallet WalletState.INITIALIZED).m_password ∧
    (WalletLegacy.changePassword (exampleWallet WalletState.INITIALIZED) "pw" "new" :
        Outcome ExampleCache Nat ErrorCode) =
      { wallet := { exampleWallet WalletState.INITIALIZED with m_password := "new" },
        notified := [], spawned := [], result := Except.ok ErrorCode.success } ∧
    (WalletLegacy.changePassword (exampleWallet WalletState.LOADING) "pw" "new" :
        Outcome ExampleCache Nat ErrorCode) =
      { wallet := exampleWallet WalletState.LOADING, notified := [], spawned := [],
        result := Except.error (throwSystemError WalletErrorCodes.NOT_INITIALIZED) } :=
  ⟨rfl, rfl, rfl,
    ((changePassword_spec (exampleWallet WalletState.INITIALIZED) "pw" "new").1 rfl rfl).2.2 rfl,
    (changePassword_spec (exampleWallet WalletState.LOADING) "pw" "new").2 (Or.inr rfl)⟩

/-- Claim C7.  `save` on a wallet whose stopping flag is set delivers
`saveCompleted(OPERATION_CANCELLED)` exactly once, returns normally, launches no worker
and changes no member variable.  With the flag clear and a state other than
`INITIALIZED` it throws `std::system_error(WRONG_STATE)` and changes nothing (state and
asynchronous counter included).  With the flag clear and state `INITIALIZED` it sets the
state to `SAVING`, adds exactly one asynchronous context, launches exactly one `doSave`
worker, delivers no notification and changes nothing else. -/
theorem save_spec (w : WalletLegacy C) (saveDetailed saveCache : Bool) :
    (w.m_isStopping = true →
      (WalletLegacy.save w saveDetailed saveCache : Outcome C R Unit) =
        { wallet := w,
          notified := [ObserverCall.saveCompleted
            (make_error_code WalletErrorCodes.OPERATION_CANCELLED)],
          spawned := [], result := Except.ok () }) ∧
    (w.m_isStopping = false → w.m_state ≠ WalletState.INITIALIZED →
      (WalletLegacy.save w saveDetailed saveCache : Outcome C R Unit) =
        { wallet := w, notified := [], spawned := [],
          result := Except.error (throwSystemError WalletErrorCodes.WRONG_STATE) }) ∧
    (w.m_isStopping = false → w.m_state = WalletState.INITIALIZED →
      (WalletLegacy.save w saveDetailed saveCache : Outcome C R Unit) =
        { wallet := { w with m_state := WalletState.SAVING,
                             m_asyncContextCounter := w.m_asyncContextCounter + 1 },
          notified := [], spawned := [Worker.doSave saveDetailed saveCache],
          result := Except.ok () }) := by
  refine ⟨?_, ?_, ?_⟩
  · intro h
    simp only [WalletLegacy.save, h, if_true]
  · intro h hs
    simp [WalletLegacy.save, h, hs]
  · intro h hs
    simp [WalletLegacy.save, h, hs, addAsyncContext]

/-- Witness of `save_spec` on the three kinds of wallet it distinguishes. -/
theorem save_spec_witness :
    (WalletLegacy.save stoppingWallet true true :
        Outcome ExampleCache Nat Unit).notified =
      [ObserverCall.saveCompleted (make_error_code WalletErrorCodes.OPERATION_CANCELLED)] ∧
    (WalletLegacy.save (exampleWallet WalletState.SAVING) true true :
        Outcome ExampleCache Nat Unit).result =
      Except.error (throwSystemError WalletErrorCodes.WRONG_STATE) ∧
    (WalletLegacy.save (exampleWallet WalletState.INITIALIZED) true true :
        Outcome ExampleCache Nat Unit).wallet.m_state = WalletState.SAVING :=
  ⟨by rw [(save_spec _ true true).1 rfl],
    by rw [(save_spec _ true true).2.1 rfl (by decide)],
    by rw [(save_spec _ true true).2.2 rfl rfl]⟩

theorem doSave_wallet (w : WalletLegacy C) (s : SaveScript) (saveDetailed saveCache : Bool) :
    (WalletLegacy.doSave w s saveDetailed saveCache : Outcome C R Unit).wallet =
      { w with m_state := WalletState.INITIALIZED,
               m_asyncContextCounter := w.m_asyncContextCounter - 1 } := by
  unfold WalletLegacy.doSave WalletLegacy.doSaveTry
  cases s.stop <;> simp only [delAsyncContext]
  cases (if saveCache then s.transfersSyncSave else none) <;> simp only []
  cases s.serialize <;> simp only []
  cases s.start <;> simp only []

theorem doSave_notified (w : WalletLegacy C) (s : SaveScript) (saveDetailed saveCache : Bool) :
    (WalletLegacy.doSave w s saveDetailed saveCache : Outcome C R Unit).notified =
      [ObserverCall.saveCompleted
        (match s.thrown saveCache with
          | none => ErrorCode.success
          | some e => completionCode e)] ∧
    (WalletLegacy.doSave w s saveDetailed saveCache : Outcome C R Unit).spawned = [] ∧
    (WalletLegacy.doSave w s saveDetailed saveCache : Outcome C R Unit).result = Except.ok () := by
  have hn := doSaveTry_thrown w s saveCache
  unfold WalletLegacy.doSave
  rcases hp : WalletLegacy.doSaveTry w s saveCache with ⟨w1, _ | e⟩
  · rw [hp] at hn
    simp only [] at hn
    simp only [← hn, and_self]
  · rw [hp] at hn
    simp only [] at hn
    simp only [← hn, and_self]

/-- Claim C8.  For a save started from `INITIALIZED` with the stopping flag clear: `save`
moves the state to `SAVING` and registers one asynchronous context, and the worker
`doSave`, run on the wallet that `save` left, returns the wallet to exactly its value
before `save` (state `INITIALIZED`, counter back at its value), so it releases exactly
the one context registered.  Moreover, on whatever wallet the worker runs and whatever
the collaborators throw, `doSave` ends normally with state `INITIALIZED`, delivers
exactly one notification, a `saveCompleted`, lowers the counter by one and launches
nothing; the code delivered is success when nothing is thrown, the code of the thrown
`std::system_error`, and `INTERNAL_WALLET_ERROR` for any other exception. -/
theorem doSave_spec (w0 : WalletLegacy C) (hstop : w0.m_isStopping = false)
    (hstate : w0.m_state = WalletState.INITIALIZED) (s : SaveScript)
    (saveDetailed saveCache : Bool) :
    (WalletLegacy.save w0 saveDetailed saveCache : Outcome C R Unit).wallet.m_state =
      WalletState.SAVING ∧
    (WalletLegacy.save w0 saveDetailed saveCache : Outcome C R Unit).wallet.m_asyncContextCounter =
      w0.m_asyncContextCounter + 1 ∧
    (WalletLegacy.doSave
      (WalletLegacy.save w0 saveDetailed saveCache : Outcome C R Unit).wallet s
      saveDetailed saveCache : Outcome C R Unit).wallet = w0 ∧
    (∀ w : WalletLegacy C,
      (WalletLegacy.doSave w s saveDetailed saveCache : Outcome C R Unit).result = Except.ok () ∧
      (WalletLegacy.doSave w s saveDetailed saveCache : Outcome C R Unit).wallet.m_state =
        WalletState.INITIALIZED ∧
      (WalletLegacy.doSave w s saveDetailed saveCache : Outcome C R Unit).wallet.m_asyncContextCounter =
        w.m_asyncContextCounter - 1 ∧
      (WalletLegacy.doSave w s saveDetailed saveCache : Outcome C R Unit).spawned = [] ∧
      (∃ code, (WalletLegacy.doSave w s saveDetailed saveCache : Outcome C R Unit).notified =
        [ObserverCall.saveCompleted code]) ∧
      (s.thrown saveCache = none →
        (WalletLegacy.doSave w s saveDetailed saveCache : Outcome C R Unit).notified =
          [ObserverCall.saveCompleted ErrorCode.success]) ∧
      (∀ code, s.thrown saveCache = some (Exception.system_error code) →
        (WalletLegacy.doSave w s saveDetailed saveCache : Outcome C R Unit).notified =
          [ObserverCall.saveCompleted code]) ∧
      (∀ e, s.thrown saveCache = some e → (∀ code, e ≠ Exception.system_error code) →
        (WalletLegacy.doSave w s saveDetailed saveCache : Outcome C R Unit).notified =
          [ObserverCall.saveCompleted
            (make_error_code WalletErrorCodes.INTERNAL_WALLET_ERROR)])) := by
  have hsave : (WalletLegacy.save w0 saveDetailed saveCache : Outcome C R Unit) =
      { wallet := { w0 with m_state := WalletState.SAVING,
                            m_asyncContextCounter := w0.m_asyncContextCounter + 1 },
        notified := [], spawned := [Worker.doSave saveDetailed saveCache],
        result := Except.ok () } := by
    simp [WalletLegacy.save, hstop, hstate, addAsyncContext]
  refine ⟨by rw [hsave], by rw [hsave], ?_, ?_⟩
  · rw [doSave_wallet, hsave]
    cases w0
    simp only [] at hstate
    subst hstate
    simp
  · intro w
    obtain ⟨hn, hsp, hr⟩ := @doSave_notified C R w s saveDetailed saveCache
    refine ⟨hr, by rw [doSave_wallet], by rw [doSave_wallet], hsp, ⟨_, hn⟩, ?_, ?_, ?_⟩
    · intro h
      rw [hn, h]
    · intro code h
      rw [hn, h]
      rfl
    · intro e h hne
      rw [hn, h]
      simp only [completionCode_other e hne]

/-- Witness of `doSave_spec`: a save of the example wallet whose serialisation throws a
`std::runtime_error` reports `INTERNAL_WALLET_ERROR` once and restores the wallet. -/
theorem doSave_spec_witness :
    (exampleWallet WalletState.INITIALIZED).m_isStopping = false ∧
    (exampleWallet WalletState.INITIALIZED).m_state = WalletState.INITIALIZED ∧
    (WalletLegacy.doSave
      (WalletLegacy.save (exampleWallet WalletState.INITIALIZED) true false :
        Outcome ExampleCache Nat Unit).wallet failingSaveScript true false :
        Outcome ExampleCache Nat Unit).wallet = exampleWallet WalletState.INITIALIZED ∧
    (WalletLegacy.doSave (exampleWallet WalletState.SAVING) failingSaveScript true false :
        Outcome ExampleCache Nat Unit).notified =
      [ObserverCall.saveCompleted (make_error_code WalletErrorCodes.INTERNAL_WALLET_ERROR)] :=
  ⟨rfl, rfl,
    (doSave_spec (exampleWallet WalletState.INITIALIZED) rfl rfl failingSaveScript true false).2.2.1,
    ((doSave_spec (exampleWallet WalletState.INITIALIZED) rfl rfl failingSaveScript true
      false).2.2.2 (exampleWallet WalletState.SAVING)).2.2.2.2.2.2.2
        (Exception.runtime_error "disk full") rfl (by intro code h; cases h)⟩

/-- Claim C9.  `initAndLoad` on a wallet in state `NOT_INITIALIZED` stores the password,
sets the state to `LOADING`, registers one asynchronous context, launches one `doLoad`
worker and delivers nothing.  The worker, on whatever wallet it runs, ends normally in
exactly one of two ways.  If deserialisation succeeds the state is `INITIALIZED` and
the only notification is `initCompleted(success)`, whatever `m_transfersSync.load` does
with the cache blob.  If deserialisation throws the state is `NOT_INITIALIZED` and the
only notification is `initCompleted(err)`, `err` being the code of the thrown
`std::system_error` or `INTERNAL_WALLET_ERROR` for any other exception.  Either way
the worker releases one asynchronous context. -/
theorem initAndLoad_spec (w0 : WalletLegacy C) (hstate : w0.m_state = WalletState.NOT_INITIALIZED)
    (password : String) (s : LoadScript C) :
    (WalletLegacy.initAndLoad w0 password : Outcome C R Unit) =
      { wallet := { w0 with m_password := password, m_state := WalletState.LOADING,
                            m_asyncContextCounter := w0.m_asyncContextCounter + 1 },
        notified := [], spawned := [Worker.doLoad], result := Except.ok () } ∧
    (∀ w : WalletLegacy C,
      (WalletLegacy.doLoad w s : Outcome C R Unit).result = Except.ok () ∧
      (WalletLegacy.doLoad w s : Outcome C R Unit).spawned = [] ∧
      (WalletLegacy.doLoad w s : Outcome C R Unit).wallet.m_asyncContextCounter =
        w.m_asyncContextCounter - 1 ∧
      (∀ cache, s.deserialize = Except.ok cache →
        (WalletLegacy.doLoad w s : Outcome C R Unit).wallet.m_state = WalletState.INITIALIZED ∧
        (WalletLegacy.doLoad w s : Outcome C R Unit).notified =
          [ObserverCall.initCompleted ErrorCode.success]) ∧
      (∀ e, s.deserialize = Except.error e →
        (WalletLegacy.doLoad w s : Outcome C R Unit).wallet.m_state =
          WalletState.NOT_INITIALIZED ∧
        (WalletLegacy.doLoad w s : Outcome C R Unit).notified =
          [ObserverCall.initCompleted (completionCode e)] ∧
        (∀ code, e = Exception.system_error code → completionCode e = code) ∧
        ((∀ code, e ≠ Exception.system_error code) →
          completionCode e = make_error_code WalletErrorCodes.INTERNAL_WALLET_ERROR))) := by
  constructor
  · simp [WalletLegacy.initAndLoad, hstate, addAsyncContext]
  · intro w
    unfold WalletLegacy.doLoad
    cases hd : s.deserialize with
    | error e =>
      refine ⟨rfl, rfl, rfl, ?_, ?_⟩
      · intro cache h; cases h
      · intro e1 h
        cases h
        refine ⟨rfl, rfl, ?_, completionCode_other e⟩
        intro code h
        subst h
        rfl
    | ok cache =>
      refine ⟨rfl, rfl, ?_, ?_, ?_⟩
      · by_cases hc : cache.isEmpty <;> simp [hc, delAsyncContext, WalletLegacy.initSync]
      · intro c h
        refine ⟨?_, rfl⟩
        by_cases hc : cache.isEmpty <;> simp [hc, delAsyncContext, WalletLegacy.initSync]
      · intro e h; cases h

/-- Witness of `initAndLoad_spec`: loading into a fresh wallet with a script whose
cache blob fails to load still ends in `INITIALIZED` with `initCompleted(success)`. -/
theorem initAndLoad_spec_witness :
    (WalletLegacy.new emptyCache exampleAccount).m_state = WalletState.NOT_INITIALIZED ∧
    cacheFailureScript.load ≠ none ∧
    (WalletLegacy.initAndLoad (WalletLegacy.new emptyCache exampleAccount) "pw" :
        Outcome ExampleCache Nat Unit).wallet.m_state = WalletState.LOADING ∧
    (WalletLegacy.doLoad
      (WalletLegacy.initAndLoad (WalletLegacy.new emptyCache exampleAccount) "pw" :
        Outcome ExampleCache Nat Unit).wallet cacheFailureScript :
        Outcome ExampleCache Nat Unit).wallet.m_state = WalletState.INITIALIZED ∧
    (WalletLegacy.doLoad
      (WalletLegacy.initAndLoad (WalletLegacy.new emptyCache exampleAccount) "pw" :
        Outcome ExampleCache Nat Unit).wallet cacheFailureScript :
        Outcome ExampleCache Nat Unit).notified =
      [ObserverCall.initCompleted ErrorCode.success] :=
  ⟨rfl, by decide,
    by rw [(initAndLoad_spec (WalletLegacy.new emptyCache exampleAccount) rfl "pw"
      cacheFailureScript).1],
    (((initAndLoad_spec (WalletLegacy.new emptyCache exampleAccount) rfl "pw"
      cacheFailureScript).2 _).2.2.2.1 "blob" rfl).1,
    (((initAndLoad_spec (WalletLegacy.new emptyCache exampleAccount) rfl "pw"
      cacheFailureScript).2 _).2.2.2.1 "blob" rfl).2⟩

/-! ## State guards of the mutating calls -/

/-- Claim C1, as amended.  In state `LOADING`, `sendTransaction` (both overloads),
`deposit`, `withdrawDeposits` and `changePassword` throw
`std::system_error(NOT_INITIALIZED)`; in state `LOADING` or `SAVING` with the stopping
flag clear, `save` throws `std::system_error(WRONG_STATE)`; each of these failing calls
leaves every member variable unchanged (the cache and the password among them),
notifies nobody and launches nothing.  With the stopping flag set, `save` in state
`LOADING` or `SAVING` returns normally after `saveCompleted(OPERATION_CANCELLED)`,
again changing nothing.  In state `SAVING` with the container and the sender set,
`sendTransaction`, `deposit` and `withdrawDeposits` are not rejected: they hand the
cache to the request factory of the sender and continue with the cache it returns. -/
theorem mutating_calls_while_loading_or_saving (env : Collaborators C R) (w : WalletLegacy C)
    (transfers : List WalletLegacyTransfer) (transfer : WalletLegacyTransfer)
    (args : SendArguments) (term amount fee mixIn : Nat) (depositIds : List DepositId)
    (oldPassword newPassword : String) (saveDetailed saveCache : Bool) :
    (w.m_state = WalletState.LOADING →
      WalletLegacy.sendTransaction env w transfers args =
        { wallet := w, notified := [], spawned := [],
          result := Except.error (throwSystemError WalletErrorCodes.NOT_INITIALIZED) } ∧
      WalletLegacy.sendTransaction1 env w transfer args =
        { wallet := w, notified := [], spawned := [],
          result := Except.error (throwSystemError WalletErrorCodes.NOT_INITIALIZED) } ∧
      WalletLegacy.deposit env w term amount fee mixIn =
        { wallet := w, notified := [], spawned := [],
          result := Except.error (throwSystemError WalletErrorCodes.NOT_INITIALIZED) } ∧
      WalletLegacy.withdrawDeposits env w depositIds fee =
        { wallet := w, notified := [], spawned := [],
          result := Except.error (throwSystemError WalletErrorCodes.NOT_INITIALIZED) } ∧
      (WalletLegacy.changePassword w oldPassword newPassword : Outcome C R ErrorCode) =
        { wallet := w, notified := [], spawned := [],
          result := Except.error (throwSystemError WalletErrorCodes.NOT_INITIALIZED) }) ∧
    (w.m_state = WalletState.LOADING ∨ w.m_state = WalletState.SAVING →
      (w.m_isStopping = false →
        (WalletLegacy.save w saveDetailed saveCache : Outcome C R Unit) =
          { wallet := w, notified := [], spawned := [],
            result := Except.error (throwSystemError WalletErrorCodes.WRONG_STATE) }) ∧
      (w.m_isStopping = true →
        (WalletLegacy.save w saveDetailed saveCache : Outcome C R Unit) =
          { wallet := w,
            notified := [ObserverCall.saveCompleted
              (make_error_code WalletErrorCodes.OPERATION_CANCELLED)],
            spawned := [], result := Except.ok () })) ∧
    (w.m_state = WalletState.SAVING →
      ∀ container sender, w.m_transferDetails = some container → w.m_sender = some sender →
        WalletLegacy.sendTransaction env w transfers args =
          WalletLegacy.notifyAndPerform
            { w with m_transactionsCache :=
                (env.sender.makeSendRequest w.m_transactionsCache container transfers args).cache }
            (env.sender.makeSendRequest w.m_transactionsCache container transfers args).events
            (env.sender.makeSendRequest w.m_transactionsCache container transfers args).request
            (env.sender.makeSendRequest w.m_transactionsCache container transfers args).txId ∧
        (WalletLegacy.sendTransaction env w transfers args).result =
          Except.ok
            (env.sender.makeSendRequest w.m_transactionsCache container transfers args).txId ∧
        (WalletLegacy.sendTransaction env w transfers args).wallet.m_transactionsCache =
          (env.sender.makeSendRequest w.m_transactionsCache container transfers args).cache ∧
        WalletLegacy.deposit env w term amount fee mixIn =
          WalletLegacy.finishDepositRequest env w
            (env.sender.makeDepositRequest w.m_transactionsCache container term amount fee
              mixIn) ∧
        WalletLegacy.withdrawDeposits env w depositIds fee =
          WalletLegacy.finishDepositRequest env w
            (env.sender.makeWithdrawDepositRequest w.m_transactionsCache container depositIds
              fee)) := by
  refine ⟨?_, ?_, ?_⟩
  · intro hs
    have hg := throwIfNotInitialised_of_not_initialized w (Or.inr hs)
    refine ⟨?_, ?_, ?_, ?_, ?_⟩
    · simp only [WalletLegacy.sendTransaction, hg]
    · simp only [WalletLegacy.sendTransaction1, hg]
    · simp only [WalletLegacy.deposit, hg]
    · simp only [WalletLegacy.withdrawDeposits, hg]
    · simp only [WalletLegacy.changePassword, hg]
  · intro hs
    have hne : w.m_state ≠ WalletState.INITIALIZED := by
      rcases hs with hs | hs <;> rw [hs] <;> decide
    constructor
    · intro h
      simp [WalletLegacy.save, h, hne]
    · intro h
      simp only [WalletLegacy.save, h, if_true]
  · intro hs container sender hc hsend
    have hg := throwIfNotInitialised_of_initialized w (Or.inr hs) (by rw [hc]; rfl)
    have h1 : WalletLegacy.sendTransaction env w transfers args =
        WalletLegacy.notifyAndPerform
          { w with m_transactionsCache :=
              (env.sender.makeSendRequest w.m_transactionsCache container transfers args).cache }
          (env.sender.makeSendRequest w.m_transactionsCache container transfers args).events
          (env.sender.makeSendRequest w.m_transactionsCache container transfers args).request
          (env.sender.makeSendRequest w.m_transactionsCache container transfers args).txId := by
      simp only [WalletLegacy.sendTransaction, hg, hc, hsend]
    refine ⟨h1, ?_, ?_, ?_, ?_⟩
    · rw [h1]
      unfold WalletLegacy.notifyAndPerform
      cases (env.sender.makeSendRequest w.m_transactionsCache container transfers args).request <;>
        rfl
    · rw [h1]
      unfold WalletLegacy.notifyAndPerform
      cases (env.sender.makeSendRequest w.m_transactionsCache container transfers args).request <;>
        rfl
    · simp only [WalletLegacy.deposit, hg, hc, hsend]
    · simp only [WalletLegacy.withdrawDeposits, hg, hc, hsend]

/-- Witness of `mutating_calls_while_loading_or_saving` on the example wallet: while
loading, a deposit is refused and the wallet is unchanged; while saving, `save` is
refused. -/
theorem mutating_calls_while_loading_or_saving_witness :
    (exampleWallet WalletState.LOADING).m_state = WalletState.LOADING ∧
    WalletLegacy.deposit exampleCollaborators (exampleWallet WalletState.LOADING) 100 500 10 0 =
      { wallet := exampleWallet WalletState.LOADING, notified := [], spawned := [],
        result := Except.error (throwSystemError WalletErrorCodes.NOT_INITIALIZED) } ∧
    (WalletLegacy.save (exampleWallet WalletState.SAVING) true true :
        Outcome ExampleCache Nat Unit) =
      { wallet := exampleWallet WalletState.SAVING, notified := [], spawned := [],
        result := Except.error (throwSystemError WalletErrorCodes.WRONG_STATE) } :=
  ⟨rfl,
    ((mutating_calls_while_loading_or_saving exampleCollaborators
      (exampleWallet WalletState.LOADING) [exampleTransfer] exampleTransfer exampleArguments
      100 500 10 0 [] "pw" "new" true true).1 rfl).2.2.1,
    ((mutating_calls_while_loading_or_saving exampleCollaborators
      (exampleWallet WalletState.SAVING) [exampleTransfer] exampleTransfer exampleArguments
      100 500 10 0 [] "pw" "new" true true).2.1 (Or.inr rfl)).1 rfl⟩

/-- Counterexample to claim C1 as stated: on the example wallet in state `SAVING`,
`sendTransaction` does not fail; it returns transaction identifier 0, registers the
transaction in the cache, adds an asynchronous context and performs a request.  And on a
wallet in state `SAVING` whose stopping flag is set, `save` does not fail either. -/
theorem mutating_calls_while_saving_counterexample :
    (exampleWallet WalletState.SAVING).m_state = WalletState.SAVING ∧
    (exampleWallet WalletState.SAVING).m_asyncContextCounter = 1 ∧
    (WalletLegacy.sendTransaction exampleCollaborators (exampleWallet WalletState.SAVING)
      [exampleTransfer] exampleArguments).result = Except.ok 0 ∧
    (exampleWallet WalletState.SAVING).m_transactionsCache.transactions = [] ∧
    (WalletLegacy.sendTransaction exampleCollaborators (exampleWallet WalletState.SAVING)
      [exampleTransfer] exampleArguments).wallet.m_transactionsCache.transactions = [1000] ∧
    (WalletLegacy.sendTransaction exampleCollaborators (exampleWallet WalletState.SAVING)
      [exampleTransfer] exampleArguments).wallet.m_asyncContextCounter = 2 ∧
    (WalletLegacy.save stoppingWallet true true :
        Outcome ExampleCache Nat Unit).result = Except.ok () ∧
    stoppingWallet.m_state = WalletState.SAVING ∧ stoppingWallet.m_isStopping = true := by
  refine ⟨rfl, rfl, rfl, rfl, rfl, rfl, rfl, rfl, rfl⟩

/-! ## Last-notified balances across a restart -/

theorem shutdownEnd_lastNotified (env : Collaborators C R) (w : WalletLegacy C) :
    (WalletLegacy.shutdownEnd env w).wallet.m_lastNotifiedActualDepositBalance =
      w.m_lastNotifiedActualDepositBalance ∧
    (WalletLegacy.shutdownEnd env w).wallet.m_lastNotifiedPendingDepositBalance =
      w.m_lastNotifiedPendingDepositBalance ∧
    ((WalletLegacy.shutdownEnd env w).result = Except.ok () →
      (WalletLegacy.shutdownEnd env w).wallet.m_lastNotifiedActualBalance = 0 ∧
      (WalletLegacy.shutdownEnd env w).wallet.m_lastNotifiedPendingBalance = 0) := by
  unfold WalletLegacy.shutdownEnd
  cases h : w.m_subscription <;> simp [h]

/-- Claim C3, evaluated at the failing input.  A freshly initialised wallet over a
container with one unlocked deposit worth 505 emits `actualDepositBalanceUpdated(505)`
at its first check.  `shutdown` then succeeds and resets the last-notified actual and
pending balances to 0, but the last-notified actual deposit balance is still 505.
After `initWithKeys` over the same container the computed actual deposit balance is
505, which is not zero, and the first check emits no event. -/
theorem shutdown_keeps_deposit_last_notified :
    ∃ w1 w2 w3 : WalletLegacy ExampleCache,
      depositWallet.m_lastNotifiedActualDepositBalance = 0 ∧
      WalletLegacy.getActualDepositBalanceChangedEvent exampleCollaborators depositWallet =
        Except.ok (some (WalletActualDepositBalanceUpdatedEvent 505), w1) ∧
      WalletLegacy.shutdown exampleCollaborators w1 =
        { wallet := w2, notified := [], spawned := [], result := Except.ok () } ∧
      w2.m_state = WalletState.NOT_INITIALIZED ∧
      w2.m_lastNotifiedActualBalance = 0 ∧
      w2.m_lastNotifiedPendingBalance = 0 ∧
      w2.m_lastNotifiedActualDepositBalance = 505 ∧
      (WalletLegacy.initWithKeys w2 exampleAccount.m_keys "pw" depositContainer :
          Outcome ExampleCache Nat Unit) =
        { wallet := w3, notified := [ObserverCall.initCompleted ErrorCode.success],
          spawned := [], result := Except.ok () } ∧
      w3.m_state = WalletState.INITIALIZED ∧
      WalletLegacy.calculateActualDepositBalance exampleCollaborators w3 = Except.ok 505 ∧
      (WalletLegacy.getActualDepositBalanceChangedEvent exampleCollaborators w3).map Prod.fst =
        Except.ok none :=
  ⟨_, _, _, rfl, rfl, rfl, rfl, rfl, rfl, rfl, rfl, rfl, rfl, rfl⟩

/-! ## The emission rule of the balance events -/

theorem getBalanceChangedEvent_of_calculate (env : Collaborators C R) (w : WalletLegacy C)
    (axis : BalanceAxis) (v : Nat) (h : WalletLegacy.calculate env w axis = Except.ok v) :
    ∃ w1 : WalletLegacy C,
      WalletLegacy.getBalanceChangedEvent env w axis =
        Except.ok (if v ≠ w.lastNotified axis then some (axis.event v) else none, w1) ∧
      w1.lastNotified axis = v ∧
      (∀ other, other ≠ axis → w1.lastNotified other = w.lastNotified other) ∧
      w1.m_state = w.m_state ∧ w1.m_isStopping = w.m_isStopping ∧
      w1.m_password = w.m_password ∧ w1.m_account = w.m_account ∧
      w1.m_transferDetails = w.m_transferDetails ∧
      w1.m_transactionsCache = w.m_transactionsCache ∧
      w1.m_asyncContextCounter = w.m_asyncContextCounter := by
  cases axis
  · simp only [WalletLegacy.calculate] at h
    refine ⟨{ w with m_lastNotifiedActualBalance := v }, ?_, rfl, ?_, rfl, rfl, rfl, rfl, rfl,
      rfl, rfl⟩
    · simp only [WalletLegacy.getBalanceChangedEvent, WalletLegacy.getActualBalanceChangedEvent,
        h, WalletLegacy.lastNotified, BalanceAxis.event]
    · intro other ho
      cases other <;> first | rfl | exact absurd rfl ho
  · simp only [WalletLegacy.calculate] at h
    refine ⟨{ w with m_lastNotifiedPendingBalance := v }, ?_, rfl, ?_, rfl, rfl, rfl, rfl, rfl,
      rfl, rfl⟩
    · simp only [WalletLegacy.getBalanceChangedEvent, WalletLegacy.getPendingBalanceChangedEvent,
        h, WalletLegacy.lastNotified, BalanceAxis.event]
    · intro other ho
      cases other <;> first | rfl | exact absurd rfl ho
  · simp only [WalletLegacy.calculate] at h
    refine ⟨{ w with m_lastNotifiedActualDepositBalance := v }, ?_, rfl, ?_, rfl, rfl, rfl, rfl,
      rfl, rfl, rfl⟩
    · simp only [WalletLegacy.getBalanceChangedEvent,
        WalletLegacy.getActualDepositBalanceChangedEvent, h, WalletLegacy.lastNotified,
        BalanceAxis.event]
    · intro other ho
      cases other <;> first | rfl | exact absurd rfl ho
  · simp only [WalletLegacy.calculate] at h
    refine ⟨{ w with m_lastNotifiedPendingDepositBalance := v }, ?_, rfl, ?_, rfl, rfl, rfl, rfl,
      rfl, rfl, rfl⟩
    · simp only [WalletLegacy.getBalanceChangedEvent,
        WalletLegacy.getPendingDepositBalanceChangedEvent, h, WalletLegacy.lastNotified,
        BalanceAxis.event]
    · intro other ho
      cases other <;> first | rfl | exact absurd rfl ho

theorem lastNotified_setEnvironment (w : WalletLegacy C) (container : ITransfersContainer)
    (cache : C) (axis : BalanceAxis) :
    (w.setEnvironment container cache).lastNotified axis = w.lastNotified axis := by
  cases axis <;> rfl

theorem getLast?_getD_cons (v d : Nat) (vs : List Nat) :
    ((v :: vs).getLast?).getD d = (vs.getLast?).getD v := by
  cases vs with
  | nil => rfl
  | cons x xs =>
    rw [List.getLast?_cons_cons, List.getLast?_eq_getLast (x :: xs) (List.cons_ne_nil x xs)]
    rfl

theorem balanceChecks_emitted (env : Collaborators C R) (axis : BalanceAxis)
    (snaps : List (ITransfersContainer × C)) (vs : List Nat)
    (h : List.Forall₂
      (fun s v => ∀ w1 : WalletLegacy C,
        WalletLegacy.calculate env (w1.setEnvironment s.1 s.2) axis = Except.ok v) snaps vs) :
    ∀ w : WalletLegacy C,
      ∃ (events : List (Option WalletLegacyEvent)) (w2 : WalletLegacy C) (emitted : List Nat),
        WalletLegacy.balanceChecks env axis w snaps = Except.ok (events, w2) ∧
        events = List.zipWith
          (fun previous v => if v ≠ previous then some (axis.event v) else none)
          (w.lastNotified axis :: vs) vs ∧
        events.reduceOption = emitted.map axis.event ∧
        emitted.Sublist vs ∧
        List.Chain (fun a b => a ≠ b) (w.lastNotified axis) emitted ∧
        w2.lastNotified axis = (vs.getLast?).getD (w.lastNotified axis) ∧
        w2.m_state = w.m_state := by
  induction h with
  | nil =>
    intro w
    exact ⟨[], w, [], rfl, rfl, rfl, List.Sublist.slnil, List.Chain.nil, rfl, rfl⟩
  | @cons s v rest vs1 hs _ ih =>
    intro w
    obtain ⟨w1, hget, hlast, _, hstate, _⟩ :=
      getBalanceChangedEvent_of_calculate env (w.setEnvironment s.1 s.2) axis v (hs w)
    obtain ⟨events, w2, emitted, hrun, hev, hred, hsub, hchain, hl2, hst2⟩ := ih w1
    rw [lastNotified_setEnvironment] at hget
    rw [hlast] at hev hchain hl2
    have hrun1 : WalletLegacy.balanceChecks env axis w (s :: rest) =
        Except.ok ((if v ≠ w.lastNotified axis then some (axis.event v) else none) :: events,
          w2) := by
      obtain ⟨container, cache⟩ := s
      simp only [WalletLegacy.balanceChecks, hget, hrun]
    have hstate2 : w2.m_state = w.m_state := by
      rw [hst2, hstate]
      rfl
    by_cases hv : v = w.lastNotified axis
    · refine ⟨_, w2, emitted, hrun1, ?_, ?_, hsub.cons v, ?_, ?_, hstate2⟩
      · rw [hev]
        simp [hv]
      · simp [hv, hred]
      · rw [← hv]
        exact hchain
      · rw [getLast?_getD_cons]
        exact hl2
    · refine ⟨_, w2, v :: emitted, hrun1, ?_, ?_, hsub.cons₂ v, ?_, ?_, hstate2⟩
      · rw [hev]
        simp [hv]
      · simp [hv, hred, List.reduceOption_cons_of_some]
      · exact List.Chain.cons (fun e => hv e.symm) hchain
      · rw [getLast?_getD_cons]
        exact hl2

theorem notifyIfBalanceChanged_of_calculate (env : Collaborators C R) (w : WalletLegacy C)
    (a p : Nat) (hg : WalletLegacy.throwIfNotInitialised w = Except.ok ())
    (ha : WalletLegacy.calculateActualBalance env w = Except.ok a)
    (hp : WalletLegacy.calculatePendingBalance env w = Except.ok p) :
    WalletLegacy.notifyIfBalanceChanged env w =
      { wallet := { w with m_lastNotifiedActualBalance := a, m_lastNotifiedPendingBalance := p },
        notified :=
          (if w.m_lastNotifiedActualBalance ≠ a then [ObserverCall.actualBalanceUpdated a]
            else []) ++
          (if w.m_lastNotifiedPendingBalance ≠ p then [ObserverCall.pendingBalanceUpdated p]
            else []),
        spawned := [], result := Except.ok () } := by
  have hg1 : WalletLegacy.throwIfNotInitialised
      { w with m_lastNotifiedActualBalance := a } = Except.ok () := hg
  have hp1 : WalletLegacy.calculatePendingBalance env
      { w with m_lastNotifiedActualBalance := a } = Except.ok p := hp
  simp only [WalletLegacy.notifyIfBalanceChanged, WalletLegacy.actualBalance,
    WalletLegacy.pendingBalance, hg, ha, hg1, hp1]

theorem lastNotified_init (axis : BalanceAxis) (w : WalletLegacy C) (password : String)
    (generated : AccountBase) (accountKeys : AccountKeys) (container : ITransfersContainer)
    (s : LoadScript C) :
    (WalletLegacy.initAndGenerate w password generated container :
        Outcome C R Unit).wallet.lastNotified axis = w.lastNotified axis ∧
    (WalletLegacy.initWithKeys w accountKeys password container :
        Outcome C R Unit).wallet.lastNotified axis = w.lastNotified axis ∧
    (WalletLegacy.initAndLoad w password : Outcome C R Unit).wallet.lastNotified axis =
      w.lastNotified axis ∧
    (WalletLegacy.doLoad w s : Outcome C R Unit).wallet.lastNotified axis =
      w.lastNotified axis := by
  refine ⟨?_, ?_, ?_, ?_⟩
  · unfold WalletLegacy.initAndGenerate
    split <;> cases axis <;> rfl
  · unfold WalletLegacy.initWithKeys
    split <;> cases axis <;> rfl
  · unfold WalletLegacy.initAndLoad
    split <;> cases axis <;> rfl
  · unfold WalletLegacy.doLoad
    cases s.deserialize with
    | error e => cases axis <;> rfl
    | ok cache =>
      by_cases hc : cache.isEmpty <;> simp only [hc] <;> cases axis <;> rfl

/-- Claim C4.  For each of the four balance axes: the wallet is constructed with the
last-notified value 0 and the initialisation functions and the load worker leave it as
it is; a check (`get...BalanceChangedEvent`) whose computation yields
`v` returns an event exactly when `v` differs from the last-notified value of the
axis, the event carries `v`, the last-notified value of the axis becomes `v`, and
nothing else of the wallet changes (the other axes in particular).  Hence for every
sequence of checks with computed values `vs`, whatever the container and the cache hold
before each check, the events are those of the values that differ from their
predecessor (the first from the initial last-notified value); the emitted values form a
sublist of `vs` in which no two neighbours are equal and whose first element differs
from the initial last-notified value.  `notifyIfBalanceChanged` applies the same rule
to the actual and then the pending balance and delivers the events itself. -/
theorem balance_event_emission_rule (env : Collaborators C R) (axis : BalanceAxis) :
    (∀ (cache : C) (account : AccountBase),
      (WalletLegacy.new cache account).lastNotified axis = 0) ∧
    (∀ (w : WalletLegacy C) (password : String) (generated : AccountBase)
      (accountKeys : AccountKeys) (container : ITransfersContainer) (s : LoadScript C),
      (WalletLegacy.initAndGenerate w password generated container :
          Outcome C R Unit).wallet.lastNotified axis = w.lastNotified axis ∧
      (WalletLegacy.initWithKeys w accountKeys password container :
          Outcome C R Unit).wallet.lastNotified axis = w.lastNotified axis ∧
      (WalletLegacy.initAndLoad w password : Outcome C R Unit).wallet.lastNotified axis =
        w.lastNotified axis ∧
      (WalletLegacy.doLoad w s : Outcome C R Unit).wallet.lastNotified axis =
        w.lastNotified axis) ∧
    (∀ (w : WalletLegacy C) (v : Nat), WalletLegacy.calculate env w axis = Except.ok v →
      ∃ w1 : WalletLegacy C,
        WalletLegacy.getBalanceChangedEvent env w axis =
          Except.ok (if v ≠ w.lastNotified axis then some (axis.event v) else none, w1) ∧
        w1.lastNotified axis = v ∧
        (∀ other, other ≠ axis → w1.lastNotified other = w.lastNotified other) ∧
        w1.m_state = w.m_state ∧ w1.m_isStopping = w.m_isStopping ∧
        w1.m_password = w.m_password ∧ w1.m_account = w.m_account ∧
        w1.m_transferDetails = w.m_transferDetails ∧
        w1.m_transactionsCache = w.m_transactionsCache ∧
        w1.m_asyncContextCounter = w.m_asyncContextCounter) ∧
    (∀ (snaps : List (ITransfersContainer × C)) (vs : List Nat),
      List.Forall₂
        (fun s v => ∀ w1 : WalletLegacy C,
          WalletLegacy.calculate env (w1.setEnvironment s.1 s.2) axis = Except.ok v)
        snaps vs →
      ∀ w : WalletLegacy C,
        ∃ (events : List (Option WalletLegacyEvent)) (w2 : WalletLegacy C)
          (emitted : List Nat),
          WalletLegacy.balanceChecks env axis w snaps = Except.ok (events, w2) ∧
          events = List.zipWith
            (fun previous v => if v ≠ previous then some (axis.event v) else none)
            (w.lastNotified axis :: vs) vs ∧
          events.reduceOption = emitted.map axis.event ∧
          emitted.Sublist vs ∧
          List.Chain (fun a b => a ≠ b) (w.lastNotified axis) emitted ∧
          w2.lastNotified axis = (vs.getLast?).getD (w.lastNotified axis) ∧
          w2.m_state = w.m_state) ∧
    (∀ (w : WalletLegacy C) (a p : Nat),
      WalletLegacy.throwIfNotInitialised w = Except.ok () →
      WalletLegacy.calculateActualBalance env w = Except.ok a →
      WalletLegacy.calculatePendingBalance env w = Except.ok p →
      WalletLegacy.notifyIfBalanceChanged env w =
        { wallet :=
            { w with m_lastNotifiedActualBalance := a, m_lastNotifiedPendingBalance := p },
          notified :=
            (if w.m_lastNotifiedActualBalance ≠ a then [ObserverCall.actualBalanceUpdated a]
              else []) ++
            (if w.m_lastNotifiedPendingBalance ≠ p then [ObserverCall.pendingBalanceUpdated p]
              else []),
          spawned := [], result := Except.ok () }) := by
  refine ⟨?_, ?_, ?_, ?_, ?_⟩
  · intro cache account
    cases axis <;> rfl
  · intro w password generated accountKeys container s
    exact lastNotified_init axis w password generated accountKeys container s
  · intro w v h
    exact getBalanceChangedEvent_of_calculate env w axis v h
  · intro snaps vs h w
    exact balanceChecks_emitted env axis snaps vs h w
  · intro w a p hg ha hp
    exact notifyIfBalanceChanged_of_calculate env w a p hg ha hp

/-- Witness of `balance_event_emission_rule`: on the example wallet the computed actual
balances 1000, 1000, 995 give the events 1000, none, 995. -/
theorem balance_event_emission_rule_witness :
    List.Forall₂
      (fun s v => ∀ w1 : WalletLegacy ExampleCache,
        WalletLegacy.calculate exampleCollaborators (w1.setEnvironment s.1 s.2)
          BalanceAxis.actual = Except.ok v)
      exampleTrajectory [1000, 1000, 995] ∧
    (WalletLegacy.balanceChecks exampleCollaborators BalanceAxis.actual
      (exampleWallet WalletState.INITIALIZED) exampleTrajectory).map Prod.fst =
      Except.ok [some (WalletActualBalanceUpdatedEvent 1000), none,
        some (WalletActualBalanceUpdatedEvent 995)] := by
  have hall : List.Forall₂
      (fun s v => ∀ w1 : WalletLegacy ExampleCache,
        WalletLegacy.calculate exampleCollaborators (w1.setEnvironment s.1 s.2)
          BalanceAxis.actual = Except.ok v)
      exampleTrajectory [1000, 1000, 995] := by
    refine List.Forall₂.cons ?_ (List.Forall₂.cons ?_ (List.Forall₂.cons ?_ List.Forall₂.nil))
    all_goals
      intro w1
      simp only [WalletLegacy.calculate, WalletLegacy.calculateActualBalance,
        WalletLegacy.setEnvironment]
      rfl
  obtain ⟨events, w2, emitted, hrun, hev, _⟩ :=
    (balance_event_emission_rule exampleCollaborators BalanceAxis.actual).2.2.2.1
      exampleTrajectory [1000, 1000, 995] hall (exampleWallet WalletState.INITIALIZED)
  refine ⟨hall, ?_⟩
  rw [hrun, hev]
  rfl

/-! ## Deposit balances -/

theorem getTransactionHeights_ok (container : ITransfersContainer)
    (transfers : List TransactionOutputInformation)
    (h : ∀ t ∈ transfers, (container.getTransactionInformation t.transactionHash).ok = true) :
    getTransactionHeights container transfers =
      Except.ok (transfers.map
        (fun t => (container.getTransactionInformation t.transactionHash).info.blockHeight)) := by
  induction transfers with
  | nil => rfl
  | cons t rest ih =>
    have ht := h t (List.mem_cons_self t rest)
    have hrest := ih (fun x hx => h x (List.mem_cons_of_mem t hx))
    simp only [getTransactionHeights, ht, if_true, hrest, List.map_cons]

theorem calculateDepositsAmount_fold (currency : Currency) (heights : List Nat) :
    ∀ (transfers : List TransactionOutputInformation) (sum index : Nat),
      index + transfers.length ≤ heights.length →
      transfers.foldl
        (fun acc deposit =>
          match acc with
          | Except.error f => Except.error f
          | Except.ok (sum, index) =>
            match heights[index]? with
            | none => Except.error Failure.outOfRange
            | some height =>
              Except.ok (add64 (add64 sum deposit.amount)
                (currency.calculateInterest deposit.amount deposit.term height), index + 1))
        (Except.ok (sum, index) : Except Failure (Nat × Nat)) =
      Except.ok
        ((transfers.zip (heights.drop index)).foldl
          (fun sum dh => add64 (add64 sum dh.1.amount)
            (currency.calculateInterest dh.1.amount dh.1.term dh.2)) sum,
          index + transfers.length) := by
  intro transfers
  induction transfers with
  | nil =>
    intro sum index _
    rfl
  | cons d rest ih =>
    intro sum index hlen
    simp only [List.length_cons] at hlen
    have hi : index < heights.length := by omega
    have hget : heights[index]? = some heights[index] := List.getElem?_eq_getElem hi
    have hdrop : heights.drop index = heights[index] :: heights.drop (index + 1) :=
      List.drop_eq_getElem_cons hi
    simp only [List.foldl_cons, hget, hdrop, List.zip_cons_cons, List.length_cons]
    rw [ih _ (index + 1) (by omega)]
    congr 2
    omega

theorem calculateDepositsAmount_ok (currency : Currency)
    (transfers : List TransactionOutputInformation) (heights : List Nat)
    (h : transfers.length ≤ heights.length) :
    calculateDepositsAmount transfers currency heights =
      Except.ok
        ((transfers.zip heights).foldl
          (fun sum dh => add64 (add64 sum dh.1.amount)
            (currency.calculateInterest dh.1.amount dh.1.term dh.2)) 0) := by
  unfold calculateDepositsAmount
  rw [calculateDepositsAmount_fold currency heights transfers 0 0 (by omega)]
  rfl

/-- Every output the container lists belongs to a transaction the container knows. -/
theorem depositBalances_ok (env : Collaborators C R) (w : WalletLegacy C)
    (container : ITransfersContainer) (hc : w.m_transferDetails = some container)
    (hcons : ∀ flags, ∀ t ∈ container.getOutputs flags,
      (container.getTransactionInformation t.transactionHash).ok = true) :
    (∃ a, WalletLegacy.calculateActualDepositBalance env w = Except.ok a) ∧
    (∃ p, WalletLegacy.calculatePendingDepositBalance env w = Except.ok p) := by
  have hlen : ∀ transfers : List TransactionOutputInformation,
      transfers.length ≤ (transfers.map
        (fun t => (container.getTransactionInformation t.transactionHash).info.blockHeight)).length := by
    intro transfers
    rw [List.length_map]
  constructor
  · unfold WalletLegacy.calculateActualDepositBalance
    simp only [hc]
    rw [getTransactionHeights_ok container _ (hcons _)]
    simp only []
    rw [calculateDepositsAmount_ok env.m_currency _ _ (hlen _)]
    exact ⟨_, rfl⟩
  · unfold WalletLegacy.calculatePendingDepositBalance
    simp only [hc]
    rw [getTransactionHeights_ok container _ (hcons _)]
    simp only []
    rw [calculateDepositsAmount_ok env.m_currency _ _ (hlen _)]
    exact ⟨_, rfl⟩

theorem depositBalances_congr (env : Collaborators C R) (w w1 : WalletLegacy C)
    (hc : w1.m_transferDetails = w.m_transferDetails)
    (hk : w1.m_transactionsCache = w.m_transactionsCache) :
    WalletLegacy.calculateActualDepositBalance env w1 =
      WalletLegacy.calculateActualDepositBalance env w ∧
    WalletLegacy.calculatePendingDepositBalance env w1 =
      WalletLegacy.calculatePendingDepositBalance env w := by
  unfold WalletLegacy.calculateActualDepositBalance WalletLegacy.calculatePendingDepositBalance
  rw [hc, hk]
  exact ⟨rfl, rfl⟩

theorem notifyClients_fst (events : List WalletLegacyEvent) :
    (WalletLegacy.notifyClients events).1 = events.map WalletLegacyEvent.call ∧
    (WalletLegacy.notifyClients events).2 = [] := by
  induction events with
  | nil => exact ⟨rfl, rfl⟩
  | cons e rest ih =>
    simp only [WalletLegacy.notifyClients, WalletLegacyEvent.notify, ih.1, ih.2, List.map_cons,
      List.singleton_append, and_self]

theorem appendDepositBalanceEvents_of_calculate (env : Collaborators C R) (w : WalletLegacy C)
    (events : List WalletLegacyEvent) (a p : Nat)
    (ha : WalletLegacy.calculateActualDepositBalance env w = Except.ok a)
    (hp : WalletLegacy.calculatePendingDepositBalance env w = Except.ok p) :
    WalletLegacy.appendDepositBalanceEvents env w events =
      { wallet := { w with m_lastNotifiedActualDepositBalance := a,
                           m_lastNotifiedPendingDepositBalance := p },
        notified := events.map WalletLegacyEvent.call ++
          ((if a ≠ w.m_lastNotifiedActualDepositBalance then
              [ObserverCall.actualDepositBalanceUpdated a] else []) ++
            (if p ≠ w.m_lastNotifiedPendingDepositBalance then
              [ObserverCall.pendingDepositBalanceUpdated p] else [])),
        spawned := [], result := Except.ok () } := by
  have hp1 : WalletLegacy.calculatePendingDepositBalance env
      { w with m_lastNotifiedActualDepositBalance := a } = Except.ok p := by
    exact (depositBalances_congr env w
      { w with m_lastNotifiedActualDepositBalance := a } rfl rfl).2.trans hp
  simp only [WalletLegacy.appendDepositBalanceEvents,
    WalletLegacy.getActualDepositBalanceChangedEvent,
    WalletLegacy.getPendingDepositBalanceChangedEvent, ha, hp1, (notifyClients_fst _).1]
  by_cases h1 : a = w.m_lastNotifiedActualDepositBalance <;>
    by_cases h2 : p = w.m_lastNotifiedPendingDepositBalance <;>
    simp [h1, h2, WalletActualDepositBalanceUpdatedEvent,
      WalletPendingDepositBalanceUpdatedEvent]

/-! ## Events of a transaction update -/

theorem onTransactionUpdated_eq (env : Collaborators C R) (w : WalletLegacy C)
    (container : ITransfersContainer) (transactionHash : Hash)
    (hc : w.m_transferDetails = some container)
    (hcons : ∀ flags, ∀ t ∈ container.getOutputs flags,
      (container.getTransactionInformation t.transactionHash).ok = true)
    (hok : (container.getTransactionInformation transactionHash).ok = true)
    (hout : (container.getTransactionInformation transactionHash).amountOut = 1000)
    (hin : (container.getTransactionInformation transactionHash).amountIn = 0) :
    ∃ a p : Nat,
      WalletLegacy.calculateActualDepositBalance env
        { w with m_transactionsCache :=
            (cacheUpdate env container w.m_transactionsCache transactionHash 1000).cache } =
        Except.ok a ∧
      WalletLegacy.calculatePendingDepositBalance env
        { w with m_transactionsCache :=
            (cacheUpdate env container w.m_transactionsCache transactionHash 1000).cache } =
        Except.ok p ∧
      WalletLegacy.onTransactionUpdated env w transactionHash =
        { wallet :=
            { w with
              m_transactionsCache :=
                (cacheUpdate env container w.m_transactionsCache transactionHash 1000).cache,
              m_lastNotifiedActualDepositBalance := a,
              m_lastNotifiedPendingDepositBalance := p },
          notified :=
            (cacheUpdate env container w.m_transactionsCache transactionHash 1000).value.map
              WalletLegacyEvent.call ++
            ((if a ≠ w.m_lastNotifiedActualDepositBalance then
                [ObserverCall.actualDepositBalanceUpdated a] else []) ++
              (if p ≠ w.m_lastNotifiedPendingDepositBalance then
                [ObserverCall.pendingDepositBalanceUpdated p] else [])),
          spawned := [], result := Except.ok () } := by
  obtain ⟨st, stopping, pw, acc, la, lp, lad, lpd, td, sub, cache, snd, cnt⟩ := w
  simp only [] at hc
  subst hc
  obtain ⟨⟨a, ha⟩, ⟨p, hp⟩⟩ := depositBalances_ok env
    ⟨st, stopping, pw, acc, la, lp, lad, lpd, some container, sub,
      (cacheUpdate env container cache transactionHash 1000).cache, snd, cnt⟩
    container rfl hcons
  refine ⟨a, p, ha, hp, ?_⟩
  have hnet : subInt64 (toInt64 1000) (toInt64 0) = 1000 := by decide
  unfold WalletLegacy.onTransactionUpdated
  simp only [hok, if_true, hout, hin, hnet]
  exact appendDepositBalanceEvents_of_calculate env _ _ a p ha hp

/-- Claim C5, as amended.  Let the container know the transaction (`amountOut = 1000`,
`amountIn = 0`) and every transaction of the outputs it lists.  Then
`onTransactionUpdated` passes the net amount 1000 to the cache and delivers exactly the
events the cache returns, in their order, followed by `actualDepositBalanceUpdated(a)`
if the computed actual deposit balance `a` differs from its last-notified value and
then `pendingDepositBalanceUpdated(p)` likewise; it does not touch the last-notified
actual and pending balances.  So when the cache returns `transactionUpdated(id)`, that
is the first notification and no `actualBalanceUpdated` or `pendingBalanceUpdated` is
delivered.  A second `onTransactionUpdated` for the same hash that leaves the cache as
it is delivers the events the cache returns and no balance event.  The change of the
actual balance is notified by the next `notifyIfBalanceChanged`, which delivers
`actualBalanceUpdated(actual)` exactly when `actual` differs from the last-notified
value. -/
theorem onTransactionUpdated_events (env : Collaborators C R) (w : WalletLegacy C)
    (container : ITransfersContainer) (transactionHash : Hash)
    (hc : w.m_transferDetails = some container)
    (hcons : ∀ flags, ∀ t ∈ container.getOutputs flags,
      (container.getTransactionInformation t.transactionHash).ok = true)
    (hok : (container.getTransactionInformation transactionHash).ok = true)
    (hout : (container.getTransactionInformation transactionHash).amountOut = 1000)
    (hin : (container.getTransactionInformation transactionHash).amountIn = 0) :
    ∃ a p : Nat,
      WalletLegacy.onTransactionUpdated env w transactionHash =
        { wallet :=
            { w with
              m_transactionsCache :=
                (cacheUpdate env container w.m_transactionsCache transactionHash 1000).cache,
              m_lastNotifiedActualDepositBalance := a,
              m_lastNotifiedPendingDepositBalance := p },
          notified :=
            (cacheUpdate env container w.m_transactionsCache transactionHash 1000).value.map
              WalletLegacyEvent.call ++
            ((if a ≠ w.m_lastNotifiedActualDepositBalance then
                [ObserverCall.actualDepositBalanceUpdated a] else []) ++
              (if p ≠ w.m_lastNotifiedPendingDepositBalance then
                [ObserverCall.pendingDepositBalanceUpdated p] else [])),
          spawned := [], result := Except.ok () } ∧
      (∀ id, (cacheUpdate env container w.m_transactionsCache transactionHash 1000).value =
          [WalletTransactionUpdatedEvent id] →
        (WalletLegacy.onTransactionUpdated env w transactionHash).notified.head? =
          some (ObserverCall.transactionUpdated id) ∧
        ∀ v,
          ObserverCall.actualBalanceUpdated v ∉
            (WalletLegacy.onTransactionUpdated env w transactionHash).notified ∧
          ObserverCall.pendingBalanceUpdated v ∉
            (WalletLegacy.onTransactionUpdated env w transactionHash).notified) ∧
      ((cacheUpdate env container
          (cacheUpdate env container w.m_transactionsCache transactionHash 1000).cache
          transactionHash 1000).cache =
          (cacheUpdate env container w.m_transactionsCache transactionHash 1000).cache →
        (WalletLegacy.onTransactionUpdated env
          (WalletLegacy.onTransactionUpdated env w transactionHash).wallet
          transactionHash).notified =
          (cacheUpdate env container
            (cacheUpdate env container w.m_transactionsCache transactionHash 1000).cache
            transactionHash 1000).value.map WalletLegacyEvent.call) ∧
      (∀ actual pending,
        WalletLegacy.throwIfNotInitialised w = Except.ok () →
        WalletLegacy.calculateActualBalance env
          (WalletLegacy.onTransactionUpdated env w transactionHash).wallet = Except.ok actual →
        WalletLegacy.calculatePendingBalance env
          (WalletLegacy.onTransactionUpdated env w transactionHash).wallet = Except.ok pending →
        (WalletLegacy.notifyIfBalanceChanged env
          (WalletLegacy.onTransactionUpdated env w transactionHash).wallet).notified =
          (if w.m_lastNotifiedActualBalance ≠ actual then
              [ObserverCall.actualBalanceUpdated actual] else []) ++
            (if w.m_lastNotifiedPendingBalance ≠ pending then
              [ObserverCall.pendingBalanceUpdated pending] else [])) := by
  obtain ⟨a, p, ha, hp, h1⟩ :=
    onTransactionUpdated_eq env w container transactionHash hc hcons hok hout hin
  refine ⟨a, p, h1, ?_, ?_, ?_⟩
  · intro id hid
    rw [h1]
    simp only [hid, List.map_cons, List.map_nil, WalletTransactionUpdatedEvent,
      List.singleton_append, List.head?_cons, true_and]
    intro v
    by_cases e1 : a = w.m_lastNotifiedActualDepositBalance <;>
      by_cases e2 : p = w.m_lastNotifiedPendingDepositBalance <;>
      simp [e1, e2]
  · intro hsame
    rw [h1]
    obtain ⟨a2, p2, ha2, hp2, h2⟩ :=
      onTransactionUpdated_eq env
        { w with
          m_transactionsCache :=
            (cacheUpdate env container w.m_transactionsCache transactionHash 1000).cache,
          m_lastNotifiedActualDepositBalance := a,
          m_lastNotifiedPendingDepositBalance := p }
        container transactionHash hc hcons hok hout hin
    rw [h2]
    simp only [] at ha2 hp2 ⊢
    rw [hsame] at ha2 hp2
    have ea : a2 = a := by
      have := ((depositBalances_congr env
        { w with m_transactionsCache :=
            (cacheUpdate env container w.m_transactionsCache transactionHash 1000).cache }
        _ rfl rfl).1.symm.trans ha2)
      rw [ha] at this
      exact (Except.ok.inj this).symm
    have ep : p2 = p := by
      have := ((depositBalances_congr env
        { w with m_transactionsCache :=
            (cacheUpdate env container w.m_transactionsCache transactionHash 1000).cache }
        _ rfl rfl).2.symm.trans hp2)
      rw [hp] at this
      exact (Except.ok.inj this).symm
    simp [ea, ep]
  · intro actual pending hg hact hpend
    rw [h1] at hact hpend ⊢
    have hg1 : WalletLegacy.throwIfNotInitialised
        { w with
          m_transactionsCache :=
            (cacheUpdate env container w.m_transactionsCache transactionHash 1000).cache,
          m_lastNotifiedActualDepositBalance := a,
          m_lastNotifiedPendingDepositBalance := p } = Except.ok () := hg
    rw [notifyIfBalanceChanged_of_calculate env _ actual pending hg1 hact hpend]

/-- Witness of `onTransactionUpdated_events`: on the example wallet the transaction with
hash 7 is reported as `transactionUpdated(0)` and no actual-balance event follows. -/
theorem onTransactionUpdated_events_witness :
    (exampleWallet WalletState.INITIALIZED).m_transferDetails = some exampleContainer ∧
    (exampleContainer.getTransactionInformation 7).ok = true ∧
    (exampleContainer.getTransactionInformation 7).amountOut = 1000 ∧
    (exampleContainer.getTransactionInformation 7).amountIn = 0 ∧
    (WalletLegacy.onTransactionUpdated exampleCollaborators
      (exampleWallet WalletState.INITIALIZED) 7).notified.head? =
      some (ObserverCall.transactionUpdated 0) ∧
    ∀ v,
      ObserverCall.actualBalanceUpdated v ∉
        (WalletLegacy.onTransactionUpdated exampleCollaborators
          (exampleWallet WalletState.INITIALIZED) 7).notified ∧
      ObserverCall.pendingBalanceUpdated v ∉
        (WalletLegacy.onTransactionUpdated exampleCollaborators
          (exampleWallet WalletState.INITIALIZED) 7).notified := by
  obtain ⟨a, p, _, h2, _, _⟩ :=
    onTransactionUpdated_events exampleCollaborators (exampleWallet WalletState.INITIALIZED)
      exampleContainer 7 rfl
      (by
        intro flags t ht
        simp [exampleContainer] at ht)
      rfl rfl rfl
  exact ⟨rfl, rfl, rfl, rfl, h2 0 rfl⟩

/-- Counterexample to claim C5 as stated.  The example container reports the transaction
with hash 7, unknown to the cache, with `amountOut = 1000` and `amountIn = 0`, and the
actual balance computed after the update is 1000 while its last-notified value is 0; yet
`onTransactionUpdated` delivers `transactionUpdated(0)` alone, not followed by
`actualBalanceUpdated(1000)`. -/
theorem onTransactionUpdated_no_actual_balance_event :
    (exampleContainer.getTransactionInformation 7).ok = true ∧
    (exampleContainer.getTransactionInformation 7).amountOut = 1000 ∧
    (exampleContainer.getTransactionInformation 7).amountIn = 0 ∧
    7 ∉ (exampleWallet WalletState.INITIALIZED).m_transactionsCache.transactions ∧
    (WalletLegacy.onTransactionUpdated exampleCollaborators
      (exampleWallet WalletState.INITIALIZED) 7).result = Except.ok () ∧
    (WalletLegacy.onTransactionUpdated exampleCollaborators
      (exampleWallet WalletState.INITIALIZED) 7).notified =
      [ObserverCall.transactionUpdated 0] ∧
    (WalletLegacy.onTransactionUpdated exampleCollaborators
      (exampleWallet WalletState.INITIALIZED) 7).notified ≠
      [ObserverCall.transactionUpdated 0, ObserverCall.actualBalanceUpdated 1000] ∧
    WalletLegacy.calculateActualBalance exampleCollaborators
      (WalletLegacy.onTransactionUpdated exampleCollaborators
        (exampleWallet WalletState.INITIALIZED) 7).wallet = Except.ok 1000 ∧
    (WalletLegacy.onTransactionUpdated exampleCollaborators
      (exampleWallet WalletState.INITIALIZED) 7).wallet.m_lastNotifiedActualBalance = 0 := by
  have hn : (WalletLegacy.onTransactionUpdated exampleCollaborators
      (exampleWallet WalletState.INITIALIZED) 7).notified =
      [ObserverCall.transactionUpdated 0] := rfl
  refine ⟨rfl, rfl, rfl, by decide, rfl, hn, ?_, rfl, rfl⟩
  rw [hn]
  decide

/-! ## The deposit balance formulas -/

theorem getTransactionHeights_eq_map (container : ITransfersContainer) :
    ∀ (transfers : List TransactionOutputInformation) (heights : List Nat),
      getTransactionHeights container transfers = Except.ok heights →
      heights = transfers.map
        (fun t => (container.getTransactionInformation t.transactionHash).info.blockHeight) := by
  intro transfers
  induction transfers with
  | nil =>
    intro heights h
    simp only [getTransactionHeights, Except.ok.injEq] at h
    rw [← h]
    rfl
  | cons t rest ih =>
    intro heights h
    simp only [getTransactionHeights] at h
    by_cases hok : (container.getTransactionInformation t.transactionHash).ok = true
    · simp only [hok, if_true] at h
      cases hrest : getTransactionHeights container rest with
      | error f => simp [hrest] at h
      | ok hs =>
        simp only [hrest, Except.ok.injEq] at h
        rw [← h, ih hs hrest]
        rfl
    · simp [hok] at h

theorem getTransactionHeights_error (container : ITransfersContainer) :
    ∀ (transfers : List TransactionOutputInformation) (f : Failure),
      getTransactionHeights container transfers = Except.error f → f = Failure.assertion := by
  intro transfers
  induction transfers with
  | nil =>
    intro f h
    simp [getTransactionHeights] at h
  | cons t rest ih =>
    intro f h
    simp only [getTransactionHeights] at h
    by_cases hok : (container.getTransactionInformation t.transactionHash).ok = true
    · simp only [hok, if_true] at h
      cases hrest : getTransactionHeights container rest with
      | error g =>
        simp only [hrest, Except.error.injEq] at h
        rw [← h]
        exact ih g hrest
      | ok hs => simp [hrest] at h
    · simp only [hok] at h
      simp only [Bool.false_eq_true, if_false, Except.error.injEq] at h
      exact h.symm

theorem depositsFold_mod (container : ITransfersContainer) (currency : Currency) :
    ∀ (transfers : List TransactionOutputInformation) (sum : Nat),
      ((transfers.zip (transfers.map
          (fun t => (container.getTransactionInformation t.transactionHash).info.blockHeight))).foldl
        (fun sum dh => add64 (add64 sum dh.1.amount)
          (currency.calculateInterest dh.1.amount dh.1.term dh.2)) sum) % 2 ^ 64 =
      (sum + depositsSumSpec container currency transfers) % 2 ^ 64 := by
  intro transfers
  induction transfers with
  | nil =>
    intro sum
    simp [depositsSumSpec]
  | cons t rest ih =>
    intro sum
    simp only [List.map_cons, List.zip_cons_cons, List.foldl_cons]
    rw [ih]
    have hsum : depositsSumSpec container currency (t :: rest) =
        (t.amount + currency.calculateInterest t.amount t.term
          (container.getTransactionInformation t.transactionHash).info.blockHeight) +
        depositsSumSpec container currency rest := by
      simp [depositsSumSpec]
    rw [hsum]
    unfold add64 u64
    omega

theorem depositBalance_never_outOfRange (env : Collaborators C R) (w : WalletLegacy C) :
    WalletLegacy.calculateActualDepositBalance env w ≠ Except.error Failure.outOfRange ∧
    WalletLegacy.calculatePendingDepositBalance env w ≠ Except.error Failure.outOfRange := by
  have key : ∀ (container : ITransfersContainer) (transfers : List TransactionOutputInformation)
      (g : Nat → Nat),
      (match getTransactionHeights container transfers with
        | Except.error f => Except.error f
        | Except.ok heights =>
          match calculateDepositsAmount transfers env.m_currency heights with
          | Except.error f => Except.error f
          | Except.ok amount => Except.ok (g amount)) ≠
        (Except.error Failure.outOfRange : Except Failure Nat) := by
    intro container transfers g
    cases hh : getTransactionHeights container transfers with
    | error f =>
      have := getTransactionHeights_error container transfers f hh
      subst this
      simp
    | ok heights =>
      have hl : transfers.length ≤ heights.length := by
        rw [getTransactionHeights_eq_map container transfers heights hh, List.length_map]
      simp [calculateDepositsAmount_ok env.m_currency transfers heights hl]
  constructor
  · unfold WalletLegacy.calculateActualDepositBalance
    cases w.m_transferDetails with
    | none => simp
    | some container => exact key container _ _
  · unfold WalletLegacy.calculatePendingDepositBalance
    cases w.m_transferDetails with
    | none => simp
    | some container => exact key container _ _

theorem depositBalances_eq (env : Collaborators C R) (w : WalletLegacy C)
    (container : ITransfersContainer) (hc : w.m_transferDetails = some container)
    (hcons : ∀ flags, ∀ t ∈ container.getOutputs flags,
      (container.getTransactionInformation t.transactionHash).ok = true) :
    WalletLegacy.calculateActualDepositBalance env w =
      Except.ok (sub64
        (((container.getOutputs
            [IncludeFlag.IncludeTypeDeposit, IncludeFlag.IncludeStateUnlocked]).zip
          ((container.getOutputs
            [IncludeFlag.IncludeTypeDeposit, IncludeFlag.IncludeStateUnlocked]).map
            (fun t =>
              (container.getTransactionInformation t.transactionHash).info.blockHeight))).foldl
          (fun sum dh => add64 (add64 sum dh.1.amount)
            (env.m_currency.calculateInterest dh.1.amount dh.1.term dh.2)) 0)
        (env.cache.countUnconfirmedSpentDepositsTotalAmount w.m_transactionsCache)) ∧
    WalletLegacy.calculatePendingDepositBalance env w =
      Except.ok (add64
        (((container.getOutputs
            [IncludeFlag.IncludeTypeDeposit, IncludeFlag.IncludeStateLocked,
              IncludeFlag.IncludeStateSoftLocked]).zip
          ((container.getOutputs
            [IncludeFlag.IncludeTypeDeposit, IncludeFlag.IncludeStateLocked,
              IncludeFlag.IncludeStateSoftLocked]).map
            (fun t =>
              (container.getTransactionInformation t.transactionHash).info.blockHeight))).foldl
          (fun sum dh => add64 (add64 sum dh.1.amount)
            (env.m_currency.calculateInterest dh.1.amount dh.1.term dh.2)) 0)
        (env.cache.countUnconfirmedCreatedDepositsSum w.m_transactionsCache)) := by
  have hlen : ∀ transfers : List TransactionOutputInformation,
      transfers.length ≤ (transfers.map
        (fun t => (container.getTransactionInformation t.transactionHash).info.blockHeight)).length := by
    intro transfers
    rw [List.length_map]
  constructor
  · unfold WalletLegacy.calculateActualDepositBalance
    simp only [hc]
    rw [getTransactionHeights_ok container _ (hcons _)]
    simp only []
    rw [calculateDepositsAmount_ok env.m_currency _ _ (hlen _)]
  · unfold WalletLegacy.calculatePendingDepositBalance
    simp only [hc]
    rw [getTransactionHeights_ok container _ (hcons _)]
    simp only []
    rw [calculateDepositsAmount_ok env.m_currency _ _ (hlen _)]

/-- Claim C11.  With the container set and every listed output belonging to a
transaction the container knows, `calculateActualDepositBalance` returns, modulo `2^64`,
the sum over the unlocked deposit outputs of `amount + interest(amount, term, h)`, `h`
being the block height of the output's own transaction, minus
`countUnconfirmedSpentDepositsTotalAmount`; `calculatePendingDepositBalance` returns,
modulo `2^64`, the same sum over the locked and soft-locked deposit outputs plus
`countUnconfirmedCreatedDepositsSum`.  For every output list, the height list that
`getTransactionHeights` returns has one entry per output, in the order of the outputs,
so `calculateDepositsAmount` finds every indexed height; no wallet makes either balance
function end with an index out of range. -/
theorem depositBalance_formula (env : Collaborators C R) (w : WalletLegacy C)
    (container : ITransfersContainer) (hc : w.m_transferDetails = some container)
    (hcons : ∀ flags, ∀ t ∈ container.getOutputs flags,
      (container.getTransactionInformation t.transactionHash).ok = true) :
    (∃ actual : Nat,
      WalletLegacy.calculateActualDepositBalance env w = Except.ok actual ∧
      (actual : Int) =
        ((depositsSumSpec container env.m_currency
            (container.getOutputs
              [IncludeFlag.IncludeTypeDeposit, IncludeFlag.IncludeStateUnlocked]) : Int) -
          (env.cache.countUnconfirmedSpentDepositsTotalAmount w.m_transactionsCache : Int)) %
          2 ^ 64) ∧
    (∃ pending : Nat,
      WalletLegacy.calculatePendingDepositBalance env w = Except.ok pending ∧
      (pending : Int) =
        ((depositsSumSpec container env.m_currency
            (container.getOutputs
              [IncludeFlag.IncludeTypeDeposit, IncludeFlag.IncludeStateLocked,
                IncludeFlag.IncludeStateSoftLocked]) : Int) +
          (env.cache.countUnconfirmedCreatedDepositsSum w.m_transactionsCache : Int)) %
          2 ^ 64) ∧
    (∀ (transfers : List TransactionOutputInformation) (heights : List Nat),
      getTransactionHeights container transfers = Except.ok heights →
      heights.length = transfers.length ∧
      heights = transfers.map
        (fun t => (container.getTransactionInformation t.transactionHash).info.blockHeight) ∧
      ∃ amount, calculateDepositsAmount transfers env.m_currency heights = Except.ok amount) ∧
    (∀ w1 : WalletLegacy C,
      WalletLegacy.calculateActualDepositBalance env w1 ≠ Except.error Failure.outOfRange ∧
      WalletLegacy.calculatePendingDepositBalance env w1 ≠ Except.error Failure.outOfRange) := by
  obtain ⟨hactual, hpending⟩ := depositBalances_eq env w container hc hcons
  refine ⟨?_, ?_, ?_, depositBalance_never_outOfRange env⟩
  · refine ⟨_, hactual, ?_⟩
    · rw [sub64_int]
      have := depositsFold_mod container env.m_currency
        (container.getOutputs [IncludeFlag.IncludeTypeDeposit, IncludeFlag.IncludeStateUnlocked]) 0
      rw [Nat.zero_add] at this
      omega
  · refine ⟨_, hpending, ?_⟩
    · rw [add64_int]
      have := depositsFold_mod container env.m_currency
        (container.getOutputs [IncludeFlag.IncludeTypeDeposit, IncludeFlag.IncludeStateLocked,
          IncludeFlag.IncludeStateSoftLocked]) 0
      rw [Nat.zero_add] at this
      omega
  · intro transfers heights h
    have hm := getTransactionHeights_eq_map container transfers heights h
    exact ⟨by rw [hm, List.length_map], hm, _,
      calculateDepositsAmount_ok env.m_currency transfers heights
        (by rw [hm, List.length_map])⟩

/-- Witness of `depositBalance_formula`: one unlocked deposit of 500 with interest 5 gives
the actual deposit balance 505. -/
theorem depositBalance_formula_witness :
    depositWallet.m_transferDetails = some depositContainer ∧
    (∀ flags, ∀ t ∈ depositContainer.getOutputs flags,
      (depositContainer.getTransactionInformation t.transactionHash).ok = true) ∧
    depositsSumSpec depositContainer exampleCurrency
      (depositContainer.getOutputs
        [IncludeFlag.IncludeTypeDeposit, IncludeFlag.IncludeStateUnlocked]) = 505 ∧
    WalletLegacy.calculateActualDepositBalance exampleCollaborators depositWallet =
      Except.ok 505 := by
  have hcons : ∀ flags, ∀ t ∈ depositContainer.getOutputs flags,
      (depositContainer.getTransactionInformation t.transactionHash).ok = true := by
    intro flags t ht
    simp only [depositContainer] at ht
    split at ht
    · simp only [List.mem_singleton] at ht
      subst ht
      rfl
    · simp at ht
  obtain ⟨⟨actual, hact, hval⟩, _⟩ :=
    depositBalance_formula exampleCollaborators depositWallet depositContainer rfl hcons
  have hs : depositsSumSpec depositContainer exampleCurrency
      (depositContainer.getOutputs
        [IncludeFlag.IncludeTypeDeposit, IncludeFlag.IncludeStateUnlocked]) = 505 := by
    decide
  refine ⟨rfl, hcons, hs, ?_⟩
  have hcur : exampleCollaborators.m_currency = exampleCurrency := rfl
  have hcount : exampleCollaborators.cache.countUnconfirmedSpentDepositsTotalAmount
      depositWallet.m_transactionsCache = 0 := rfl
  rw [hcur, hs, hcount] at hval
  have : actual = 505 := by
    have h505 : ((505 : Nat) : Int) - ((0 : Nat) : Int) = 505 := by norm_num
    rw [h505] at hval
    have h2 : (505 : Int) % 2 ^ 64 = 505 := by norm_num
    rw [h2] at hval
    exact_mod_cast hval
  rw [hact, this]

/-! ## The asynchronous-context counter along a request chain -/

theorem SameLifecycle.refl (w : WalletLegacy C) : w.SameLifecycle w :=
  ⟨rfl, rfl, rfl, rfl, rfl, rfl, rfl, rfl⟩

theorem SameLifecycle.trans {w w1 w2 : WalletLegacy C} (h1 : w.SameLifecycle w1)
    (h2 : w1.SameLifecycle w2) : w.SameLifecycle w2 := by
  obtain ⟨a1, a2, a3, a4, a5, a6, a7, a8⟩ := h1
  obtain ⟨b1, b2, b3, b4, b5, b6, b7, b8⟩ := h2
  exact ⟨b1.trans a1, b2.trans a2, b3.trans a3, b4.trans a4, b5.trans a5, b6.trans a6,
    b7.trans a7, b8.trans a8⟩

theorem getBalanceChangedEvent_frame (env : Collaborators C R) (w : WalletLegacy C)
    (axis : BalanceAxis) (event : Option WalletLegacyEvent) (w1 : WalletLegacy C)
    (h : WalletLegacy.getBalanceChangedEvent env w axis = Except.ok (event, w1)) :
    w.SameLifecycle w1 ∧ w1.m_transactionsCache = w.m_transactionsCache := by
  cases axis
  · simp only [WalletLegacy.getBalanceChangedEvent, WalletLegacy.getActualBalanceChangedEvent] at h
    cases hcalc : WalletLegacy.calculateActualBalance env w with
    | error f => simp [hcalc] at h
    | ok v =>
      simp only [hcalc, Except.ok.injEq, Prod.mk.injEq] at h
      rw [← h.2]
      exact ⟨⟨rfl, rfl, rfl, rfl, rfl, rfl, rfl, rfl⟩, rfl⟩
  · simp only [WalletLegacy.getBalanceChangedEvent, WalletLegacy.getPendingBalanceChangedEvent] at h
    cases hcalc : WalletLegacy.calculatePendingBalance env w with
    | error f => simp [hcalc] at h
    | ok v =>
      simp only [hcalc, Except.ok.injEq, Prod.mk.injEq] at h
      rw [← h.2]
      exact ⟨⟨rfl, rfl, rfl, rfl, rfl, rfl, rfl, rfl⟩, rfl⟩
  · simp only [WalletLegacy.getBalanceChangedEvent,
      WalletLegacy.getActualDepositBalanceChangedEvent] at h
    cases hcalc : WalletLegacy.calculateActualDepositBalance env w with
    | error f => simp [hcalc] at h
    | ok v =>
      simp only [hcalc, Except.ok.injEq, Prod.mk.injEq] at h
      rw [← h.2]
      exact ⟨⟨rfl, rfl, rfl, rfl, rfl, rfl, rfl, rfl⟩, rfl⟩
  · simp only [WalletLegacy.getBalanceChangedEvent,
      WalletLegacy.getPendingDepositBalanceChangedEvent] at h
    cases hcalc : WalletLegacy.calculatePendingDepositBalance env w with
    | error f => simp [hcalc] at h
    | ok v =>
      simp only [hcalc, Except.ok.injEq, Prod.mk.injEq] at h
      rw [← h.2]
      exact ⟨⟨rfl, rfl, rfl, rfl, rfl, rfl, rfl, rfl⟩, rfl⟩

theorem calculate_ok (env : Collaborators C R) (w : WalletLegacy C)
    (container : ITransfersContainer) (hc : w.m_transferDetails = some container)
    (hcons : ∀ flags, ∀ t ∈ container.getOutputs flags,
      (container.getTransactionInformation t.transactionHash).ok = true)
    (axis : BalanceAxis) : ∃ v, WalletLegacy.calculate env w axis = Except.ok v := by
  cases axis
  · simp only [WalletLegacy.calculate, WalletLegacy.calculateActualBalance, hc]
    exact ⟨_, rfl⟩
  · simp only [WalletLegacy.calculate, WalletLegacy.calculatePendingBalance, hc]
    exact ⟨_, rfl⟩
  · exact (depositBalances_ok env w container hc hcons).1
  · exact (depositBalances_ok env w container hc hcons).2

theorem getBalanceChangedEvent_ok (env : Collaborators C R) (w : WalletLegacy C)
    (container : ITransfersContainer) (hc : w.m_transferDetails = some container)
    (hcons : ∀ flags, ∀ t ∈ container.getOutputs flags,
      (container.getTransactionInformation t.transactionHash).ok = true)
    (axis : BalanceAxis) :
    ∃ event w1, WalletLegacy.getBalanceChangedEvent env w axis = Except.ok (event, w1) ∧
      w.SameLifecycle w1 ∧ w1.m_transactionsCache = w.m_transactionsCache := by
  obtain ⟨v, hv⟩ := calculate_ok env w container hc hcons axis
  obtain ⟨w1, hget, _⟩ := getBalanceChangedEvent_of_calculate env w axis v hv
  exact ⟨_, w1, hget, getBalanceChangedEvent_frame env w axis _ w1 hget⟩

theorem depositBalance_error (env : Collaborators C R) (w : WalletLegacy C) (f : Failure) :
    (WalletLegacy.calculateActualDepositBalance env w = Except.error f →
      f = Failure.nullDereference ∨ f = Failure.assertion) ∧
    (WalletLegacy.calculatePendingDepositBalance env w = Except.error f →
      f = Failure.nullDereference ∨ f = Failure.assertion) := by
  have key : ∀ (container : ITransfersContainer) (transfers : List TransactionOutputInformation)
      (g : Nat → Nat),
      (match getTransactionHeights container transfers with
        | Except.error f => Except.error f
        | Except.ok heights =>
          match calculateDepositsAmount transfers env.m_currency heights with
          | Except.error f => Except.error f
          | Except.ok amount => Except.ok (g amount)) =
        (Except.error f : Except Failure Nat) → f = Failure.assertion := by
    intro container transfers g
    cases hh : getTransactionHeights container transfers with
    | error f1 =>
      intro h
      simp only [Except.error.injEq] at h
      rw [← h]
      exact getTransactionHeights_error container transfers f1 hh
    | ok heights =>
      have hl : transfers.length ≤ heights.length := by
        rw [getTransactionHeights_eq_map container transfers heights hh, List.length_map]
      simp [calculateDepositsAmount_ok env.m_currency transfers heights hl]
  constructor
  · unfold WalletLegacy.calculateActualDepositBalance
    cases w.m_transferDetails with
    | none =>
      intro h
      simp only [Except.error.injEq] at h
      exact Or.inl h.symm
    | some container => exact fun h => Or.inr (key container _ _ h)
  · unfold WalletLegacy.calculatePendingDepositBalance
    cases w.m_transferDetails with
    | none =>
      intro h
      simp only [Except.error.injEq] at h
      exact Or.inl h.symm
    | some container => exact fun h => Or.inr (key container _ _ h)

theorem getDepositBalanceChangedEvent_error (env : Collaborators C R) (w : WalletLegacy C)
    (f : Failure) :
    (WalletLegacy.getActualDepositBalanceChangedEvent env w = Except.error f →
      f = Failure.nullDereference ∨ f = Failure.assertion) ∧
    (WalletLegacy.getPendingDepositBalanceChangedEvent env w = Except.error f →
      f = Failure.nullDereference ∨ f = Failure.assertion) := by
  constructor
  · unfold WalletLegacy.getActualDepositBalanceChangedEvent
    cases hcalc : WalletLegacy.calculateActualDepositBalance env w with
    | error g =>
      intro h
      simp only [Except.error.injEq] at h
      rw [← h]
      exact (depositBalance_error env w g).1 hcalc
    | ok v => simp
  · unfold WalletLegacy.getPendingDepositBalanceChangedEvent
    cases hcalc : WalletLegacy.calculatePendingDepositBalance env w with
    | error g =>
      intro h
      simp only [Except.error.injEq] at h
      rw [← h]
      exact (depositBalance_error env w g).2 hcalc
    | ok v => simp

/-- What a request callback does when it returns: it keeps the lifecycle members,
performs at most one follow-up request, bound to `synchronizationCallback`, and leaves
the counter one lower, plus one for the follow-up request. -/
theorem performCallback_returns (env : Collaborators C R) (w : WalletLegacy C) (request : R)
    (callback : RequestCallback) (ec : ErrorCode)
    (h : (WalletLegacy.performCallback env w request callback ec).result = Except.ok ()) :
    (WalletLegacy.performCallback env w request callback ec).wallet.m_state = w.m_state ∧
    (WalletLegacy.performCallback env w request callback ec).wallet.m_isStopping =
      w.m_isStopping ∧
    (WalletLegacy.performCallback env w request callback ec).wallet.m_transferDetails =
      w.m_transferDetails ∧
    (WalletLegacy.performCallback env w request callback ec).wallet.m_sender = w.m_sender ∧
    (WalletLegacy.performCallback env w request callback ec).wallet.m_subscription =
      w.m_subscription ∧
    ((WalletLegacy.performCallback env w request callback ec).spawned = [] ∨
      ∃ next, (WalletLegacy.performCallback env w request callback ec).spawned =
        [Worker.perform next RequestCallback.synchronizationCallback]) ∧
    (1 ≤ w.m_asyncContextCounter →
      (WalletLegacy.performCallback env w request callback ec).wallet.m_asyncContextCounter + 1 =
        w.m_asyncContextCounter +
          (WalletLegacy.performCallback env w request callback ec).spawned.length) := by
  cases callback
  · simp only [WalletLegacy.performCallback, WalletLegacy.sendTransactionCallback] at h ⊢
    cases ha : WalletLegacy.getActualDepositBalanceChangedEvent env
        { w with m_transactionsCache :=
            (env.sender.callback request w.m_transactionsCache ec).cache } with
    | error f => simp [ha] at h
    | ok p1 =>
      obtain ⟨e1, w2⟩ := p1
      obtain ⟨⟨s1, s2, _, _, s5, s6, s7, s8⟩, _⟩ :=
        getBalanceChangedEvent_frame env _ BalanceAxis.actualDeposit e1 w2 ha
      simp only [ha] at h ⊢
      cases hp : WalletLegacy.getPendingDepositBalanceChangedEvent env w2 with
      | error f => simp [hp] at h
      | ok p2 =>
        obtain ⟨e2, w3⟩ := p2
        obtain ⟨⟨t1, t2, _, _, t5, t6, t7, t8⟩, _⟩ :=
          getBalanceChangedEvent_frame env _ BalanceAxis.pendingDeposit e2 w3 hp
        simp only [hp]
        cases (env.sender.callback request w.m_transactionsCache ec).nextRequest with
        | none =>
          simp only [delAsyncContext, List.length_nil, true_or, true_and]
          refine ⟨t1.trans s1, t2.trans s2, t5.trans s5, t7.trans s7, t6.trans s6, ?_⟩
          intro hpos
          rw [t8, s8]
          simp only []
          omega
        | some next =>
          simp only [delAsyncContext, addAsyncContext, List.length_singleton]
          refine ⟨t1.trans s1, t2.trans s2, t5.trans s5, t7.trans s7, t6.trans s6,
            Or.inr ⟨next, rfl⟩, ?_⟩
          intro hpos
          rw [t8, s8]
          simp only []
          omega
  · simp only [WalletLegacy.performCallback, WalletLegacy.synchronizationCallback] at h ⊢
    cases (env.sender.callback request w.m_transactionsCache ec).nextRequest with
    | none =>
      simp only [delAsyncContext, List.length_nil, true_or, true_and]
      intro hpos
      omega
    | some next =>
      simp only [delAsyncContext, addAsyncContext, List.length_singleton, true_and]
      refine ⟨Or.inr ⟨next, rfl⟩, ?_⟩
      intro hpos
      omega

theorem performCallback_total (env : Collaborators C R) (w : WalletLegacy C)
    (container : ITransfersContainer) (hc : w.m_transferDetails = some container)
    (hcons : ∀ flags, ∀ t ∈ container.getOutputs flags,
      (container.getTransactionInformation t.transactionHash).ok = true)
    (request : R) (callback : RequestCallback) (ec : ErrorCode) :
    (WalletLegacy.performCallback env w request callback ec).result = Except.ok () := by
  cases callback
  · simp only [WalletLegacy.performCallback, WalletLegacy.sendTransactionCallback]
    obtain ⟨e1, w2, ha, ⟨_, _, _, _, s5, _⟩, _⟩ :=
      getBalanceChangedEvent_ok env
        { w with m_transactionsCache :=
            (env.sender.callback request w.m_transactionsCache ec).cache }
        container hc hcons BalanceAxis.actualDeposit
    obtain ⟨e2, w3, hp, _⟩ :=
      getBalanceChangedEvent_ok env w2 container (s5.trans hc) hcons BalanceAxis.pendingDeposit
    simp only [WalletLegacy.getBalanceChangedEvent] at ha hp
    simp only [ha, hp]
    cases (env.sender.callback request w.m_transactionsCache ec).nextRequest <;> rfl
  · simp only [WalletLegacy.performCallback, WalletLegacy.synchronizationCallback]
    cases (env.sender.callback request w.m_transactionsCache ec).nextRequest <;> rfl

theorem performCallback_fails (env : Collaborators C R) (w : WalletLegacy C) (request : R)
    (callback : RequestCallback) (ec : ErrorCode) (f : Failure)
    (h : (WalletLegacy.performCallback env w request callback ec).result = Except.error f) :
    f = Failure.nullDereference ∨ f = Failure.assertion := by
  cases callback
  · simp only [WalletLegacy.performCallback, WalletLegacy.sendTransactionCallback] at h
    cases ha : WalletLegacy.getActualDepositBalanceChangedEvent env
        { w with m_transactionsCache :=
            (env.sender.callback request w.m_transactionsCache ec).cache } with
    | error g =>
      simp only [ha, Except.error.injEq] at h
      rw [← h]
      exact (getDepositBalanceChangedEvent_error env _ g).1 ha
    | ok p1 =>
      obtain ⟨e1, w2⟩ := p1
      simp only [ha] at h
      cases hp : WalletLegacy.getPendingDepositBalanceChangedEvent env w2 with
      | error g =>
        simp only [hp, Except.error.injEq] at h
        rw [← h]
        exact (getDepositBalanceChangedEvent_error env _ g).2 hp
      | ok p2 =>
        obtain ⟨e2, w3⟩ := p2
        simp only [hp] at h
        cases hn : (env.sender.callback request w.m_transactionsCache ec).nextRequest <;>
          simp [hn] at h
  · simp only [WalletLegacy.performCallback, WalletLegacy.synchronizationCallback] at h
    cases hn : (env.sender.callback request w.m_transactionsCache ec).nextRequest <;>
      simp [hn] at h

/-- The invariant of a request chain: as long as no callback fails, the counter exceeds
its value without the chain by the number of requests still pending (none or one). -/
theorem runChain_counter (env : Collaborators C R) :
    ∀ (codes : List ErrorCode) (w : WalletLegacy C) (workers : List (Worker R)),
      (workers = [] ∨ ∃ request callback, workers = [Worker.perform request callback]) →
      workers.length ≤ w.m_asyncContextCounter →
      (WalletLegacy.runChain env w workers codes).2.2.2 = none →
      ((WalletLegacy.runChain env w workers codes).2.1 = [] ∨
        ∃ request callback,
          (WalletLegacy.runChain env w workers codes).2.1 = [Worker.perform request callback]) ∧
      (WalletLegacy.runChain env w workers codes).1.m_asyncContextCounter + workers.length =
        w.m_asyncContextCounter + (WalletLegacy.runChain env w workers codes).2.1.length ∧
      (WalletLegacy.runChain env w workers codes).1.m_state = w.m_state ∧
      (WalletLegacy.runChain env w workers codes).1.m_transferDetails = w.m_transferDetails := by
  intro codes
  induction codes with
  | nil =>
    intro w workers hw _ _
    rcases hw with hw | ⟨request, callback, hw⟩ <;> subst hw <;>
      simp [WalletLegacy.runChain]
  | cons ec codes ih =>
    intro w workers hw hcount hnone
    rcases hw with hw | ⟨request, callback, hw⟩
    · subst hw
      simp [WalletLegacy.runChain]
    · subst hw
      simp only [WalletLegacy.runChain] at hnone ⊢
      cases hres : (WalletLegacy.performCallback env w request callback ec).result with
      | error f => simp [hres] at hnone
      | ok u =>
        simp only [hres] at hnone ⊢
        simp only [List.length_singleton] at hcount
        obtain ⟨c1, _, c3, _, _, c6, c7⟩ :=
          performCallback_returns env w request callback ec hres
        have c7 := c7 hcount
        have hsp : (WalletLegacy.performCallback env w request callback ec).spawned = [] ∨
            ∃ r cb, (WalletLegacy.performCallback env w request callback ec).spawned =
              [Worker.perform r cb] := by
          rcases c6 with c6 | ⟨next, c6⟩
          · exact Or.inl c6
          · exact Or.inr ⟨next, _, c6⟩
        obtain ⟨i1, i2, i3, i4⟩ := ih _ _ hsp (by omega) hnone
        refine ⟨i1, ?_, i3.trans c1, i4.trans c3⟩
        simp only [List.length_singleton]
        omega

theorem runChain_total (env : Collaborators C R) (container : ITransfersContainer)
    (hcons : ∀ flags, ∀ t ∈ container.getOutputs flags,
      (container.getTransactionInformation t.transactionHash).ok = true) :
    ∀ (codes : List ErrorCode) (w : WalletLegacy C) (workers : List (Worker R)),
      w.m_transferDetails = some container →
      (WalletLegacy.runChain env w workers codes).2.2.2 = none := by
  intro codes
  induction codes with
  | nil =>
    intro w workers _
    cases workers with
    | nil => rfl
    | cons x xs => cases x <;> rfl
  | cons ec codes ih =>
    intro w workers hc
    cases workers with
    | nil => rfl
    | cons x xs =>
      cases x with
      | doLoad => rfl
      | doSave a b => rfl
      | perform request callback =>
        have hres := performCallback_total env w container hc hcons request callback ec
        simp only [WalletLegacy.runChain, hres]
        exact ih _ _ ((performCallback_returns env w request callback ec hres).2.2.1.trans hc)

theorem notifyAndPerform_spec (w : WalletLegacy C) (events : List WalletLegacyEvent)
    (request : Option R) (txId : TransactionId) :
    (WalletLegacy.notifyAndPerform w events request txId).result = Except.ok txId ∧
    ((WalletLegacy.notifyAndPerform w events request txId).spawned = [] ∨
      ∃ r, (WalletLegacy.notifyAndPerform w events request txId).spawned =
        [Worker.perform r RequestCallback.sendTransactionCallback]) ∧
    (WalletLegacy.notifyAndPerform w events request txId).wallet.m_asyncContextCounter =
      w.m_asyncContextCounter +
        (WalletLegacy.notifyAndPerform w events request txId).spawned.length ∧
    (WalletLegacy.notifyAndPerform w events request txId).wallet.m_transferDetails =
      w.m_transferDetails ∧
    (WalletLegacy.notifyAndPerform w events request txId).wallet.m_state = w.m_state ∧
    (WalletLegacy.notifyAndPerform w events request txId).wallet.m_sender = w.m_sender ∧
    (WalletLegacy.notifyAndPerform w events request txId).wallet.m_isStopping =
      w.m_isStopping ∧
    (WalletLegacy.notifyAndPerform w events request txId).wallet.m_subscription =
      w.m_subscription := by
  cases request with
  | none => simp [WalletLegacy.notifyAndPerform]
  | some r => simp [WalletLegacy.notifyAndPerform, addAsyncContext]

theorem pushBalanceUpdatedEvents_ok (env : Collaborators C R) (w : WalletLegacy C)
    (container : ITransfersContainer) (hc : w.m_transferDetails = some container)
    (hcons : ∀ flags, ∀ t ∈ container.getOutputs flags,
      (container.getTransactionInformation t.transactionHash).ok = true)
    (eventsQueue : List WalletLegacyEvent) :
    ∃ w4 queue, WalletLegacy.pushBalanceUpdatedEvents env w eventsQueue = (w4, queue, none) ∧
      w.SameLifecycle w4 := by
  obtain ⟨e1, w1, h1, f1, _⟩ :=
    getBalanceChangedEvent_ok env w container hc hcons BalanceAxis.actualDeposit
  obtain ⟨e2, w2, h2, f2, _⟩ :=
    getBalanceChangedEvent_ok env w1 container (f1.2.2.2.2.1.trans hc) hcons
      BalanceAxis.pendingDeposit
  have g2 := SameLifecycle.trans f1 f2
  obtain ⟨e3, w3, h3, f3, _⟩ :=
    getBalanceChangedEvent_ok env w2 container (g2.2.2.2.2.1.trans hc) hcons BalanceAxis.actual
  have g3 := SameLifecycle.trans g2 f3
  obtain ⟨e4, w4, h4, f4, _⟩ :=
    getBalanceChangedEvent_ok env w3 container (g3.2.2.2.2.1.trans hc) hcons BalanceAxis.pending
  simp only [WalletLegacy.getBalanceChangedEvent] at h1 h2 h3 h4
  refine ⟨w4, eventsQueue ++ e1.toList ++ e2.toList ++ e3.toList ++ e4.toList, ?_,
    SameLifecycle.trans g3 f4⟩
  simp only [WalletLegacy.pushBalanceUpdatedEvents, h1, h2, h3, h4]

theorem notifyAndPerform_startsChain (w w1 : WalletLegacy C) (events : List WalletLegacyEvent)
    (request : Option R) (txId : TransactionId)
    (hcount : w1.m_asyncContextCounter = w.m_asyncContextCounter)
    (hcont : w1.m_transferDetails = w.m_transferDetails) :
    w.StartsChain (WalletLegacy.notifyAndPerform w1 events request txId) := by
  obtain ⟨h1, h2, h3, h4, _⟩ := notifyAndPerform_spec w1 events request txId
  exact ⟨⟨txId, h1⟩, h2, by rw [h3, hcount], h4.trans hcont⟩

theorem finishDepositRequest_startsChain (env : Collaborators C R) (w : WalletLegacy C)
    (container : ITransfersContainer) (hc : w.m_transferDetails = some container)
    (hcons : ∀ flags, ∀ t ∈ container.getOutputs flags,
      (container.getTransactionInformation t.transactionHash).ok = true)
    (r : RequestResult C R) :
    w.StartsChain (WalletLegacy.finishDepositRequest env w r) := by
  unfold WalletLegacy.finishDepositRequest
  cases hreq : r.request with
  | none =>
    simp only []
    exact notifyAndPerform_startsChain w _ _ _ _ rfl rfl
  | some request =>
    simp only []
    obtain ⟨w4, queue, hpush, hframe⟩ :=
      pushBalanceUpdatedEvents_ok env { w with m_transactionsCache := r.cache } container hc hcons
        r.events
    rw [hpush]
    simp only []
    exact notifyAndPerform_startsChain w _ _ _ _ hframe.2.2.2.2.2.2.2 hframe.2.2.2.2.1

theorem userCalls_startChain (env : Collaborators C R) (w : WalletLegacy C)
    (container : ITransfersContainer) (sender : SenderObject)
    (hs : w.m_state = WalletState.INITIALIZED ∨ w.m_state = WalletState.SAVING)
    (hc : w.m_transferDetails = some container)
    (hcons : ∀ flags, ∀ t ∈ container.getOutputs flags,
      (container.getTransactionInformation t.transactionHash).ok = true)
    (hsend : w.m_sender = some sender)
    (transfers : List WalletLegacyTransfer) (args : SendArguments)
    (term amount fee mixIn : Nat) (depositIds : List DepositId) :
    w.StartsChain (WalletLegacy.sendTransaction env w transfers args) ∧
    w.StartsChain (WalletLegacy.deposit env w term amount fee mixIn) ∧
    w.StartsChain (WalletLegacy.withdrawDeposits env w depositIds fee) := by
  have hg := throwIfNotInitialised_of_initialized w hs (by rw [hc]; rfl)
  refine ⟨?_, ?_, ?_⟩
  · simp only [WalletLegacy.sendTransaction, hg, hc, hsend]
    exact notifyAndPerform_startsChain w _ _ _ _ rfl hc.symm
  · simp only [WalletLegacy.deposit, hg, hc, hsend]
    exact finishDepositRequest_startsChain env w container hc hcons _
  · simp only [WalletLegacy.withdrawDeposits, hg, hc, hsend]
    exact finishDepositRequest_startsChain env w container hc hcons _

theorem shutdownBegin_eq (w : WalletLegacy C) :
    (w.m_isStopping = true →
      (WalletLegacy.shutdownBegin w : Outcome C R Unit) =
        { wallet := w, notified := [], spawned := [], result := Except.error throwNotDefined }) ∧
    (w.m_isStopping = false → w.m_state ≠ WalletState.INITIALIZED →
      (WalletLegacy.shutdownBegin w : Outcome C R Unit) =
        { wallet := { w with m_isStopping := true }, notified := [], spawned := [],
          result := Except.error throwNotDefined }) ∧
    (w.m_isStopping = false → w.m_state = WalletState.INITIALIZED → w.m_sender = none →
      (WalletLegacy.shutdownBegin w : Outcome C R Unit) =
        { wallet := { w with m_isStopping := true }, notified := [], spawned := [],
          result := Except.error Failure.nullDereference }) ∧
    (w.m_isStopping = false → w.m_state = WalletState.INITIALIZED →
      ∀ sender, w.m_sender = some sender →
      (WalletLegacy.shutdownBegin w : Outcome C R Unit) =
        { wallet := { w with m_isStopping := true, m_sender := some { stopped := true } },
          notified := [], spawned := [], result := Except.ok () }) := by
  refine ⟨?_, ?_, ?_, ?_⟩
  · intro h
    simp [WalletLegacy.shutdownBegin, h]
  · intro h hs
    simp [WalletLegacy.shutdownBegin, h, hs]
  · intro h hs hn
    simp [WalletLegacy.shutdownBegin, h, hs, hn]
  · intro h hs sender hn
    simp [WalletLegacy.shutdownBegin, h, hs, hn]

theorem shutdownBegin_counter (w : WalletLegacy C) :
    (WalletLegacy.shutdownBegin w : Outcome C R Unit).wallet.m_asyncContextCounter =
      w.m_asyncContextCounter := by
  obtain ⟨h1, h2, h3, h4⟩ := @shutdownBegin_eq C R w
  by_cases hstop : w.m_isStopping = true
  · rw [h1 hstop]
  · have hstop : w.m_isStopping = false := by simpa using hstop
    by_cases hs : w.m_state = WalletState.INITIALIZED
    · cases hn : w.m_sender with
      | none => rw [h3 hstop hs hn]
      | some sender => rw [h4 hstop hs sender hn]
    · rw [h2 hstop hs]

theorem shutdown_ok_counter (env : Collaborators C R) (w : WalletLegacy C)
    (h : (WalletLegacy.shutdown env w).result = Except.ok ()) :
    w.m_asyncContextCounter = 0 := by
  unfold WalletLegacy.shutdown at h
  have hb := @shutdownBegin_counter C R w
  cases hres : (WalletLegacy.shutdownBegin w : Outcome C R Unit).result with
  | error f =>
    simp only [hres] at h
    cases h
  | ok u =>
    simp only [hres] at h
    by_cases hz : (WalletLegacy.shutdownBegin w : Outcome C R Unit).wallet.m_asyncContextCounter = 0
    · rw [← hb]
      exact hz
    · simp only [hz, if_false] at h
      cases h

/-- Claim C12.  On a wallet that passes `throwIfNotInitialised`, with the sender set and a
container that knows the transaction of every output it lists, each of
`sendTransaction`, `deposit` and `withdrawDeposits` returns, performs at most one
request and adds one asynchronous context per performed request.  Running the
callbacks of the chain on any error codes, no callback fails, and after any number of
callbacks the counter is its value before the user call plus the number of requests
still pending; once no request is pending it equals its value before the user call.
Each callback either returns or ends the process in a failed `assert` or null
dereference; when it returns on a counter of at least one, the counter has gone down
by one and up by one for the follow-up request it has performed.  `shutdown` returns
normally only on a wallet whose counter is zero. -/
theorem async_counter_balanced (env : Collaborators C R) (w : WalletLegacy C)
    (container : ITransfersContainer) (sender : SenderObject)
    (hs : w.m_state = WalletState.INITIALIZED ∨ w.m_state = WalletState.SAVING)
    (hc : w.m_transferDetails = some container)
    (hcons : ∀ flags, ∀ t ∈ container.getOutputs flags,
      (container.getTransactionInformation t.transactionHash).ok = true)
    (hsend : w.m_sender = some sender)
    (transfers : List WalletLegacyTransfer) (args : SendArguments)
    (term amount fee mixIn : Nat) (depositIds : List DepositId) (codes : List ErrorCode) :
    (∀ o : Outcome C R TransactionId,
      (o = WalletLegacy.sendTransaction env w transfers args ∨
        o = WalletLegacy.deposit env w term amount fee mixIn ∨
        o = WalletLegacy.withdrawDeposits env w depositIds fee) →
      (∃ txId, o.result = Except.ok txId) ∧
      (o.spawned = [] ∨
        ∃ r, o.spawned = [Worker.perform r RequestCallback.sendTransactionCallback]) ∧
      o.wallet.m_asyncContextCounter = w.m_asyncContextCounter + o.spawned.length ∧
      (WalletLegacy.runChain env o.wallet o.spawned codes).2.2.2 = none ∧
      (WalletLegacy.runChain env o.wallet o.spawned codes).1.m_asyncContextCounter =
        w.m_asyncContextCounter +
          (WalletLegacy.runChain env o.wallet o.spawned codes).2.1.length ∧
      ((WalletLegacy.runChain env o.wallet o.spawned codes).2.1 = [] →
        (WalletLegacy.runChain env o.wallet o.spawned codes).1.m_asyncContextCounter =
          w.m_asyncContextCounter)) ∧
    (∀ (w1 : WalletLegacy C) (request : R) (callback : RequestCallback) (ec : ErrorCode),
      ((WalletLegacy.performCallback env w1 request callback ec).result = Except.ok () ∨
        (WalletLegacy.performCallback env w1 request callback ec).result =
          Except.error Failure.nullDereference ∨
        (WalletLegacy.performCallback env w1 request callback ec).result =
          Except.error Failure.assertion) ∧
      ((WalletLegacy.performCallback env w1 request callback ec).result = Except.ok () →
        1 ≤ w1.m_asyncContextCounter →
        (WalletLegacy.performCallback env w1 request callback ec).wallet.m_asyncContextCounter +
            1 =
          w1.m_asyncContextCounter +
            (WalletLegacy.performCallback env w1 request callback ec).spawned.length)) ∧
    (∀ w1 : WalletLegacy C,
      (WalletLegacy.shutdown env w1).result = Except.ok () → w1.m_asyncContextCounter = 0) := by
  refine ⟨?_, ?_, fun w1 h => shutdown_ok_counter env w1 h⟩
  · intro o ho
    have hstart : w.StartsChain o := by
      obtain ⟨h1, h2, h3⟩ := userCalls_startChain env w container sender hs hc hcons hsend
        transfers args term amount fee mixIn depositIds
      rcases ho with ho | ho | ho <;> rw [ho] <;> assumption
    obtain ⟨hres, hsp, hcount, hcont⟩ := hstart
    have hnone := runChain_total env container hcons codes o.wallet o.spawned (hcont.trans hc)
    have hsp1 : o.spawned = [] ∨ ∃ request callback, o.spawned = [Worker.perform request callback] := by
      rcases hsp with hsp | ⟨r, hsp⟩
      · exact Or.inl hsp
      · exact Or.inr ⟨r, _, hsp⟩
    obtain ⟨_, hinv, _⟩ :=
      runChain_counter env codes o.wallet o.spawned hsp1 (by omega) hnone
    have hfinal : (WalletLegacy.runChain env o.wallet o.spawned codes).1.m_asyncContextCounter =
        w.m_asyncContextCounter +
          (WalletLegacy.runChain env o.wallet o.spawned codes).2.1.length := by
      omega
    refine ⟨hres, hsp, hcount, hnone, hfinal, ?_⟩
    intro hempty
    rw [hfinal, hempty]
    rfl
  · intro w1 request callback ec
    constructor
    · cases hres : (WalletLegacy.performCallback env w1 request callback ec).result with
      | ok u => exact Or.inl rfl
      | error f =>
        rcases performCallback_fails env w1 request callback ec f hres with hf | hf
        · exact Or.inr (Or.inl (by rw [hf]))
        · exact Or.inr (Or.inr (by rw [hf]))
    · intro hres hpos
      exact (performCallback_returns env w1 request callback ec hres).2.2.2.2.2.2 hpos

/-- Witness of `async_counter_balanced`: `sendTransaction` on the example wallet starts a
chain of two requests; after both callbacks no request is pending and the counter is
back at 0. -/
theorem async_counter_balanced_witness :
    (exampleWallet WalletState.INITIALIZED).m_state = WalletState.INITIALIZED ∧
    (exampleWallet WalletState.INITIALIZED).m_transferDetails = some exampleContainer ∧
    (exampleWallet WalletState.INITIALIZED).m_sender = some { stopped := false } ∧
    (exampleWallet WalletState.INITIALIZED).m_asyncContextCounter = 0 ∧
    (WalletLegacy.sendTransaction exampleCollaborators (exampleWallet WalletState.INITIALIZED)
      [exampleTransfer] exampleArguments).wallet.m_asyncContextCounter = 1 ∧
    (WalletLegacy.runChain exampleCollaborators
      (WalletLegacy.sendTransaction exampleCollaborators
        (exampleWallet WalletState.INITIALIZED) [exampleTransfer] exampleArguments).wallet
      (WalletLegacy.sendTransaction exampleCollaborators
        (exampleWallet WalletState.INITIALIZED) [exampleTransfer] exampleArguments).spawned
      [ErrorCode.success]).2.1 =
      [Worker.perform 1 RequestCallback.synchronizationCallback] ∧
    (WalletLegacy.runChain exampleCollaborators
      (WalletLegacy.sendTransaction exampleCollaborators
        (exampleWallet WalletState.INITIALIZED) [exampleTransfer] exampleArguments).wallet
      (WalletLegacy.sendTransaction exampleCollaborators
        (exampleWallet WalletState.INITIALIZED) [exampleTransfer] exampleArguments).spawned
      [ErrorCode.success, ErrorCode.other 5]).2.1 = [] ∧
    (WalletLegacy.runChain exampleCollaborators
      (WalletLegacy.sendTransaction exampleCollaborators
        (exampleWallet WalletState.INITIALIZED) [exampleTransfer] exampleArguments).wallet
      (WalletLegacy.sendTransaction exampleCollaborators
        (exampleWallet WalletState.INITIALIZED) [exampleTransfer] exampleArguments).spawned
      [ErrorCode.success, ErrorCode.other 5]).1.m_asyncContextCounter = 0 := by
  have hcons : ∀ flags, ∀ t ∈ exampleContainer.getOutputs flags,
      (exampleContainer.getTransactionInformation t.transactionHash).ok = true := by
    intro flags t ht
    simp [exampleContainer] at ht
  have h := (async_counter_balanced exampleCollaborators (exampleWallet WalletState.INITIALIZED)
    exampleContainer { stopped := false } (Or.inl rfl) rfl hcons rfl [exampleTransfer]
    exampleArguments 100 500 10 0 [] [ErrorCode.success, ErrorCode.other 5]).1
    _ (Or.inl rfl)
  exact ⟨rfl, rfl, rfl, rfl, rfl, rfl, rfl, h.2.2.2.2.2 rfl⟩

/-! ## Order of the events of a synchroniser callback -/

theorem depositEvents_after_cache (env : Collaborators C R) (w : WalletLegacy C)
    (container : ITransfersContainer) (hc : w.m_transferDetails = some container)
    (hcons : ∀ flags, ∀ t ∈ container.getOutputs flags,
      (container.getTransactionInformation t.transactionHash).ok = true)
    (c : CacheResult C (List WalletLegacyEvent)) :
    ∃ a p : Nat,
      WalletLegacy.calculateActualDepositBalance env { w with m_transactionsCache := c.cache } =
        Except.ok a ∧
      WalletLegacy.calculatePendingDepositBalance env { w with m_transactionsCache := c.cache } =
        Except.ok p ∧
      WalletLegacy.appendDepositBalanceEvents env { w with m_transactionsCache := c.cache }
          c.value =
        { wallet :=
            { w with m_transactionsCache := c.cache, m_lastNotifiedActualDepositBalance := a,
                     m_lastNotifiedPendingDepositBalance := p },
          notified := c.value.map WalletLegacyEvent.call ++
            ((if a ≠ w.m_lastNotifiedActualDepositBalance then
                [ObserverCall.actualDepositBalanceUpdated a] else []) ++
              (if p ≠ w.m_lastNotifiedPendingDepositBalance then
                [ObserverCall.pendingDepositBalanceUpdated p] else [])),
          spawned := [], result := Except.ok () } := by
  obtain ⟨⟨a, ha⟩, ⟨p, hp⟩⟩ :=
    depositBalances_ok env { w with m_transactionsCache := c.cache } container hc hcons
  exact ⟨a, p, ha, hp, appendDepositBalanceEvents_of_calculate env _ _ a p ha hp⟩

/-- Claim C13.  `notifyClients` delivers the queue first-in first-out, one notification
per event, and leaves the queue empty.  With the container set and knowing the
transaction of every output it lists: `onTransactionUpdated` for a transaction the
container knows delivers the events the cache returned, in their order, then
`actualDepositBalanceUpdated` if the computed actual deposit balance differs from its
last-notified value, then `pendingDepositBalanceUpdated` likewise, and nothing else; for
a transaction the container does not know it asks the cache nothing and delivers
nothing; `onTransactionDeleted` delivers the events the cache returned followed by the
same two optional deposit-balance events. -/
theorem synchroniser_callback_events (env : Collaborators C R) (w : WalletLegacy C)
    (container : ITransfersContainer) (transactionHash : Hash)
    (hc : w.m_transferDetails = some container)
    (hcons : ∀ flags, ∀ t ∈ container.getOutputs flags,
      (container.getTransactionInformation t.transactionHash).ok = true) :
    (∀ events : List WalletLegacyEvent,
      WalletLegacy.notifyClients events = (events.map WalletLegacyEvent.call, []) ∧
      (∀ e : WalletLegacyEvent, e.notify = [e.call])) ∧
    ((container.getTransactionInformation transactionHash).ok = true →
      ∃ a p : Nat,
        WalletLegacy.calculateActualDepositBalance env
            (WalletLegacy.onTransactionUpdated env w transactionHash).wallet = Except.ok a ∧
        WalletLegacy.calculatePendingDepositBalance env
            (WalletLegacy.onTransactionUpdated env w transactionHash).wallet = Except.ok p ∧
        (WalletLegacy.onTransactionUpdated env w transactionHash).result = Except.ok () ∧
        (WalletLegacy.onTransactionUpdated env w transactionHash).notified =
          (cacheUpdate env container w.m_transactionsCache transactionHash
              (subInt64
                (toInt64 (container.getTransactionInformation transactionHash).amountOut)
                (toInt64 (container.getTransactionInformation transactionHash).amountIn))).value.map
            WalletLegacyEvent.call ++
          ((if a ≠ w.m_lastNotifiedActualDepositBalance then
              [ObserverCall.actualDepositBalanceUpdated a] else []) ++
            (if p ≠ w.m_lastNotifiedPendingDepositBalance then
              [ObserverCall.pendingDepositBalanceUpdated p] else []))) ∧
    ((container.getTransactionInformation transactionHash).ok = false →
      WalletLegacy.onTransactionUpdated env w transactionHash =
        { wallet := w, notified := [], spawned := [], result := Except.ok () }) ∧
    (∃ a p : Nat,
      WalletLegacy.calculateActualDepositBalance env
          (WalletLegacy.onTransactionDeleted env w transactionHash).wallet = Except.ok a ∧
      WalletLegacy.calculatePendingDepositBalance env
          (WalletLegacy.onTransactionDeleted env w transactionHash).wallet = Except.ok p ∧
      (WalletLegacy.onTransactionDeleted env w transactionHash).result = Except.ok () ∧
      (WalletLegacy.onTransactionDeleted env w transactionHash).notified =
        (env.cache.onTransactionDeleted w.m_transactionsCache transactionHash).value.map
            WalletLegacyEvent.call ++
          ((if a ≠ w.m_lastNotifiedActualDepositBalance then
              [ObserverCall.actualDepositBalanceUpdated a] else []) ++
            (if p ≠ w.m_lastNotifiedPendingDepositBalance then
              [ObserverCall.pendingDepositBalanceUpdated p] else []))) := by
  refine ⟨?_, ?_, ?_, ?_⟩
  · intro events
    refine ⟨?_, fun e => rfl⟩
    obtain ⟨h1, h2⟩ := notifyClients_fst events
    exact Prod.ext h1 h2
  · intro hok
    obtain ⟨a, p, ha, hp, happ⟩ := depositEvents_after_cache env w container hc hcons
      (cacheUpdate env container w.m_transactionsCache transactionHash
        (subInt64 (toInt64 (container.getTransactionInformation transactionHash).amountOut)
          (toInt64 (container.getTransactionInformation transactionHash).amountIn)))
    have heq : WalletLegacy.onTransactionUpdated env w transactionHash =
        WalletLegacy.appendDepositBalanceEvents env
          { w with m_transactionsCache :=
              (cacheUpdate env container w.m_transactionsCache transactionHash
                (subInt64
                  (toInt64 (container.getTransactionInformation transactionHash).amountOut)
                  (toInt64 (container.getTransactionInformation transactionHash).amountIn))).cache }
          (cacheUpdate env container w.m_transactionsCache transactionHash
            (subInt64 (toInt64 (container.getTransactionInformation transactionHash).amountOut)
              (toInt64 (container.getTransactionInformation transactionHash).amountIn))).value := by
      unfold WalletLegacy.onTransactionUpdated
      rw [hc]
      simp only [hok, if_true]
      rfl
    rw [heq, happ]
    refine ⟨a, p, ?_, ?_, rfl, rfl⟩
    · rw [← ha]
      exact (depositBalances_congr env _ _ rfl rfl).1
    · rw [← hp]
      exact (depositBalances_congr env _ _ rfl rfl).2
  · intro hok
    unfold WalletLegacy.onTransactionUpdated
    rw [hc]
    simp only [hok, Bool.false_eq_true, if_false]
    rfl
  · obtain ⟨a, p, ha, hp, happ⟩ := depositEvents_after_cache env w container hc hcons
      (env.cache.onTransactionDeleted w.m_transactionsCache transactionHash)
    have heq : WalletLegacy.onTransactionDeleted env w transactionHash =
        WalletLegacy.appendDepositBalanceEvents env
          { w with m_transactionsCache :=
              (env.cache.onTransactionDeleted w.m_transactionsCache transactionHash).cache }
          (env.cache.onTransactionDeleted w.m_transactionsCache transactionHash).value := rfl
    rw [heq, happ]
    refine ⟨a, p, ?_, ?_, rfl, rfl⟩
    · rw [← ha]
      exact (depositBalances_congr env _ _ rfl rfl).1
    · rw [← hp]
      exact (depositBalances_congr env _ _ rfl rfl).2

/-- Witness of `synchroniser_callback_events`: over the container with one unlocked
deposit, the update of transaction 7 delivers `transactionUpdated(0)` and then
`actualDepositBalanceUpdated(505)`. -/
theorem synchroniser_callback_events_witness :
    depositWallet.m_transferDetails = some depositContainer ∧
    (∀ flags, ∀ t ∈ depositContainer.getOutputs flags,
      (depositContainer.getTransactionInformation t.transactionHash).ok = true) ∧
    (WalletLegacy.onTransactionUpdated exampleCollaborators depositWallet 7).notified =
      [ObserverCall.transactionUpdated 0, ObserverCall.actualDepositBalanceUpdated 505] := by
  have hcons : ∀ flags, ∀ t ∈ depositContainer.getOutputs flags,
      (depositContainer.getTransactionInformation t.transactionHash).ok = true := by
    intro flags t ht
    simp only [depositContainer] at ht
    split at ht
    · simp only [List.mem_singleton] at ht
      subst ht
      rfl
    · simp at ht
  obtain ⟨a, p, ha, hp, _, hn⟩ :=
    (synchroniser_callback_events exampleCollaborators depositWallet depositContainer 7 rfl
      hcons).2.1 rfl
  have ha1 : WalletLegacy.calculateActualDepositBalance exampleCollaborators
      (WalletLegacy.onTransactionUpdated exampleCollaborators depositWallet 7).wallet =
      Except.ok 505 := rfl
  have hp1 : WalletLegacy.calculatePendingDepositBalance exampleCollaborators
      (WalletLegacy.onTransactionUpdated exampleCollaborators depositWallet 7).wallet =
      Except.ok 0 := rfl
  rw [ha1] at ha
  rw [hp1] at hp
  have ea : a = 505 := (Except.ok.inj ha).symm
  have ep : p = 0 := (Except.ok.inj hp).symm
  subst ea
  subst ep
  refine ⟨rfl, hcons, ?_⟩
  rw [hn]
  rfl

/-! ## Completion of a synchronisation -/

theorem notifyIfBalanceChanged_notified (env : Collaborators C R) (w : WalletLegacy C) :
    ∀ x ∈ (WalletLegacy.notifyIfBalanceChanged env w : Outcome C R Unit).notified,
      (∃ v, x = ObserverCall.actualBalanceUpdated v) ∨
      (∃ v, x = ObserverCall.pendingBalanceUpdated v) := by
  intro x hx
  unfold WalletLegacy.notifyIfBalanceChanged at hx
  cases ha : WalletLegacy.actualBalance env w with
  | error f => simp [ha] at hx
  | ok a =>
    simp only [ha] at hx
    cases hp : WalletLegacy.pendingBalance env
        { w with m_lastNotifiedActualBalance := a } with
    | error f =>
      simp only [hp] at hx
      split at hx
      · simp only [List.mem_singleton] at hx
        exact Or.inl ⟨a, hx⟩
      · simp at hx
    | ok p =>
      simp only [hp, List.mem_append] at hx
      rcases hx with hx | hx
      · split at hx
        · simp only [List.mem_singleton] at hx
          exact Or.inl ⟨a, hx⟩
        · simp at hx
      · split at hx
        · simp only [List.mem_singleton] at hx
          exact Or.inr ⟨p, hx⟩
        · simp at hx

theorem synchronizationCompleted_notified (env : Collaborators C R) (w : WalletLegacy C)
    (result : ErrorCode) :
    ∃ rest : List ObserverCall,
      (WalletLegacy.synchronizationCompleted env w result).notified =
        (if result ≠ ErrorCode.interrupted then [ObserverCall.synchronizationCompleted result]
          else []) ++ rest ∧
      (∀ r, ObserverCall.synchronizationCompleted r ∉ rest) ∧
      (result ≠ ErrorCode.success → rest = []) := by
  unfold WalletLegacy.synchronizationCompleted
  by_cases hb : result.toBool = true
  · refine ⟨[], ?_, ?_, fun _ => rfl⟩
    · simp only [hb, if_true, List.append_nil]
    · intro r hr
      cases hr
  · refine ⟨(WalletLegacy.deleteOutdatedUnconfirmedTransactions env w).2.map
        ObserverCall.transactionUpdated ++
      (WalletLegacy.notifyIfBalanceChanged env
        (WalletLegacy.deleteOutdatedUnconfirmedTransactions env w).1 : Outcome C R Unit).notified,
      ?_, ?_, ?_⟩
    · simp only [hb, if_false]
      rfl
    · intro r hr
      rcases List.mem_append.mp hr with hr | hr
      · simp at hr
      · rcases notifyIfBalanceChanged_notified env _ _ hr with ⟨v, hv⟩ | ⟨v, hv⟩ <;> cases hv
    · intro hne
      cases result <;> simp [ErrorCode.toBool] at hb hne

/-- Claim C14.  `synchronizationCompleted(result)` delivers
`synchronizationCompleted(result)` exactly once when `result` is not `interrupted`; the
only `synchronizationCompleted` notification it ever delivers carries `result`, and it
never delivers `synchronizationCompleted(interrupted)`.  For every result other than
success (`interrupted` included) it returns at once: the wallet, its cache included, is
unchanged, so no outdated transaction is deleted, and apart from the forwarded
completion there is no notification, so no `transactionUpdated` and no balance event. -/
theorem synchronizationCompleted_spec (env : Collaborators C R) (w : WalletLegacy C)
    (result : ErrorCode) :
    (result ≠ ErrorCode.interrupted →
      (WalletLegacy.synchronizationCompleted env w result).notified.count
        (ObserverCall.synchronizationCompleted result) = 1) ∧
    (∀ r, ObserverCall.synchronizationCompleted r ∈
        (WalletLegacy.synchronizationCompleted env w result).notified →
      r = result ∧ r ≠ ErrorCode.interrupted) ∧
    ObserverCall.synchronizationCompleted ErrorCode.interrupted ∉
      (WalletLegacy.synchronizationCompleted env w result).notified ∧
    (result ≠ ErrorCode.success →
      WalletLegacy.synchronizationCompleted env w result =
        { wallet := w,
          notified :=
            if result ≠ ErrorCode.interrupted then
              [ObserverCall.synchronizationCompleted result]
            else [],
          spawned := [], result := Except.ok () } ∧
      (∀ id, ObserverCall.transactionUpdated id ∉
        (WalletLegacy.synchronizationCompleted env w result).notified) ∧
      (∀ v,
        ObserverCall.actualBalanceUpdated v ∉
          (WalletLegacy.synchronizationCompleted env w result).notified ∧
        ObserverCall.pendingBalanceUpdated v ∉
          (WalletLegacy.synchronizationCompleted env w result).notified ∧
        ObserverCall.actualDepositBalanceUpdated v ∉
          (WalletLegacy.synchronizationCompleted env w result).notified ∧
        ObserverCall.pendingDepositBalanceUpdated v ∉
          (WalletLegacy.synchronizationCompleted env w result).notified)) := by
  obtain ⟨rest, hn, hrest, hempty⟩ := synchronizationCompleted_notified env w result
  have hmem : ∀ r, ObserverCall.synchronizationCompleted r ∈
      (WalletLegacy.synchronizationCompleted env w result).notified →
      r = result ∧ r ≠ ErrorCode.interrupted := by
    intro r hr
    rw [hn] at hr
    rcases List.mem_append.mp hr with hr | hr
    · by_cases hi : result = ErrorCode.interrupted
      · simp [hi] at hr
      · simp only [ne_eq, hi, not_false_eq_true, if_true, List.mem_singleton,
          ObserverCall.synchronizationCompleted.injEq] at hr
        exact ⟨hr, by rw [hr]; exact hi⟩
    · exact absurd hr (hrest r)
  refine ⟨?_, hmem, fun h => (hmem _ h).2 rfl, ?_⟩
  · intro hi
    rw [hn]
    simp only [ne_eq, hi, not_false_eq_true, if_true, List.singleton_append,
      List.count_cons_self]
    rw [List.count_eq_zero_of_not_mem (hrest result)]
  · intro hne
    have hb : result.toBool = true := by
      cases result <;> simp [ErrorCode.toBool] at hne ⊢
    have heq : WalletLegacy.synchronizationCompleted env w result =
        { wallet := w,
          notified :=
            if result ≠ ErrorCode.interrupted then
              [ObserverCall.synchronizationCompleted result]
            else [],
          spawned := [], result := Except.ok () } := by
      simp only [WalletLegacy.synchronizationCompleted, hb, if_true]
    refine ⟨heq, ?_, ?_⟩
    · intro id
      rw [heq]
      by_cases hi : result = ErrorCode.interrupted <;> simp [hi]
    · intro v
      rw [heq]
      by_cases hi : result = ErrorCode.interrupted <;> simp [hi]

/-- Witness of `synchronizationCompleted_spec`: an interrupted synchronisation is not
reported, a failed one is reported once and nothing else happens. -/
theorem synchronizationCompleted_spec_witness :
    (WalletLegacy.synchronizationCompleted exampleCollaborators
        (exampleWallet WalletState.INITIALIZED) ErrorCode.interrupted).notified = [] ∧
    WalletLegacy.synchronizationCompleted exampleCollaborators
        (exampleWallet WalletState.INITIALIZED) (ErrorCode.other 5) =
      { wallet := exampleWallet WalletState.INITIALIZED,
        notified := [ObserverCall.synchronizationCompleted (ErrorCode.other 5)],
        spawned := [], result := Except.ok () } ∧
    (WalletLegacy.synchronizationCompleted exampleCollaborators
        (exampleWallet WalletState.INITIALIZED) ErrorCode.success).notified.count
      (ObserverCall.synchronizationCompleted ErrorCode.success) = 1 := by
  refine ⟨?_, ?_, ?_⟩
  · rw [((synchronizationCompleted_spec exampleCollaborators
      (exampleWallet WalletState.INITIALIZED) ErrorCode.interrupted).2.2.2 (by decide)).1]
    rfl
  · exact ((synchronizationCompleted_spec exampleCollaborators
      (exampleWallet WalletState.INITIALIZED) (ErrorCode.other 5)).2.2.2 (by decide)).1
  · exact (synchronizationCompleted_spec exampleCollaborators
      (exampleWallet WalletState.INITIALIZED) ErrorCode.success).1 (by decide)

/-! ## Cancellation -/

/-- Claim C15.  `cancelTransaction` returns `TX_CANCEL_IMPOSSIBLE` for every
transaction identifier and every wallet, whatever its state, changes no member
variable, notifies nobody and launches nothing. -/
theorem cancelTransaction_spec (w : WalletLegacy C) (transactionId : Nat) :
    (WalletLegacy.cancelTransaction w transactionId : Outcome C R ErrorCode) =
      { wallet := w, notified := [], spawned := [],
        result := Except.ok (make_error_code WalletErrorCodes.TX_CANCEL_IMPOSSIBLE) } ∧
    (WalletLegacy.cancelTransaction w transactionId : Outcome C R ErrorCode).result ≠
      Except.ok ErrorCode.success := by
  refine ⟨rfl, ?_⟩
  intro h
  simp [WalletLegacy.cancelTransaction, make_error_code] at h

/-! ## A failed shutdown -/

/-- Claim C16, evaluated at the failing input.  `shutdown` on the freshly constructed
wallet (state `NOT_INITIALIZED`, stopping flag clear) throws and leaves the state as it
was, but it leaves the stopping flag set.  After a following `initAndGenerate` the
wallet is `INITIALIZED` with the flag still set: `save` reports
`saveCompleted(OPERATION_CANCELLED)` and starts no worker, and `shutdown` throws again,
whereas on the wallet initialised without the failed call `save` moves to `SAVING` and
starts its worker and `shutdown` succeeds.  (A `shutdown` that finds the flag already
set does leave the wallet unchanged.) -/
theorem failed_shutdown_leaves_stopping_flag :
    (exampleWallet WalletState.NOT_INITIALIZED).m_state = WalletState.NOT_INITIALIZED ∧
    (exampleWallet WalletState.NOT_INITIALIZED).m_isStopping = false ∧
    (WalletLegacy.shutdown exampleCollaborators
      (exampleWallet WalletState.NOT_INITIALIZED)).result = Except.error throwNotDefined ∧
    (WalletLegacy.shutdown exampleCollaborators
      (exampleWallet WalletState.NOT_INITIALIZED)).wallet.m_state =
      WalletState.NOT_INITIALIZED ∧
    (WalletLegacy.shutdown exampleCollaborators
      (exampleWallet WalletState.NOT_INITIALIZED)).wallet.m_isStopping = true ∧
    (WalletLegacy.initAndGenerate
      (WalletLegacy.shutdown exampleCollaborators
        (exampleWallet WalletState.NOT_INITIALIZED)).wallet
      "pw" exampleAccount exampleContainer : Outcome ExampleCache Nat Unit).wallet.m_state =
      WalletState.INITIALIZED ∧
    (WalletLegacy.save
      (WalletLegacy.initAndGenerate
        (WalletLegacy.shutdown exampleCollaborators
          (exampleWallet WalletState.NOT_INITIALIZED)).wallet
        "pw" exampleAccount exampleContainer : Outcome ExampleCache Nat Unit).wallet
      true true : Outcome ExampleCache Nat Unit).notified =
      [ObserverCall.saveCompleted (make_error_code WalletErrorCodes.OPERATION_CANCELLED)] ∧
    (WalletLegacy.save
      (WalletLegacy.initAndGenerate
        (WalletLegacy.shutdown exampleCollaborators
          (exampleWallet WalletState.NOT_INITIALIZED)).wallet
        "pw" exampleAccount exampleContainer : Outcome ExampleCache Nat Unit).wallet
      true true : Outcome ExampleCache Nat Unit).spawned = [] ∧
    (WalletLegacy.shutdown exampleCollaborators
      (WalletLegacy.initAndGenerate
        (WalletLegacy.shutdown exampleCollaborators
          (exampleWallet WalletState.NOT_INITIALIZED)).wallet
        "pw" exampleAccount exampleContainer : Outcome ExampleCache Nat Unit).wallet).result =
      Except.error throwNotDefined ∧
    (WalletLegacy.save
      (WalletLegacy.initAndGenerate (exampleWallet WalletState.NOT_INITIALIZED)
        "pw" exampleAccount exampleContainer : Outcome ExampleCache Nat Unit).wallet
      true true : Outcome ExampleCache Nat Unit).notified = [] ∧
    (WalletLegacy.save
      (WalletLegacy.initAndGenerate (exampleWallet WalletState.NOT_INITIALIZED)
        "pw" exampleAccount exampleContainer : Outcome ExampleCache Nat Unit).wallet
      true true : Outcome ExampleCache Nat Unit).spawned = [Worker.doSave true true] ∧
    (WalletLegacy.shutdown exampleCollaborators
      (WalletLegacy.initAndGenerate (exampleWallet WalletState.NOT_INITIALIZED)
        "pw" exampleAccount exampleContainer : Outcome ExampleCache Nat Unit).wallet).result =
      Except.ok () ∧
    (WalletLegacy.shutdown exampleCollaborators stoppingWallet).wallet.m_isStopping =
      stoppingWallet.m_isStopping :=
  ⟨rfl, rfl, rfl, rfl, rfl, rfl, rfl, rfl, rfl, rfl, rfl, rfl, rfl⟩

/-! ## The pointers and the state along every run -/

theorem after_some {α : Type} (cfg cfg1 : Configuration C R) (o : Outcome C R α)
    (h : cfg.after o = some cfg1) :
    o.Continues ∧ cfg1 = Configuration.spawn { cfg with wallet := o.wallet } o.spawned := by
  unfold Configuration.after at h
  cases hres : o.result with
  | ok a =>
    simp only [hres, Option.some.injEq] at h
    exact ⟨Or.inl ⟨a, hres⟩, h.symm⟩
  | error f =>
    cases f with
    | thrown e =>
      simp only [hres, Option.some.injEq] at h
      exact ⟨Or.inr ⟨e, hres⟩, h.symm⟩
    | assertion => simp [hres] at h
    | nullDereference => simp [hres] at h
    | outOfRange => simp [hres] at h
    | blocked => simp [hres] at h

theorem invariant_of_lifecycle (cfg cfg1 : Configuration C R)
    (hl : cfg1.wallet.lifecycle = cfg.wallet.lifecycle) (h1 : cfg1.loads = cfg.loads)
    (h2 : cfg1.saves = cfg.saves) (h3 : cfg1.shuttingDown = cfg.shuttingDown)
    (hinv : cfg.Invariant) : cfg1.Invariant := by
  simp only [WalletLegacy.lifecycle, Prod.mk.injEq] at hl
  obtain ⟨l1, l2, l3, l4, l5⟩ := hl
  unfold Configuration.Invariant WalletLegacy.PointersMatchState at hinv ⊢
  rw [l1, l2, l3, l4, l5, h1, h2, h3]
  exact hinv

theorem after_keepsLifecycle {α : Type} (cfg cfg1 : Configuration C R) (o : Outcome C R α)
    (hinv : cfg.Invariant) (hkeep : o.Continues → o.KeepsLifecycle cfg.wallet)
    (h : cfg.after o = some cfg1) : cfg1.Invariant := by
  obtain ⟨hcont, heq⟩ := after_some cfg cfg1 o h
  obtain ⟨hl, hsp⟩ := hkeep hcont
  subst heq
  rcases hsp with hsp | ⟨request, callback, hsp⟩
  · rw [hsp]
    exact invariant_of_lifecycle cfg _ hl rfl rfl rfl hinv
  · rw [hsp]
    exact invariant_of_lifecycle cfg _ hl rfl rfl rfl hinv

theorem lifecycle_of_sameLifecycle {w w1 : WalletLegacy C} (h : w.SameLifecycle w1) :
    w1.lifecycle = w.lifecycle := by
  obtain ⟨h1, h2, _, _, h5, h6, h7, _⟩ := h
  simp only [WalletLegacy.lifecycle, h1, h2, h5, h6, h7]

theorem getBalanceChangedEvent_lifecycle (env : Collaborators C R) (w : WalletLegacy C)
    (axis : BalanceAxis) (event : Option WalletLegacyEvent) (w1 : WalletLegacy C)
    (h : WalletLegacy.getBalanceChangedEvent env w axis = Except.ok (event, w1)) :
    w1.lifecycle = w.lifecycle :=
  lifecycle_of_sameLifecycle (getBalanceChangedEvent_frame env w axis event w1 h).1

theorem changePassword_keeps (w : WalletLegacy C) (oldPassword newPassword : String) :
    (WalletLegacy.changePassword w oldPassword newPassword :
      Outcome C R ErrorCode).KeepsLifecycle w := by
  unfold WalletLegacy.changePassword
  cases WalletLegacy.throwIfNotInitialised w with
  | error f => exact ⟨rfl, Or.inl rfl⟩
  | ok u =>
    simp only []
    split
    · exact ⟨rfl, Or.inl rfl⟩
    · exact ⟨rfl, Or.inl rfl⟩

theorem notifyAndPerform_keeps (w w1 : WalletLegacy C) (events : List WalletLegacyEvent)
    (request : Option R) (txId : TransactionId) (h : w1.lifecycle = w.lifecycle) :
    (WalletLegacy.notifyAndPerform w1 events request txId).KeepsLifecycle w := by
  cases request with
  | none => exact ⟨h, Or.inl rfl⟩
  | some r => exact ⟨h, Or.inr ⟨r, _, rfl⟩⟩

theorem sendTransaction_keeps (env : Collaborators C R) (w : WalletLegacy C)
    (transfers : List WalletLegacyTransfer) (args : SendArguments) :
    (WalletLegacy.sendTransaction env w transfers args).KeepsLifecycle w := by
  unfold WalletLegacy.sendTransaction
  cases WalletLegacy.throwIfNotInitialised w with
  | error f => exact ⟨rfl, Or.inl rfl⟩
  | ok u =>
    cases hs : w.m_sender with
    | none => exact ⟨rfl, Or.inl rfl⟩
    | some sender =>
      cases hc : w.m_transferDetails with
      | none => exact ⟨rfl, Or.inl rfl⟩
      | some container =>
        exact notifyAndPerform_keeps w _ _ _ _ (by simp [WalletLegacy.lifecycle, hs, hc])

theorem pushBalanceUpdatedEvents_lifecycle (env : Collaborators C R) (w : WalletLegacy C)
    (eventsQueue : List WalletLegacyEvent) :
    (WalletLegacy.pushBalanceUpdatedEvents env w eventsQueue).1.lifecycle = w.lifecycle := by
  unfold WalletLegacy.pushBalanceUpdatedEvents
  cases h1 : WalletLegacy.getActualDepositBalanceChangedEvent env w with
  | error f => rfl
  | ok p1 =>
    obtain ⟨e1, w1⟩ := p1
    have l1 := getBalanceChangedEvent_lifecycle env w BalanceAxis.actualDeposit e1 w1 h1
    simp only []
    cases h2 : WalletLegacy.getPendingDepositBalanceChangedEvent env w1 with
    | error f => exact l1
    | ok p2 =>
      obtain ⟨e2, w2⟩ := p2
      have l2 := getBalanceChangedEvent_lifecycle env w1 BalanceAxis.pendingDeposit e2 w2 h2
      simp only []
      cases h3 : WalletLegacy.getActualBalanceChangedEvent env w2 with
      | error f => exact l2.trans l1
      | ok p3 =>
        obtain ⟨e3, w3⟩ := p3
        have l3 := getBalanceChangedEvent_lifecycle env w2 BalanceAxis.actual e3 w3 h3
        simp only []
        cases h4 : WalletLegacy.getPendingBalanceChangedEvent env w3 with
        | error f => exact l3.trans (l2.trans l1)
        | ok p4 =>
          obtain ⟨e4, w4⟩ := p4
          have l4 := getBalanceChangedEvent_lifecycle env w3 BalanceAxis.pending e4 w4 h4
          exact l4.trans (l3.trans (l2.trans l1))

theorem finishDepositRequest_keeps (env : Collaborators C R) (w : WalletLegacy C)
    (r : RequestResult C R) :
    (WalletLegacy.finishDepositRequest env w r).KeepsLifecycle w := by
  unfold WalletLegacy.finishDepositRequest
  cases hreq : r.request with
  | none => exact notifyAndPerform_keeps w _ _ _ _ rfl
  | some request =>
    simp only []
    have hl := pushBalanceUpdatedEvents_lifecycle env
      { w with m_transactionsCache := r.cache } r.events
    rcases hp : WalletLegacy.pushBalanceUpdatedEvents env
        { w with m_transactionsCache := r.cache } r.events with ⟨w2, queue, f⟩
    rw [hp] at hl
    cases f with
    | some f => exact ⟨hl, Or.inl rfl⟩
    | none => exact notifyAndPerform_keeps w _ _ _ _ hl

theorem deposit_keeps (env : Collaborators C R) (w : WalletLegacy C)
    (term amount fee mixIn : Nat) :
    (WalletLegacy.deposit env w term amount fee mixIn).KeepsLifecycle w := by
  unfold WalletLegacy.deposit
  cases WalletLegacy.throwIfNotInitialised w with
  | error f => exact ⟨rfl, Or.inl rfl⟩
  | ok u =>
    cases hs : w.m_sender with
    | none => exact ⟨rfl, Or.inl rfl⟩
    | some sender =>
      cases hc : w.m_transferDetails with
      | none => exact ⟨rfl, Or.inl rfl⟩
      | some container => exact finishDepositRequest_keeps env w _

theorem withdrawDeposits_keeps (env : Collaborators C R) (w : WalletLegacy C)
    (depositIds : List DepositId) (fee : Nat) :
    (WalletLegacy.withdrawDeposits env w depositIds fee).KeepsLifecycle w := by
  unfold WalletLegacy.withdrawDeposits
  cases WalletLegacy.throwIfNotInitialised w with
  | error f => exact ⟨rfl, Or.inl rfl⟩
  | ok u =>
    cases hs : w.m_sender with
    | none => exact ⟨rfl, Or.inl rfl⟩
    | some sender =>
      cases hc : w.m_transferDetails with
      | none => exact ⟨rfl, Or.inl rfl⟩
      | some container => exact finishDepositRequest_keeps env w _

theorem performCallback_keeps (env : Collaborators C R) (w : WalletLegacy C) (request : R)
    (callback : RequestCallback) (ec : ErrorCode)
    (h : (WalletLegacy.performCallback env w request callback ec).Continues) :
    (WalletLegacy.performCallback env w request callback ec).KeepsLifecycle w := by
  have hok : (WalletLegacy.performCallback env w request callback ec).result = Except.ok () := by
    rcases h with ⟨a, ha⟩ | ⟨e, he⟩
    · exact ha
    · rcases performCallback_fails env w request callback ec _ he with hf | hf <;> cases hf
  obtain ⟨h1, h2, h3, h4, h5, h6, _⟩ := performCallback_returns env w request callback ec hok
  refine ⟨?_, ?_⟩
  · simp only [WalletLegacy.lifecycle, h1, h2, h3, h4, h5]
  · rcases h6 with h6 | ⟨next, h6⟩
    · exact Or.inl h6
    · exact Or.inr ⟨next, _, h6⟩

theorem appendDepositBalanceEvents_keeps (env : Collaborators C R) (w w0 : WalletLegacy C)
    (events : List WalletLegacyEvent) (h : w.lifecycle = w0.lifecycle) :
    (WalletLegacy.appendDepositBalanceEvents env w events).KeepsLifecycle w0 := by
  unfold WalletLegacy.appendDepositBalanceEvents
  cases h1 : WalletLegacy.getActualDepositBalanceChangedEvent env w with
  | error f => exact ⟨h, Or.inl rfl⟩
  | ok p1 =>
    obtain ⟨e1, w1⟩ := p1
    have l1 := getBalanceChangedEvent_lifecycle env w BalanceAxis.actualDeposit e1 w1 h1
    simp only []
    cases h2 : WalletLegacy.getPendingDepositBalanceChangedEvent env w1 with
    | error f => exact ⟨l1.trans h, Or.inl rfl⟩
    | ok p2 =>
      obtain ⟨e2, w2⟩ := p2
      have l2 := getBalanceChangedEvent_lifecycle env w1 BalanceAxis.pendingDeposit e2 w2 h2
      exact ⟨l2.trans (l1.trans h), Or.inl rfl⟩

theorem onTransactionUpdated_keeps (env : Collaborators C R) (w : WalletLegacy C)
    (transactionHash : Hash) :
    (WalletLegacy.onTransactionUpdated env w transactionHash).KeepsLifecycle w := by
  unfold WalletLegacy.onTransactionUpdated
  cases hc : w.m_transferDetails with
  | none => exact ⟨rfl, Or.inl rfl⟩
  | some container =>
    simp only []
    split
    · exact appendDepositBalanceEvents_keeps env _ w _
        (by simp [WalletLegacy.lifecycle, hc])
    · exact ⟨rfl, Or.inl rfl⟩

theorem onTransactionDeleted_keeps (env : Collaborators C R) (w : WalletLegacy C)
    (transactionHash : Hash) :
    (WalletLegacy.onTransactionDeleted env w transactionHash).KeepsLifecycle w :=
  appendDepositBalanceEvents_keeps env _ w _ rfl

theorem notifyIfBalanceChanged_keeps (env : Collaborators C R) (w w0 : WalletLegacy C)
    (h : w.lifecycle = w0.lifecycle) :
    (WalletLegacy.notifyIfBalanceChanged env w : Outcome C R Unit).wallet.lifecycle =
      w0.lifecycle := by
  unfold WalletLegacy.notifyIfBalanceChanged
  cases WalletLegacy.actualBalance env w with
  | error f => exact h
  | ok a =>
    simp only []
    cases WalletLegacy.pendingBalance env { w with m_lastNotifiedActualBalance := a } with
    | error f => exact h
    | ok p => exact h

theorem synchronizationCompleted_keeps (env : Collaborators C R) (w : WalletLegacy C)
    (result : ErrorCode) :
    (WalletLegacy.synchronizationCompleted env w result).KeepsLifecycle w := by
  unfold WalletLegacy.synchronizationCompleted
  by_cases hb : result.toBool = true
  · simp only [hb, if_true]
    exact ⟨rfl, Or.inl rfl⟩
  · simp only [hb, if_false]
    exact ⟨notifyIfBalanceChanged_keeps env _ w rfl, Or.inl rfl⟩

theorem synchronizationProgressUpdated_keeps (env : Collaborators C R) (w : WalletLegacy C)
    (current total : Nat) :
    (WalletLegacy.synchronizationProgressUpdated env w current total).KeepsLifecycle w :=
  ⟨notifyIfBalanceChanged_keeps env _ w rfl, Or.inl rfl⟩

theorem invariant_not_initialized (cfg : Configuration C R) (hinv : cfg.Invariant)
    (hst : cfg.wallet.m_state = WalletState.NOT_INITIALIZED) :
    cfg.wallet.m_transferDetails.isSome = false ∧ cfg.wallet.m_sender.isSome = false ∧
    cfg.wallet.m_subscription.isSome = false ∧ cfg.loads = 0 ∧ cfg.saves = [] ∧
    cfg.shuttingDown = false := by
  obtain ⟨⟨hp1, hp2, hp3⟩, hloads, hsaves, hshut⟩ := hinv
  rw [hst] at hp1 hp2 hp3 hloads hsaves hshut
  refine ⟨?_, ?_, ?_, ?_, ?_, ?_⟩
  · cases h : cfg.wallet.m_transferDetails.isSome
    · rfl
    · have := hp1.mp h
      simp at this
  · cases h : cfg.wallet.m_sender.isSome
    · rfl
    · have := hp2.mp h
      simp at this
  · cases h : cfg.wallet.m_subscription.isSome
    · rfl
    · have := hp3.mp h
      simp at this
  · simpa using hloads
  · simpa using hsaves
  · cases h : cfg.shuttingDown
    · rfl
    · have := (hshut h).1
      simp at this

theorem invariant_after_initSync (cfg : Configuration C R) (w : WalletLegacy C)
    (container : ITransfersContainer) (hloads : cfg.loads = 0) (hsaves : cfg.saves = [])
    (hshut : cfg.shuttingDown = false) :
    Configuration.Invariant { cfg with wallet := WalletLegacy.initSync w container } := by
  refine ⟨⟨?_, ?_, ?_⟩, ?_, ?_, ?_⟩
  · simp [WalletLegacy.initSync]
  · simp [WalletLegacy.initSync]
  · simp [WalletLegacy.initSync]
  · simp [WalletLegacy.initSync, hloads]
  · simp [WalletLegacy.initSync, hsaves]
  · intro h
    simp only [hshut] at h
    cases h

theorem step_init_invariant (env : Collaborators C R) (cfg cfg1 : Configuration C R)
    (hinv : cfg.Invariant) (password : String) (generated : AccountBase)
    (accountKeys : AccountKeys) (container : ITransfersContainer) :
    (cfg.step env (Action.initAndGenerate password generated container) = some cfg1 →
      cfg1.Invariant) ∧
    (cfg.step env (Action.initWithKeys accountKeys password container) = some cfg1 →
      cfg1.Invariant) ∧
    (cfg.step env (Action.initAndLoad password) = some cfg1 → cfg1.Invariant) := by
  by_cases hst : cfg.wallet.m_state = WalletState.NOT_INITIALIZED
  · obtain ⟨n1, n2, n3, hloads, hsaves, hshut⟩ := invariant_not_initialized cfg hinv hst
    refine ⟨?_, ?_, ?_⟩
    · intro h
      simp only [Configuration.step, WalletLegacy.initAndGenerate, hst, ne_eq,
        not_true_eq_false, if_false, Configuration.after, Configuration.spawn,
        Option.some.injEq] at h
      rw [← h]
      exact invariant_after_initSync cfg _ container hloads hsaves hshut
    · intro h
      simp only [Configuration.step, WalletLegacy.initWithKeys, hst, ne_eq,
        not_true_eq_false, if_false, Configuration.after, Configuration.spawn,
        Option.some.injEq] at h
      rw [← h]
      exact invariant_after_initSync cfg _ container hloads hsaves hshut
    · intro h
      simp only [Configuration.step, WalletLegacy.initAndLoad, hst, ne_eq,
        not_true_eq_false, if_false, Configuration.after, Configuration.spawn,
        Option.some.injEq] at h
      rw [← h]
      refine ⟨⟨?_, ?_, ?_⟩, ?_, ?_, ?_⟩
      · simp [addAsyncContext, n1]
      · simp [addAsyncContext, n2]
      · simp [addAsyncContext, n3]
      · simp [addAsyncContext, hloads]
      · simp [addAsyncContext, hsaves]
      · intro h1
        simp only [hshut] at h1
        cases h1
  · refine ⟨?_, ?_, ?_⟩
    · intro h
      simp only [Configuration.step, WalletLegacy.initAndGenerate, hst, ne_eq,
        not_false_eq_true, if_true, Configuration.after, throwSystemError,
        Configuration.spawn, Option.some.injEq] at h
      rw [← h]
      exact hinv
    · intro h
      simp only [Configuration.step, WalletLegacy.initWithKeys, hst, ne_eq,
        not_false_eq_true, if_true, Configuration.after, throwSystemError,
        Configuration.spawn, Option.some.injEq] at h
      rw [← h]
      exact hinv
    · intro h
      simp only [Configuration.step, WalletLegacy.initAndLoad, hst, ne_eq,
        not_false_eq_true, if_true, Configuration.after, throwSystemError,
        Configuration.spawn, Option.some.injEq] at h
      rw [← h]
      exact hinv

theorem invariant_pointers_unset (cfg : Configuration C R) (hinv : cfg.Invariant)
    (hst : cfg.wallet.m_state = WalletState.NOT_INITIALIZED ∨
      cfg.wallet.m_state = WalletState.LOADING) :
    cfg.wallet.m_transferDetails.isSome = false ∧ cfg.wallet.m_sender.isSome = false ∧
    cfg.wallet.m_subscription.isSome = false ∧ cfg.saves = [] ∧ cfg.shuttingDown = false := by
  obtain ⟨⟨hp1, hp2, hp3⟩, _, hsaves, hshut⟩ := hinv
  have hne : ¬(cfg.wallet.m_state = WalletState.INITIALIZED ∨
      cfg.wallet.m_state = WalletState.SAVING) := by
    rcases hst with hst | hst <;> rw [hst] <;> simp
  refine ⟨?_, ?_, ?_, ?_, ?_⟩
  · cases h : cfg.wallet.m_transferDetails.isSome
    · rfl
    · exact absurd (hp1.mp h) hne
  · cases h : cfg.wallet.m_sender.isSome
    · rfl
    · exact absurd (hp2.mp h) hne
  · cases h : cfg.wallet.m_subscription.isSome
    · rfl
    · exact absurd (hp3.mp h) hne
  · have : cfg.saves.length = 0 := by
      rw [hsaves]
      rcases hst with hst | hst <;> rw [hst] <;> simp
    exact List.length_eq_zero.mp this
  · cases h : cfg.shuttingDown
    · rfl
    · exact absurd (Or.inl (hshut h).1) hne

theorem step_doLoad_invariant (env : Collaborators C R) (cfg cfg1 : Configuration C R)
    (hinv : cfg.Invariant) (script : LoadScript C)
    (h : cfg.step env (Action.doLoad script) = some cfg1) : cfg1.Invariant := by
  simp only [Configuration.step] at h
  by_cases hpos : 0 < cfg.loads
  · simp only [hpos, if_true] at h
    have hst : cfg.wallet.m_state = WalletState.LOADING := by
      by_contra hne
      have := hinv.2.1
      simp only [hne, if_false] at this
      omega
    have hloads : cfg.loads = 1 := by
      have := hinv.2.1
      simpa [hst] using this
    obtain ⟨n1, n2, n3, hsaves, hshut⟩ := invariant_pointers_unset cfg hinv (Or.inr hst)
    unfold WalletLegacy.doLoad at h
    cases hd : script.deserialize with
    | error e =>
      simp only [hd, Configuration.after, Configuration.spawn, Option.some.injEq] at h
      rw [← h]
      refine ⟨⟨?_, ?_, ?_⟩, ?_, ?_, ?_⟩
      · simp [delAsyncContext, n1]
      · simp [delAsyncContext, n2]
      · simp [delAsyncContext, n3]
      · simp [delAsyncContext, hloads]
      · simp [delAsyncContext, hsaves]
      · intro h1
        simp only [hshut] at h1
        cases h1
    | ok cache =>
      simp only [hd, Configuration.after, Configuration.spawn, Option.some.injEq] at h
      rw [← h]
      by_cases hc : cache.isEmpty = true
      · refine ⟨⟨?_, ?_, ?_⟩, ?_, ?_, ?_⟩
        · simp [hc, delAsyncContext, WalletLegacy.initSync]
        · simp [hc, delAsyncContext, WalletLegacy.initSync]
        · simp [hc, delAsyncContext, WalletLegacy.initSync]
        · simp [hc, delAsyncContext, WalletLegacy.initSync, hloads]
        · simp [hc, delAsyncContext, WalletLegacy.initSync, hsaves]
        · intro h1
          simp only [hshut] at h1
          cases h1
      · refine ⟨⟨?_, ?_, ?_⟩, ?_, ?_, ?_⟩
        · simp [hc, delAsyncContext, WalletLegacy.initSync]
        · simp [hc, delAsyncContext, WalletLegacy.initSync]
        · simp [hc, delAsyncContext, WalletLegacy.initSync]
        · simp [hc, delAsyncContext, WalletLegacy.initSync, hloads]
        · simp [hc, delAsyncContext, WalletLegacy.initSync, hsaves]
        · intro h1
          simp only [hshut] at h1
          cases h1
  · simp [hpos] at h

theorem step_save_invariant (env : Collaborators C R) (cfg cfg1 : Configuration C R)
    (hinv : cfg.Invariant) (saveDetailed saveCache : Bool)
    (h : cfg.step env (Action.save saveDetailed saveCache) = some cfg1) : cfg1.Invariant := by
  simp only [Configuration.step, WalletLegacy.save] at h
  by_cases hstop : cfg.wallet.m_isStopping = true
  · simp only [hstop, if_true, Configuration.after, Configuration.spawn,
      Option.some.injEq] at h
    rw [← h]
    exact hinv
  · by_cases hst : cfg.wallet.m_state = WalletState.INITIALIZED
    · simp only [hstop, hst, ne_eq, not_true_eq_false, if_false, Configuration.after,
        Configuration.spawn, Option.some.injEq, Bool.false_eq_true] at h
      rw [← h]
      obtain ⟨⟨hp1, hp2, hp3⟩, hloads, hsaves, hshut⟩ := hinv
      rw [hst] at hp1 hp2 hp3 hloads hsaves
      refine ⟨⟨?_, ?_, ?_⟩, ?_, ?_, ?_⟩
      · simpa [addAsyncContext] using hp1
      · simpa [addAsyncContext] using hp2
      · simpa [addAsyncContext] using hp3
      · simpa [addAsyncContext] using hloads
      · simpa [addAsyncContext] using hsaves
      · intro h1
        exact absurd (hshut h1).2 hstop
    · simp only [hstop, hst, ne_eq, not_false_eq_true, if_true, if_false,
        Configuration.after, throwSystemError, Configuration.spawn, Option.some.injEq,
        Bool.false_eq_true] at h
      rw [← h]
      exact hinv

theorem step_doSave_invariant (env : Collaborators C R) (cfg cfg1 : Configuration C R)
    (hinv : cfg.Invariant) (script : SaveScript)
    (h : cfg.step env (Action.doSave script) = some cfg1) : cfg1.Invariant := by
  simp only [Configuration.step] at h
  cases hsv : cfg.saves with
  | nil => simp [hsv] at h
  | cons flags rest =>
    obtain ⟨saveDetailed, saveCache⟩ := flags
    simp only [hsv] at h
    obtain ⟨hcont, heq⟩ := after_some _ cfg1 _ h
    have hsp : (WalletLegacy.doSave cfg.wallet script saveDetailed saveCache :
        Outcome C R Unit).spawned = [] :=
      (doSave_notified cfg.wallet script saveDetailed saveCache).2.1
    rw [hsp, doSave_wallet] at heq
    simp only [Configuration.spawn] at heq
    obtain ⟨⟨hp1, hp2, hp3⟩, hloads, hsaves, hshut⟩ := hinv
    have hst : cfg.wallet.m_state = WalletState.SAVING := by
      by_contra hne
      simp only [hsv, List.length_cons, hne, if_false] at hsaves
      omega
    have hrest : rest = [] := by
      simp only [hsv, List.length_cons, hst, if_true] at hsaves
      exact List.length_eq_zero.mp (by omega)
    rw [hst] at hp1 hp2 hp3 hloads
    rw [heq]
    refine ⟨⟨?_, ?_, ?_⟩, ?_, ?_, ?_⟩
    · simpa using hp1
    · simpa using hp2
    · simpa using hp3
    · simpa using hloads
    · simp [hrest]
    · intro h1
      have := (hshut h1).1
      rw [hst] at this
      cases this

theorem step_shutdownBegin_invariant (env : Collaborators C R) (cfg cfg1 : Configuration C R)
    (hinv : cfg.Invariant) (h : cfg.step env Action.shutdownBegin = some cfg1) :
    cfg1.Invariant := by
  simp only [Configuration.step] at h
  obtain ⟨e1, e2, e3, e4⟩ := @shutdownBegin_eq C R cfg.wallet
  by_cases hstop : cfg.wallet.m_isStopping = true
  · rw [e1 hstop] at h
    simp only [throwNotDefined, Option.some.injEq] at h
    rw [← h]
    exact hinv
  · have hstop : cfg.wallet.m_isStopping = false := by simpa using hstop
    obtain ⟨⟨hp1, hp2, hp3⟩, hloads, hsaves, hshut⟩ := hinv
    have hnot : cfg.shuttingDown = false := by
      cases hsd : cfg.shuttingDown
      · rfl
      · have := (hshut hsd).2
        rw [hstop] at this
        cases this
    by_cases hst : cfg.wallet.m_state = WalletState.INITIALIZED
    · cases hn : cfg.wallet.m_sender with
      | none =>
        rw [e3 hstop hst hn] at h
        simp at h
      | some sender =>
        rw [e4 hstop hst sender hn] at h
        simp only [Option.some.injEq] at h
        rw [← h]
        refine ⟨⟨hp1, ?_, hp3⟩, hloads, hsaves, ?_⟩
        · simp [hst]
        · intro _
          exact ⟨hst, rfl⟩
    · rw [e2 hstop hst] at h
      simp only [throwNotDefined, Option.some.injEq] at h
      rw [← h]
      refine ⟨⟨hp1, hp2, hp3⟩, hloads, hsaves, ?_⟩
      intro h1
      simp only [hnot] at h1
      cases h1

theorem step_shutdownEnd_invariant (env : Collaborators C R) (cfg cfg1 : Configuration C R)
    (hinv : cfg.Invariant) (h : cfg.step env Action.shutdownEnd = some cfg1) :
    cfg1.Invariant := by
  simp only [Configuration.step] at h
  by_cases hg : cfg.shuttingDown = true ∧ cfg.wallet.m_asyncContextCounter = 0
  · simp only [hg, and_self, if_true] at h
    obtain ⟨⟨hp1, hp2, hp3⟩, hloads, hsaves, hshut⟩ := hinv
    have hst := (hshut hg.1).1
    rw [hst] at hloads hsaves
    unfold WalletLegacy.shutdownEnd at h
    cases hsub : cfg.wallet.m_subscription with
    | none => simp [hsub] at h
    | some sub =>
      simp only [hsub, Option.some.injEq] at h
      rw [← h]
      refine ⟨⟨?_, ?_, ?_⟩, ?_, ?_, ?_⟩
      · simp
      · simp
      · simp
      · simpa using hloads
      · simpa using hsaves
      · intro h1
        cases h1
  · simp [hg] at h

theorem step_containerChanged_invariant (env : Collaborators C R)
    (cfg cfg1 : Configuration C R) (hinv : cfg.Invariant) (container : ITransfersContainer)
    (h : cfg.step env (Action.containerChanged container) = some cfg1) : cfg1.Invariant := by
  simp only [Configuration.step] at h
  by_cases hs : cfg.wallet.m_transferDetails.isSome = true
  · simp only [hs, if_true, Option.some.injEq] at h
    rw [← h]
    refine invariant_of_lifecycle cfg _ ?_ rfl rfl rfl hinv
    simp [WalletLegacy.lifecycle, WalletLegacy.setEnvironment, hs]
  · simp [hs] at h

theorem cancelTransaction_keeps (w : WalletLegacy C) (transactionId : Nat) :
    (WalletLegacy.cancelTransaction w transactionId : Outcome C R ErrorCode).KeepsLifecycle w :=
  ⟨rfl, Or.inl rfl⟩

theorem step_invariant (env : Collaborators C R) (cfg cfg1 : Configuration C R)
    (hinv : cfg.Invariant) (action : Action C R) (h : cfg.step env action = some cfg1) :
    cfg1.Invariant := by
  cases action with
  | initAndGenerate password generated container =>
    exact (step_init_invariant env cfg cfg1 hinv password generated generated.m_keys
      container).1 h
  | initWithKeys accountKeys password container =>
    exact (step_init_invariant env cfg cfg1 hinv password cfg.wallet.m_account accountKeys
      container).2.1 h
  | initAndLoad password =>
    exact (step_init_invariant env cfg cfg1 hinv password cfg.wallet.m_account
      cfg.wallet.m_account.m_keys
      { balance := fun _ => 0, getOutputs := fun _ => [],
        getTransactionInformation := fun _ => ⟨false, ⟨0, 0⟩, 0, 0⟩,
        getTransactionOutputs := fun _ _ => [], getTransactionInputs := fun _ _ => [] }).2.2 h
  | doLoad script => exact step_doLoad_invariant env cfg cfg1 hinv script h
  | save saveDetailed saveCache =>
    exact step_save_invariant env cfg cfg1 hinv saveDetailed saveCache h
  | doSave script => exact step_doSave_invariant env cfg cfg1 hinv script h
  | shutdownBegin => exact step_shutdownBegin_invariant env cfg cfg1 hinv h
  | shutdownEnd => exact step_shutdownEnd_invariant env cfg cfg1 hinv h
  | changePassword oldPassword newPassword =>
    exact after_keepsLifecycle cfg cfg1 _ hinv
      (fun _ => changePassword_keeps cfg.wallet oldPassword newPassword) h
  | cancelTransaction transactionId =>
    exact after_keepsLifecycle cfg cfg1 _ hinv
      (fun _ => cancelTransaction_keeps cfg.wallet transactionId) h
  | sendTransaction transfers args =>
    exact after_keepsLifecycle cfg cfg1 _ hinv
      (fun _ => sendTransaction_keeps env cfg.wallet transfers args) h
  | deposit term amount fee mixIn =>
    exact after_keepsLifecycle cfg cfg1 _ hinv
      (fun _ => deposit_keeps env cfg.wallet term amount fee mixIn) h
  | withdrawDeposits depositIds fee =>
    exact after_keepsLifecycle cfg cfg1 _ hinv
      (fun _ => withdrawDeposits_keeps env cfg.wallet depositIds fee) h
  | callback index ec =>
    simp only [Configuration.step] at h
    cases hreq : cfg.requests[index]? with
    | none => simp [hreq] at h
    | some rc =>
      obtain ⟨request, callback⟩ := rc
      simp only [hreq] at h
      exact after_keepsLifecycle { cfg with requests := cfg.requests.eraseIdx index } cfg1 _
        hinv (fun hc => performCallback_keeps env cfg.wallet request callback ec hc) h
  | onTransactionUpdated transactionHash =>
    exact after_keepsLifecycle cfg cfg1 _ hinv
      (fun _ => onTransactionUpdated_keeps env cfg.wallet transactionHash) h
  | onTransactionDeleted transactionHash =>
    exact after_keepsLifecycle cfg cfg1 _ hinv
      (fun _ => onTransactionDeleted_keeps env cfg.wallet transactionHash) h
  | synchronizationProgressUpdated current total =>
    exact after_keepsLifecycle cfg cfg1 _ hinv
      (fun _ => synchronizationProgressUpdated_keeps env cfg.wallet current total) h
  | synchronizationCompleted result =>
    exact after_keepsLifecycle cfg cfg1 _ hinv
      (fun _ => synchronizationCompleted_keeps env cfg.wallet result) h
  | containerChanged container =>
    exact step_containerChanged_invariant env cfg cfg1 hinv container h

theorem initial_invariant (cache : C) (account : AccountBase) :
    (Configuration.initial cache account : Configuration C R).Invariant := by
  refine ⟨⟨?_, ?_, ?_⟩, ?_, ?_, ?_⟩ <;>
    simp [Configuration.initial, WalletLegacy.new]

theorem run_invariant (env : Collaborators C R) :
    ∀ (actions : List (Action C R)) (cfg cfg1 : Configuration C R),
      cfg.Invariant → Configuration.run env cfg actions = some cfg1 → cfg1.Invariant := by
  intro actions
  induction actions with
  | nil =>
    intro cfg cfg1 hinv h
    simp only [Configuration.run, Option.some.injEq] at h
    rw [← h]
    exact hinv
  | cons action rest ih =>
    intro cfg cfg1 hinv h
    simp only [Configuration.run] at h
    cases hstep : cfg.step env action with
    | none => simp [hstep] at h
    | some next =>
      simp only [hstep] at h
      exact ih next cfg1 (step_invariant env cfg next hinv action hstep) h

theorem calculate_error_of_container (env : Collaborators C R) (w : WalletLegacy C)
    (container : ITransfersContainer) (hc : w.m_transferDetails = some container)
    (axis : BalanceAxis) (f : Failure)
    (h : WalletLegacy.calculate env w axis = Except.error f) : f = Failure.assertion := by
  cases axis
  · simp [WalletLegacy.calculate, WalletLegacy.calculateActualBalance, hc] at h
  · simp [WalletLegacy.calculate, WalletLegacy.calculatePendingBalance, hc] at h
  · rcases (depositBalance_error env w f).1 h with hf | hf
    · subst hf
      simp only [WalletLegacy.calculate, WalletLegacy.calculateActualDepositBalance, hc] at h
      cases hh : getTransactionHeights container
          (container.getOutputs
            [IncludeFlag.IncludeTypeDeposit, IncludeFlag.IncludeStateUnlocked]) with
      | error g =>
        have := getTransactionHeights_error container _ g hh
        subst this
        simp [hh] at h
      | ok heights =>
        simp only [hh] at h
        cases hd : calculateDepositsAmount
            (container.getOutputs
              [IncludeFlag.IncludeTypeDeposit, IncludeFlag.IncludeStateUnlocked])
            env.m_currency heights with
        | error g =>
          have hl : (container.getOutputs
              [IncludeFlag.IncludeTypeDeposit, IncludeFlag.IncludeStateUnlocked]).length ≤
              heights.length := by
            rw [getTransactionHeights_eq_map container _ heights hh, List.length_map]
          rw [calculateDepositsAmount_ok env.m_currency _ heights hl] at hd
          cases hd
        | ok amount => simp [hd] at h
    · exact hf
  · rcases (depositBalance_error env w f).2 h with hf | hf
    · subst hf
      simp only [WalletLegacy.calculate, WalletLegacy.calculatePendingDepositBalance, hc] at h
      cases hh : getTransactionHeights container
          (container.getOutputs
            [IncludeFlag.IncludeTypeDeposit, IncludeFlag.IncludeStateLocked,
              IncludeFlag.IncludeStateSoftLocked]) with
      | error g =>
        have := getTransactionHeights_error container _ g hh
        subst this
        simp [hh] at h
      | ok heights =>
        simp only [hh] at h
        cases hd : calculateDepositsAmount
            (container.getOutputs
              [IncludeFlag.IncludeTypeDeposit, IncludeFlag.IncludeStateLocked,
                IncludeFlag.IncludeStateSoftLocked])
            env.m_currency heights with
        | error g =>
          have hl : (container.getOutputs
              [IncludeFlag.IncludeTypeDeposit, IncludeFlag.IncludeStateLocked,
                IncludeFlag.IncludeStateSoftLocked]).length ≤ heights.length := by
            rw [getTransactionHeights_eq_map container _ heights hh, List.length_map]
          rw [calculateDepositsAmount_ok env.m_currency _ heights hl] at hd
          cases hd
        | ok amount => simp [hd] at h
    · exact hf

theorem getBalanceChangedEvent_error_of_container (env : Collaborators C R)
    (w : WalletLegacy C) (container : ITransfersContainer)
    (hc : w.m_transferDetails = some container) (axis : BalanceAxis) (f : Failure)
    (h : WalletLegacy.getBalanceChangedEvent env w axis = Except.error f) :
    f = Failure.assertion := by
  cases hcalc : WalletLegacy.calculate env w axis with
  | error g =>
    have hg := calculate_error_of_container env w container hc axis g hcalc
    cases axis <;>
      simp only [WalletLegacy.calculate] at hcalc <;>
      simp only [WalletLegacy.getBalanceChangedEvent,
        WalletLegacy.getActualBalanceChangedEvent, WalletLegacy.getPendingBalanceChangedEvent,
        WalletLegacy.getActualDepositBalanceChangedEvent,
        WalletLegacy.getPendingDepositBalanceChangedEvent, hcalc, Except.error.injEq] at h <;>
      rw [← h] <;> exact hg
  | ok v =>
    obtain ⟨w1, hget, _⟩ := getBalanceChangedEvent_of_calculate env w axis v hcalc
    rw [hget] at h
    cases h

theorem pushBalanceUpdatedEvents_failure (env : Collaborators C R) (w : WalletLegacy C)
    (container : ITransfersContainer) (hc : w.m_transferDetails = some container)
    (eventsQueue : List WalletLegacyEvent) (f : Failure)
    (h : (WalletLegacy.pushBalanceUpdatedEvents env w eventsQueue).2.2 = some f) :
    f = Failure.assertion := by
  unfold WalletLegacy.pushBalanceUpdatedEvents at h
  cases h1 : WalletLegacy.getActualDepositBalanceChangedEvent env w with
  | error g =>
    simp only [h1, Option.some.injEq] at h
    rw [← h]
    exact getBalanceChangedEvent_error_of_container env w container hc
      BalanceAxis.actualDeposit g h1
  | ok p1 =>
    obtain ⟨e1, w1⟩ := p1
    have c1 := ((getBalanceChangedEvent_frame env w BalanceAxis.actualDeposit e1 w1
      h1).1.2.2.2.2.1).trans hc
    simp only [h1] at h
    cases h2 : WalletLegacy.getPendingDepositBalanceChangedEvent env w1 with
    | error g =>
      simp only [h2, Option.some.injEq] at h
      rw [← h]
      exact getBalanceChangedEvent_error_of_container env w1 container c1
        BalanceAxis.pendingDeposit g h2
    | ok p2 =>
      obtain ⟨e2, w2⟩ := p2
      have c2 := ((getBalanceChangedEvent_frame env w1 BalanceAxis.pendingDeposit e2 w2
        h2).1.2.2.2.2.1).trans c1
      simp only [h2] at h
      cases h3 : WalletLegacy.getActualBalanceChangedEvent env w2 with
      | error g =>
        simp only [h3, Option.some.injEq] at h
        rw [← h]
        exact getBalanceChangedEvent_error_of_container env w2 container c2
          BalanceAxis.actual g h3
      | ok p3 =>
        obtain ⟨e3, w3⟩ := p3
        have c3 := ((getBalanceChangedEvent_frame env w2 BalanceAxis.actual e3 w3
          h3).1.2.2.2.2.1).trans c2
        simp only [h3] at h
        cases h4 : WalletLegacy.getPendingBalanceChangedEvent env w3 with
        | error g =>
          simp only [h4, Option.some.injEq] at h
          rw [← h]
          exact getBalanceChangedEvent_error_of_container env w3 container c3
            BalanceAxis.pending g h4
        | ok p4 =>
          obtain ⟨e4, w4⟩ := p4
          simp [h4] at h

theorem finishDepositRequest_failure (env : Collaborators C R) (w : WalletLegacy C)
    (container : ITransfersContainer) (hc : w.m_transferDetails = some container)
    (r : RequestResult C R) (f : Failure)
    (h : (WalletLegacy.finishDepositRequest env w r).result = Except.error f) :
    f = Failure.assertion := by
  unfold WalletLegacy.finishDepositRequest at h
  cases hreq : r.request with
  | none =>
    simp only [hreq] at h
    rw [(notifyAndPerform_spec _ _ _ _).1] at h
    cases h
  | some request =>
    simp only [hreq] at h
    have hf := pushBalanceUpdatedEvents_failure env
      { w with m_transactionsCache := r.cache } container hc r.events
    rcases hp : WalletLegacy.pushBalanceUpdatedEvents env
        { w with m_transactionsCache := r.cache } r.events with ⟨w2, queue, g⟩
    rw [hp] at h hf
    cases g with
    | some g =>
      simp only [Except.error.injEq] at h
      rw [← h]
      exact hf g rfl
    | none =>
      simp only [] at h
      rw [(notifyAndPerform_spec _ _ _ _).1] at h
      cases h

theorem throwIfNotInitialised_of_pointers (w : WalletLegacy C) (hp : w.PointersMatchState) :
    WalletLegacy.throwIfNotInitialised w ≠ Except.error Failure.assertion ∧
    WalletLegacy.throwIfNotInitialised w ≠ Except.error Failure.nullDereference ∧
    (WalletLegacy.throwIfNotInitialised w = Except.ok () →
      ∃ container sender,
        w.m_transferDetails = some container ∧ w.m_sender = some sender) := by
  obtain ⟨hp1, hp2, _⟩ := hp
  unfold WalletLegacy.throwIfNotInitialised
  by_cases hst : w.m_state = WalletState.NOT_INITIALIZED ∨ w.m_state = WalletState.LOADING
  · simp [hst, throwSystemError]
  · have hinit : w.m_state = WalletState.INITIALIZED ∨ w.m_state = WalletState.SAVING := by
      cases hs : w.m_state <;> simp [hs] at hst ⊢
    have h1 := hp1.mpr hinit
    have h2 := hp2.mpr hinit
    simp only [hst, if_false, h1, if_true]
    refine ⟨by simp, by simp, fun _ => ?_⟩
    obtain ⟨container, hc⟩ := Option.isSome_iff_exists.mp h1
    obtain ⟨sender, hs⟩ := Option.isSome_iff_exists.mp h2
    exact ⟨container, sender, hc, hs⟩

theorem guarded_calls_never_null (env : Collaborators C R) (w : WalletLegacy C)
    (hp : w.PointersMatchState) (transfers : List WalletLegacyTransfer)
    (transfer : WalletLegacyTransfer) (args : SendArguments) (term amount fee mixIn : Nat)
    (depositIds : List DepositId) :
    (WalletLegacy.sendTransaction env w transfers args).result ≠
      Except.error Failure.nullDereference ∧
    (WalletLegacy.sendTransaction1 env w transfer args).result ≠
      Except.error Failure.nullDereference ∧
    (WalletLegacy.deposit env w term amount fee mixIn).result ≠
      Except.error Failure.nullDereference ∧
    (WalletLegacy.withdrawDeposits env w depositIds fee).result ≠
      Except.error Failure.nullDereference ∧
    WalletLegacy.actualBalance env w ≠ Except.error Failure.nullDereference ∧
    WalletLegacy.pendingBalance env w ≠ Except.error Failure.nullDereference ∧
    WalletLegacy.actualDepositBalance env w ≠ Except.error Failure.nullDereference ∧
    WalletLegacy.pendingDepositBalance env w ≠ Except.error Failure.nullDereference := by
  obtain ⟨_, hnull, hok⟩ := throwIfNotInitialised_of_pointers w hp
  cases hg : WalletLegacy.throwIfNotInitialised w with
  | error f =>
    have hf : f ≠ Failure.nullDereference := by
      intro hf
      rw [hf] at hg
      exact hnull hg
    have key : (Except.error f : Except Failure Nat) ≠ Except.error Failure.nullDereference := by
      intro h
      exact hf (Except.error.inj h)
    refine ⟨?_, ?_, ?_, ?_, ?_, ?_, ?_, ?_⟩
    · simp only [WalletLegacy.sendTransaction, hg]
      exact key
    · simp only [WalletLegacy.sendTransaction1, hg]
      exact key
    · simp only [WalletLegacy.deposit, hg]
      exact key
    · simp only [WalletLegacy.withdrawDeposits, hg]
      exact key
    · simp only [WalletLegacy.actualBalance, hg]
      exact key
    · simp only [WalletLegacy.pendingBalance, hg]
      exact key
    · simp only [WalletLegacy.actualDepositBalance, hg]
      exact key
    · simp only [WalletLegacy.pendingDepositBalance, hg]
      exact key
  | ok u =>
    obtain ⟨container, sender, hc, hs⟩ := hok hg
    have hsend : ∀ ts, (WalletLegacy.sendTransaction env w ts args).result ≠
        Except.error Failure.nullDereference := by
      intro ts
      simp only [WalletLegacy.sendTransaction, hg, hc, hs]
      rw [(notifyAndPerform_spec _ _ _ _).1]
      simp
    have hfin : ∀ r : RequestResult C R,
        (WalletLegacy.finishDepositRequest env w r).result ≠
          Except.error Failure.nullDereference := by
      intro r h
      have := finishDepositRequest_failure env w container hc r _ h
      cases this
    have hcalc : ∀ axis, WalletLegacy.calculate env w axis ≠
        Except.error Failure.nullDereference := by
      intro axis h
      have := calculate_error_of_container env w container hc axis _ h
      cases this
    refine ⟨hsend _, ?_, ?_, ?_, ?_, ?_, ?_, ?_⟩
    · simp only [WalletLegacy.sendTransaction1, hg]
      exact hsend _
    · simp only [WalletLegacy.deposit, hg, hc, hs]
      exact hfin _
    · simp only [WalletLegacy.withdrawDeposits, hg, hc, hs]
      exact hfin _
    · simp only [WalletLegacy.actualBalance, hg]
      exact hcalc BalanceAxis.actual
    · simp only [WalletLegacy.pendingBalance, hg]
      exact hcalc BalanceAxis.pending
    · simp only [WalletLegacy.actualDepositBalance, hg]
      exact hcalc BalanceAxis.actualDeposit
    · simp only [WalletLegacy.pendingDepositBalance, hg]
      exact hcalc BalanceAxis.pendingDeposit

/-- Claim C17.  In every configuration reached from the constructor by any sequence of
calls of `initAndGenerate`, `initWithKeys`, `initAndLoad`, `save`, `shutdown` (its two
critical sections), `changePassword` and the transaction and synchroniser calls, and of
runs of the launched `doLoad`, `doSave` and request workers, the container pointer is
set exactly when the state is `INITIALIZED` or `SAVING`, and so is the sender.  Hence
the `assert` in `throwIfNotInitialised` does not fail there; a wallet that passes
`throwIfNotInitialised` has both the container and the sender; and none of the calls
guarded by `throwIfNotInitialised` that use them (`sendTransaction`, `deposit`,
`withdrawDeposits` and the four balance getters) dereferences a null pointer. -/
theorem pointers_match_state_on_every_run (env : Collaborators C R) (cache : C)
    (account : AccountBase) (actions : List (Action C R)) (cfg : Configuration C R)
    (h : Configuration.run env (Configuration.initial cache account) actions = some cfg) :
    (cfg.wallet.m_transferDetails.isSome = true ↔
      (cfg.wallet.m_state = WalletState.INITIALIZED ∨
        cfg.wallet.m_state = WalletState.SAVING)) ∧
    (cfg.wallet.m_sender.isSome = true ↔
      (cfg.wallet.m_state = WalletState.INITIALIZED ∨
        cfg.wallet.m_state = WalletState.SAVING)) ∧
    WalletLegacy.throwIfNotInitialised cfg.wallet ≠ Except.error Failure.assertion ∧
    (WalletLegacy.throwIfNotInitialised cfg.wallet = Except.ok () →
      ∃ container sender,
        cfg.wallet.m_transferDetails = some container ∧ cfg.wallet.m_sender = some sender) ∧
    (∀ (transfers : List WalletLegacyTransfer) (transfer : WalletLegacyTransfer)
      (args : SendArguments) (term amount fee mixIn : Nat) (depositIds : List DepositId),
      (WalletLegacy.sendTransaction env cfg.wallet transfers args).result ≠
        Except.error Failure.nullDereference ∧
      (WalletLegacy.sendTransaction1 env cfg.wallet transfer args).result ≠
        Except.error Failure.nullDereference ∧
      (WalletLegacy.deposit env cfg.wallet term amount fee mixIn).result ≠
        Except.error Failure.nullDereference ∧
      (WalletLegacy.withdrawDeposits env cfg.wallet depositIds fee).result ≠
        Except.error Failure.nullDereference ∧
      WalletLegacy.actualBalance env cfg.wallet ≠ Except.error Failure.nullDereference ∧
      WalletLegacy.pendingBalance env cfg.wallet ≠ Except.error Failure.nullDereference ∧
      WalletLegacy.actualDepositBalance env cfg.wallet ≠
        Except.error Failure.nullDereference ∧
      WalletLegacy.pendingDepositBalance env cfg.wallet ≠
        Except.error Failure.nullDereference) := by
  have hinv := run_invariant env actions _ cfg (initial_invariant cache account) h
  have hp := hinv.1
  obtain ⟨hassert, _, hok⟩ := throwIfNotInitialised_of_pointers cfg.wallet hp
  exact ⟨hp.1, hp.2.1, hassert, hok,
    fun transfers transfer args term amount fee mixIn depositIds =>
      guarded_calls_never_null env cfg.wallet hp transfers transfer args term amount fee mixIn
        depositIds⟩

/-- Witness of `pointers_match_state_on_every_run`: the example run can be taken to its
end.  After its first seven steps the wallet is `INITIALIZED` with both pointers set and
passes `throwIfNotInitialised`; at its end the wallet is `NOT_INITIALIZED` with both
pointers null. -/
theorem pointers_match_state_on_every_run_witness :
    Configuration.run exampleCollaborators (Configuration.initial emptyCache exampleAccount)
      (exampleRun.take 7) = some (exampleRunEnd (exampleRun.take 7)) ∧
    (exampleRunEnd (exampleRun.take 7)).wallet.m_state = WalletState.INITIALIZED ∧
    (exampleRunEnd (exampleRun.take 7)).wallet.m_transferDetails.isSome = true ∧
    (exampleRunEnd (exampleRun.take 7)).wallet.m_sender.isSome = true ∧
    WalletLegacy.throwIfNotInitialised (exampleRunEnd (exampleRun.take 7)).wallet =
      Except.ok () ∧
    (WalletLegacy.sendTransaction exampleCollaborators
      (exampleRunEnd (exampleRun.take 7)).wallet [exampleTransfer] exampleArguments).result ≠
      Except.error Failure.nullDereference ∧
    Configuration.run exampleCollaborators (Configuration.initial emptyCache exampleAccount)
      exampleRun = some (exampleRunEnd exampleRun) ∧
    (exampleRunEnd exampleRun).wallet.m_state = WalletState.NOT_INITIALIZED ∧
    (exampleRunEnd exampleRun).wallet.m_transferDetails.isSome = false ∧
    (exampleRunEnd exampleRun).wallet.m_sender.isSome = false :=
  ⟨rfl, rfl,
    (pointers_match_state_on_every_run exampleCollaborators emptyCache exampleAccount
      (exampleRun.take 7) (exampleRunEnd (exampleRun.take 7)) rfl).1.mpr (Or.inl rfl),
    (pointers_match_state_on_every_run exampleCollaborators emptyCache exampleAccount
      (exampleRun.take 7) (exampleRunEnd (exampleRun.take 7)) rfl).2.1.mpr (Or.inl rfl),
    rfl,
    ((pointers_match_state_on_every_run exampleCollaborators emptyCache exampleAccount
      (exampleRun.take 7) (exampleRunEnd (exampleRun.take 7)) rfl).2.2.2.2
      [exampleTransfer] exampleTransfer exampleArguments 0 0 0 0 []).1,
    rfl, rfl, rfl, rfl⟩

end CryptoNote
